import Mathlib

/-!
Block LSTM kernels: `tensorflow/contrib/rnn/kernels/lstm_ops.cc`

A shallow embedding of the four kernels of `lstm_ops.cc`

* `LSTMCellBlockOp::Compute`      (single timestep, forward),
* `LSTMCellBlockGradOp::Compute`  (single timestep, backward),
* `LSTMBlockOp::Compute`          (sequence scan, forward),
* `LSTMBlockGradOp::Compute`      (sequence scan, backward),

and of the helper `CuBlasGemm`, followed by theorems about them.

Modelling conventions.

* A tensor is represented at the rank at which the kernel views it
  (`matrix<float>()`, `vec<float>()`): its `dim_size` values and its flat,
  row-major contents.  `float` is an arbitrary type `α`; only `0` (and, for
  gradient accumulation, `+`) is ever used by the kernels themselves.
* `int64` values are integers.  The one `int64` operation of the kernels that
  can leave the range is the initial value `sequence_len_max - 1` of the
  backward loop (line 582): `int64_pred` computes it modulo `2 ^ 64`.  The
  backward functor takes its three sizes as `const int` (lines 322-325):
  `int_of_int64` is the conversion of the `int64` arguments.  The forward
  functor is handed the sizes unconverted; the two agree for sizes below
  `2 ^ 31`.
* The cell functors `functor::LSTMCellBlockFprop` / `LSTMCellBlockBprop` are
  declared in `lstm_ops.h`, which is not part of the sources at hand.  They are
  parameters of the kernels: functions from the views they are handed to the
  new contents of the views they may write.  `CellFprop` is the forward functor
  as section 4.2 of the specification describes it, over a scalar type with
  the two nonlinearities as parameters.
* The `OpKernelContext` is explicit state: the status, the allocated outputs
  and a log of the functor invocations, in call order.
* `Compute` returns `none` exactly where the source has undefined behaviour:
  reading `x_tensors[0]` of an empty list, dereferencing `std::max_element` of
  an empty vector, indexing a tensor list out of range (as the backward loop
  does after the overflow of `sequence_len_max - 1`).
* Freshly allocated buffers hold arbitrary contents: `uninit k i` is what the
  `k`-th allocation site of a kernel finds in cell `i`.
* Failures of the framework calls wrapped in `OP_REQUIRES_OK` (`ctx->input`,
  `allocate_output`, `allocate_temp`) are environmental and not modelled.
-/

namespace tensorflow

/-! ## Tensors -/

/-- Rank-2 tensor as seen through `matrix<float>()`: `dim_size(0)`,
`dim_size(1)` and the flat contents. -/
structure Matrix (α : Type) where
  dim0 : Int
  dim1 : Int
  flat : List α
deriving DecidableEq

/-- Rank-1 tensor as seen through `vec<float>()`: `dim_size(0)` and the
contents. -/
structure Vec (α : Type) where
  dim0 : Int
  flat : List α
deriving DecidableEq

/-- What `allocate_output` / `allocate_temp` / `OpOutputList::allocate` hand
back for `TensorShape({d0, d1})`: a buffer of `d0 * d1` cells whose contents
are whatever the allocator left there (`uninit`). -/
def Matrix.allocate {α : Type} (uninit : Nat → α) (d0 d1 : Int) : Matrix α :=
  { dim0 := d0, dim1 := d1, flat := (List.range (d0 * d1).toNat).map uninit }

/-- Allocation for `TensorShape({d0})`. -/
def Vec.allocate {α : Type} (uninit : Nat → α) (d0 : Int) : Vec α :=
  { dim0 := d0, flat := (List.range d0.toNat).map uninit }

/-- Modelled from the spec: `functor::TensorMemZero` is declared in
`lstm_ops.h`, which is absent; the spec calls its effect "zero-filled": every
cell of the flat view it is given becomes zero. -/
def TensorMemZero {α : Type} [Zero α] (x : List α) : List α :=
  List.replicate x.length 0

/-- Modelled from the spec: `functor::TensorMemCopy` is declared in
`lstm_ops.h`, which is absent; the spec: "copy the freshly produced
previous-state gradient into the running buffer".  The destination view
receives the contents of the source view. -/
def TensorMemCopy {α : Type} (src _dst : List α) : List α :=
  src

/-- The call `TensorMemZero()(device, t->flat<float>())` on a matrix. -/
def Matrix.memZero {α : Type} [Zero α] (m : Matrix α) : Matrix α :=
  { m with flat := TensorMemZero m.flat }

/-- The call `TensorMemZero()(device, t->flat<float>())` on a vector. -/
def Vec.memZero {α : Type} [Zero α] (v : Vec α) : Vec α :=
  { v with flat := TensorMemZero v.flat }

/-- A functor wrote `out` through a mutable view of `m`: the contents change,
the shape does not. -/
def Matrix.written {α : Type} (m : Matrix α) (out : List α) : Matrix α :=
  { m with flat := out }

/-- A functor wrote `out` through a mutable view of `v`. -/
def Vec.written {α : Type} (v : Vec α) (out : List α) : Vec α :=
  { v with flat := out }

/-- Every cell of the buffer is zero. -/
def Matrix.allZero {α : Type} [Zero α] (m : Matrix α) : Prop :=
  ∀ e ∈ m.flat, e = 0

/-- Every cell of the buffer is zero. -/
def Vec.allZero {α : Type} [Zero α] (v : Vec α) : Prop :=
  ∀ e ∈ v.flat, e = 0

/-- Row `i` of the matrix: the `dim_size(1)` cells of the flat contents that
start at `i * dim_size(1)`. -/
def Matrix.row {α : Type} (m : Matrix α) (i : Nat) : List α :=
  (m.flat.drop (i * m.dim1.toNat)).take m.dim1.toNat

/-! ## Status -/

/-- The `OP_REQUIRES` sites of `lstm_ops.cc`, named after the message each one
formats.  Every one of them raises `errors::InvalidArgument`. -/
inductive Error where
  | minibatch_sequence_len_max
  | initial_state_dim0
  | initial_state_dim1
  | states_prev_dim0
  | states_prev_dim1
  | w_dim0
  | w_dim1
  | b_dim0
  | states_dim0
  | states_dim1
  | h_grad_dim0
  | h_grad_dim1
  | states_grad_dim0
  | states_grad_dim1
deriving DecidableEq

/-- The status of an `OpKernelContext` after `Compute`. -/
inductive Status where
  | OK
  | InvalidArgument (e : Error)
deriving DecidableEq

/-- The error is one of the dimension checks (anything but the
sequence-length check). -/
def Error.isShape : Error → Bool
  | .minibatch_sequence_len_max => false
  | _ => true

/-- The value `*std::max_element(v.begin(), v.end())`: the iterator starts at
the first element and moves to a later one only when that one is strictly
larger.  Dereferencing the result for an empty vector is undefined. -/
def max_element : List Int → Option Int
  | [] => none
  | a :: rest => some (rest.foldl (fun largest v => if largest < v then v else largest) a)

/-- The least value of `int64`. -/
def INT64_MIN : Int := -9223372036854775808

/-- The greatest value of `int64`. -/
def INT64_MAX : Int := 9223372036854775807

/-- The value of `z - 1` computed in `int64` (line 582,
`int64 t = sequence_len_max - 1`).  For an `int64` value `z` the difference
leaves the range of `int64` only at `z = INT64_MIN`; there the subtraction
overflows, and the two's-complement result, taken modulo `2 ^ 64`, is
`INT64_MAX`.  (On integers above the range, which no `int64` variable holds,
the result is `z - 1` itself.) -/
def int64_pred (z : Int) : Int :=
  if INT64_MIN ≤ z - 1 then z - 1 else (z - 1 + 2 ^ 63) % 2 ^ 64 - 2 ^ 63

/-- The conversion of an `int64` argument to a parameter of type `const int`
(32 bits), as at the call of `functor::LSTMCellBlockBprop` (lines 322-325):
the value modulo `2 ^ 32`, in the signed range. -/
def int_of_int64 (z : Int) : Int :=
  (z + 2 ^ 31) % 2 ^ 32 - 2 ^ 31

/-! ## The cell functors (parameters) -/

/-- New contents of the three mutable views of `LSTMCellBlockFprop`. -/
structure FpropOut (α : Type) where
  xh : List α
  h : List α
  states : List α
deriving DecidableEq

/-- The type of `functor::LSTMCellBlockFprop<Device, USE_CUBLAS>::operator()`,
arguments in source order after `ctx, stream, device`:
`batch_size, input_size, cell_size, forget_bias, x, xh, states_prev, w, b, h,
states`. -/
abbrev LSTMCellBlockFprop (α : Type) : Type :=
  Int → Int → Int → α → Matrix α → Matrix α → Matrix α → Matrix α → Vec α →
    Matrix α → Matrix α → FpropOut α

/-- One invocation of the forward functor: the arguments it was handed. -/
structure FpropCall (α : Type) where
  batch_size : Int
  input_size : Int
  cell_size : Int
  forget_bias : α
  x : Matrix α
  xh : Matrix α
  states_prev : Matrix α
  w : Matrix α
  b : Vec α
  h : Matrix α
  states : Matrix α
deriving DecidableEq

/-- The result of the invocation. -/
def FpropCall.run {α : Type} (fprop : LSTMCellBlockFprop α) (c : FpropCall α) : FpropOut α :=
  fprop c.batch_size c.input_size c.cell_size c.forget_bias c.x c.xh c.states_prev c.w c.b
    c.h c.states

/-! ## `LSTMBlockOp` (forward sequence scan) -/

/-- Attributes read by the constructor of `LSTMBlockOp`. -/
structure LSTMBlockOp (α : Type) where
  sequence_len_max_ : Int
  cell_size_ : Int
  forget_bias_ : α

/-- Inputs of `LSTMBlockOp::Compute`. -/
structure LSTMBlockInputs (α : Type) where
  sequence_len : List Int
  initial_state : Matrix α
  x : List (Matrix α)
  w : Matrix α
  b : Vec α

/-- The context after `LSTMBlockOp::Compute`: status, the allocated slots of
the output lists `h` and `states`, and the functor invocations in call order,
each with the value of the loop variable `t`. -/
structure LSTMBlockContext (α : Type) where
  status : Status
  h : List (Matrix α)
  states : List (Matrix α)
  calls : List (Nat × FpropCall α)

/-- The context left by a failed `OP_REQUIRES` of the forward scan: nothing
has been allocated, nothing has been invoked. -/
def LSTMBlockContext.failure {α : Type} (e : Error) : LSTMBlockContext α :=
  { status := Status.InvalidArgument e, h := [], states := [], calls := [] }

/-- Lines 389-417: the six `OP_REQUIRES` of the forward scan, in source
order. -/
def LSTMBlockOp.validate {α : Type} (op : LSTMBlockOp α) (inp : LSTMBlockInputs α)
    (batch_size input_size sequence_len_max : Int) : Status :=
  let state_size := op.cell_size_ * 7
  if ¬ (sequence_len_max ≤ op.sequence_len_max_) then
    Status.InvalidArgument Error.minibatch_sequence_len_max
  else if ¬ (inp.initial_state.dim0 = batch_size) then
    Status.InvalidArgument Error.initial_state_dim0
  else if ¬ (inp.initial_state.dim1 = state_size) then
    Status.InvalidArgument Error.initial_state_dim1
  else if ¬ (inp.w.dim0 = input_size + op.cell_size_) then
    Status.InvalidArgument Error.w_dim0
  else if ¬ (inp.w.dim1 = op.cell_size_ * 4) then
    Status.InvalidArgument Error.w_dim1
  else if ¬ (inp.b.dim0 = op.cell_size_ * 4) then
    Status.InvalidArgument Error.b_dim0
  else
    Status.OK

/-- The mutable buffers of the forward scan between iterations. -/
structure LSTMBlockState (α : Type) where
  h : List (Matrix α)
  states : List (Matrix α)
  xh : Matrix α
  calls : List (Nat × FpropCall α)

/-- Lines 422-438: every slot `t < sequence_len_max_` of `h` and `states` is
allocated and zeroed; the scratch `xh` is allocated and left as it is. -/
def LSTMBlockOp.allocate {α : Type} [Zero α] (op : LSTMBlockOp α) (uninit : Nat → Nat → α)
    (batch_size input_size : Int) : LSTMBlockState α :=
  let state_size := op.cell_size_ * 7
  { h := (List.range op.sequence_len_max_.toNat).map
      (fun _ => (Matrix.allocate (uninit 0) batch_size op.cell_size_).memZero)
    states := (List.range op.sequence_len_max_.toNat).map
      (fun _ => (Matrix.allocate (uninit 1) batch_size state_size).memZero)
    xh := Matrix.allocate (uninit 2) batch_size (input_size + op.cell_size_)
    calls := [] }

/-- Lines 441-453: the body of the compute loop at loop variable `t`. -/
def LSTMBlockOp.step {α : Type} (op : LSTMBlockOp α) (fprop : LSTMCellBlockFprop α)
    (inp : LSTMBlockInputs α) (batch_size input_size : Int) (t : Nat)
    (st : LSTMBlockState α) : Option (LSTMBlockState α) :=
  match inp.x[t]?, (if t ≤ 0 then some inp.initial_state else st.states[t - 1]?),
      st.states[t]?, st.h[t]? with
  | some x_tensor, some states_prev_tensor, some states_tensor, some h_tensor =>
    let call : FpropCall α :=
      { batch_size := batch_size, input_size := input_size, cell_size := op.cell_size_
        forget_bias := op.forget_bias_, x := x_tensor, xh := st.xh
        states_prev := states_prev_tensor, w := inp.w, b := inp.b
        h := h_tensor, states := states_tensor }
    let out := call.run fprop
    some { h := st.h.set t (h_tensor.written out.h)
           states := st.states.set t (states_tensor.written out.states)
           xh := st.xh.written out.xh
           calls := st.calls ++ [(t, call)] }
  | _, _, _, _ => none

/-- Line 440: `for (int64 t = 0; t < sequence_len_max; ++t)`, as the number
`n` of iterations run so far. -/
def LSTMBlockOp.loop {α : Type} (op : LSTMBlockOp α) (fprop : LSTMCellBlockFprop α)
    (inp : LSTMBlockInputs α) (batch_size input_size : Int) :
    Nat → LSTMBlockState α → Option (LSTMBlockState α)
  | 0, st => some st
  | n + 1, st =>
    match LSTMBlockOp.loop op fprop inp batch_size input_size n st with
    | some st1 => LSTMBlockOp.step op fprop inp batch_size input_size n st1
    | none => none

/-- `LSTMBlockOp::Compute`. -/
def LSTMBlockOp.Compute {α : Type} [Zero α] (op : LSTMBlockOp α)
    (fprop : LSTMCellBlockFprop α) (uninit : Nat → Nat → α) (inp : LSTMBlockInputs α) :
    Option (LSTMBlockContext α) :=
  match inp.x[0]?, max_element inp.sequence_len with
  | some x0, some sequence_len_max =>
    let batch_size := x0.dim0
    let input_size := x0.dim1
    match LSTMBlockOp.validate op inp batch_size input_size sequence_len_max with
    | Status.InvalidArgument e => some (LSTMBlockContext.failure e)
    | Status.OK =>
      match LSTMBlockOp.loop op fprop inp batch_size input_size sequence_len_max.toNat
          (LSTMBlockOp.allocate op uninit batch_size input_size) with
      | some st => some { status := Status.OK, h := st.h, states := st.states, calls := st.calls }
      | none => none
  | _, _ => none

/-! ## `LSTMCellBlockOp` (single timestep, forward) -/

/-- Attributes read by the constructor of `LSTMCellBlockOp`. -/
structure LSTMCellBlockOp (α : Type) where
  cell_size_ : Int
  forget_bias_ : α

/-- Inputs of `LSTMCellBlockOp::Compute`. -/
structure LSTMCellBlockInputs (α : Type) where
  x : Matrix α
  states_prev : Matrix α
  w : Matrix α
  b : Vec α

/-- The context after `LSTMCellBlockOp::Compute`. -/
structure LSTMCellBlockContext (α : Type) where
  status : Status
  h : Option (Matrix α)
  states : Option (Matrix α)
  calls : List (FpropCall α)

/-- Lines 96-118: the five `OP_REQUIRES` of the single-timestep forward op. -/
def LSTMCellBlockOp.validate {α : Type} (op : LSTMCellBlockOp α) (inp : LSTMCellBlockInputs α) :
    Status :=
  let batch_size := inp.x.dim0
  let input_size := inp.x.dim1
  let state_size := op.cell_size_ * 7
  if ¬ (inp.states_prev.dim0 = batch_size) then
    Status.InvalidArgument Error.states_prev_dim0
  else if ¬ (inp.states_prev.dim1 = state_size) then
    Status.InvalidArgument Error.states_prev_dim1
  else if ¬ (inp.w.dim0 = input_size + op.cell_size_) then
    Status.InvalidArgument Error.w_dim0
  else if ¬ (inp.w.dim1 = op.cell_size_ * 4) then
    Status.InvalidArgument Error.w_dim1
  else if ¬ (inp.b.dim0 = op.cell_size_ * 4) then
    Status.InvalidArgument Error.b_dim0
  else
    Status.OK

/-- `LSTMCellBlockOp::Compute`. -/
def LSTMCellBlockOp.Compute {α : Type} (op : LSTMCellBlockOp α) (fprop : LSTMCellBlockFprop α)
    (uninit : Nat → Nat → α) (inp : LSTMCellBlockInputs α) : LSTMCellBlockContext α :=
  let batch_size := inp.x.dim0
  let input_size := inp.x.dim1
  let state_size := op.cell_size_ * 7
  match LSTMCellBlockOp.validate op inp with
  | Status.InvalidArgument e =>
    { status := Status.InvalidArgument e, h := none, states := none, calls := [] }
  | Status.OK =>
    let h_tensor := Matrix.allocate (uninit 0) batch_size op.cell_size_
    let states_tensor := Matrix.allocate (uninit 1) batch_size state_size
    let xh_tensor := Matrix.allocate (uninit 2) batch_size (input_size + op.cell_size_)
    let call : FpropCall α :=
      { batch_size := batch_size, input_size := input_size, cell_size := op.cell_size_
        forget_bias := op.forget_bias_, x := inp.x, xh := xh_tensor
        states_prev := inp.states_prev, w := inp.w, b := inp.b
        h := h_tensor, states := states_tensor }
    let out := call.run fprop
    { status := Status.OK
      h := some (h_tensor.written out.h)
      states := some (states_tensor.written out.states)
      calls := [call] }

/-! ## The backward cell functor (parameter) -/

/-- New contents of the six mutable views of `LSTMCellBlockBprop`. -/
structure BpropOut (α : Type) where
  xh : List α
  xh_grad : List α
  x_grad : List α
  states_prev_grad : List α
  w_grad : List α
  b_grad : List α
deriving DecidableEq

/-- The type of `functor::LSTMCellBlockBprop<Device, USE_CUBLAS>::operator()`,
arguments in source order after `ctx, stream, device`:
`batch_size, input_size, cell_size, x, xh, states_prev, w, b, states, h_grad,
states_grad, xh_grad, x_grad, states_prev_grad, w_grad, b_grad`. -/
abbrev LSTMCellBlockBprop (α : Type) : Type :=
  Int → Int → Int → Matrix α → Matrix α → Matrix α → Matrix α → Vec α → Matrix α →
    Matrix α → Matrix α → Matrix α → Matrix α → Matrix α → Matrix α → Vec α → BpropOut α

/-- One invocation of the backward functor: the arguments it was handed. -/
structure BpropCall (α : Type) where
  batch_size : Int
  input_size : Int
  cell_size : Int
  x : Matrix α
  xh : Matrix α
  states_prev : Matrix α
  w : Matrix α
  b : Vec α
  states : Matrix α
  h_grad : Matrix α
  states_grad : Matrix α
  xh_grad : Matrix α
  x_grad : Matrix α
  states_prev_grad : Matrix α
  w_grad : Matrix α
  b_grad : Vec α
deriving DecidableEq

/-- The result of the invocation. -/
def BpropCall.run {α : Type} (bprop : LSTMCellBlockBprop α) (c : BpropCall α) : BpropOut α :=
  bprop c.batch_size c.input_size c.cell_size c.x c.xh c.states_prev c.w c.b c.states
    c.h_grad c.states_grad c.xh_grad c.x_grad c.states_prev_grad c.w_grad c.b_grad

/-! ## `LSTMCellBlockGradOp` (single timestep, backward) -/

/-- Attributes read by the constructor of `LSTMCellBlockGradOp`. -/
structure LSTMCellBlockGradOp where
  cell_size_ : Int

/-- Inputs of `LSTMCellBlockGradOp::Compute`. -/
structure LSTMCellBlockGradInputs (α : Type) where
  x : Matrix α
  states_prev : Matrix α
  w : Matrix α
  b : Vec α
  states : Matrix α
  h_grad : Matrix α
  states_grad : Matrix α

/-- The context after `LSTMCellBlockGradOp::Compute`. -/
structure LSTMCellBlockGradContext (α : Type) where
  status : Status
  x_grad : Option (Matrix α)
  states_prev_grad : Option (Matrix α)
  w_grad : Option (Matrix α)
  b_grad : Option (Vec α)
  calls : List (BpropCall α)

/-- Lines 221-270: the eleven `OP_REQUIRES` of the single-timestep backward
op. -/
def LSTMCellBlockGradOp.validate {α : Type} (op : LSTMCellBlockGradOp)
    (inp : LSTMCellBlockGradInputs α) : Status :=
  let batch_size := inp.x.dim0
  let input_size := inp.x.dim1
  let state_size := op.cell_size_ * 7
  if ¬ (inp.states_prev.dim0 = batch_size) then
    Status.InvalidArgument Error.states_prev_dim0
  else if ¬ (inp.states_prev.dim1 = state_size) then
    Status.InvalidArgument Error.states_prev_dim1
  else if ¬ (inp.w.dim0 = input_size + op.cell_size_) then
    Status.InvalidArgument Error.w_dim0
  else if ¬ (inp.w.dim1 = op.cell_size_ * 4) then
    Status.InvalidArgument Error.w_dim1
  else if ¬ (inp.b.dim0 = op.cell_size_ * 4) then
    Status.InvalidArgument Error.b_dim0
  else if ¬ (inp.states.dim0 = batch_size) then
    Status.InvalidArgument Error.states_dim0
  else if ¬ (inp.states.dim1 = state_size) then
    Status.InvalidArgument Error.states_dim1
  else if ¬ (inp.h_grad.dim0 = batch_size) then
    Status.InvalidArgument Error.h_grad_dim0
  else if ¬ (inp.h_grad.dim1 = op.cell_size_) then
    Status.InvalidArgument Error.h_grad_dim1
  else if ¬ (inp.states_grad.dim0 = batch_size) then
    Status.InvalidArgument Error.states_grad_dim0
  else if ¬ (inp.states_grad.dim1 = state_size) then
    Status.InvalidArgument Error.states_grad_dim1
  else
    Status.OK

/-- `LSTMCellBlockGradOp::Compute`.  The functor receives the `int64` values
`batch_size`, `input_size` and `cell_size_` through parameters of type
`const int`. -/
def LSTMCellBlockGradOp.Compute {α : Type} [Zero α] (op : LSTMCellBlockGradOp)
    (bprop : LSTMCellBlockBprop α) (uninit : Nat → Nat → α) (inp : LSTMCellBlockGradInputs α) :
    LSTMCellBlockGradContext α :=
  let batch_size := inp.x.dim0
  let input_size := inp.x.dim1
  match LSTMCellBlockGradOp.validate op inp with
  | Status.InvalidArgument e =>
    { status := Status.InvalidArgument e, x_grad := none, states_prev_grad := none
      w_grad := none, b_grad := none, calls := [] }
  | Status.OK =>
    let x_grad_tensor := Matrix.allocate (uninit 0) batch_size input_size
    let states_prev_grad_tensor := Matrix.allocate (uninit 1) batch_size (op.cell_size_ * 7)
    let w_grad_tensor :=
      (Matrix.allocate (uninit 2) (input_size + op.cell_size_) (op.cell_size_ * 4)).memZero
    let b_grad_tensor := (Vec.allocate (uninit 3) (op.cell_size_ * 4)).memZero
    let xh_tensor := Matrix.allocate (uninit 4) batch_size (input_size + op.cell_size_)
    let xh_grad_tensor := Matrix.allocate (uninit 5) batch_size (input_size + op.cell_size_)
    let call : BpropCall α :=
      { batch_size := int_of_int64 batch_size, input_size := int_of_int64 input_size
        cell_size := int_of_int64 op.cell_size_
        x := inp.x, xh := xh_tensor, states_prev := inp.states_prev, w := inp.w, b := inp.b
        states := inp.states, h_grad := inp.h_grad, states_grad := inp.states_grad
        xh_grad := xh_grad_tensor, x_grad := x_grad_tensor
        states_prev_grad := states_prev_grad_tensor
        w_grad := w_grad_tensor, b_grad := b_grad_tensor }
    let out := call.run bprop
    { status := Status.OK
      x_grad := some (x_grad_tensor.written out.x_grad)
      states_prev_grad := some (states_prev_grad_tensor.written out.states_prev_grad)
      w_grad := some (w_grad_tensor.written out.w_grad)
      b_grad := some (b_grad_tensor.written out.b_grad)
      calls := [call] }

/-! ## `LSTMBlockGradOp` (backward sequence scan) -/

/-- Attributes read by the constructor of `LSTMBlockGradOp`. -/
structure LSTMBlockGradOp where
  sequence_len_max_ : Int
  cell_size_ : Int

/-- Inputs of `LSTMBlockGradOp::Compute`. -/
structure LSTMBlockGradInputs (α : Type) where
  sequence_len : List Int
  initial_state : Matrix α
  x : List (Matrix α)
  w : Matrix α
  b : Vec α
  states : List (Matrix α)
  h_grad : List (Matrix α)

/-- The context after `LSTMBlockGradOp::Compute`: status, the allocated slots
of the output list `x_grad`, the outputs `w_grad` and `b_grad`, and the functor
invocations in call order, each with the value of the loop variable `t`. -/
structure LSTMBlockGradContext (α : Type) where
  status : Status
  x_grad : List (Matrix α)
  w_grad : Option (Matrix α)
  b_grad : Option (Vec α)
  calls : List (Nat × BpropCall α)

/-- The context left by a failed `OP_REQUIRES` of the backward scan. -/
def LSTMBlockGradContext.failure {α : Type} (e : Error) : LSTMBlockGradContext α :=
  { status := Status.InvalidArgument e, x_grad := [], w_grad := none, b_grad := none, calls := [] }

/-- Lines 515-534: the four `OP_REQUIRES` of the backward scan, in source
order. -/
def LSTMBlockGradOp.validate {α : Type} (op : LSTMBlockGradOp) (inp : LSTMBlockGradInputs α)
    (input_size sequence_len_max : Int) : Status :=
  if ¬ (sequence_len_max ≤ op.sequence_len_max_) then
    Status.InvalidArgument Error.minibatch_sequence_len_max
  else if ¬ (inp.w.dim0 = input_size + op.cell_size_) then
    Status.InvalidArgument Error.w_dim0
  else if ¬ (inp.w.dim1 = op.cell_size_ * 4) then
    Status.InvalidArgument Error.w_dim1
  else if ¬ (inp.b.dim0 = op.cell_size_ * 4) then
    Status.InvalidArgument Error.b_dim0
  else
    Status.OK

/-- The mutable buffers of the backward scan between iterations. -/
structure LSTMBlockGradState (α : Type) where
  x_grad : List (Matrix α)
  w_grad : Matrix α
  b_grad : Vec α
  xh : Matrix α
  xh_grad : Matrix α
  states_grad : Matrix α
  states_prev_grad : Matrix α
  calls : List (Nat × BpropCall α)

/-- Lines 542-580: `w_grad` and `b_grad` are allocated and zeroed, every slot
`t < sequence_len_max_` of `x_grad` is allocated and zeroed, the scratch
buffers are allocated, and of those only `states_grad` is zeroed. -/
def LSTMBlockGradOp.allocate {α : Type} [Zero α] (op : LSTMBlockGradOp) (uninit : Nat → Nat → α)
    (batch_size input_size : Int) : LSTMBlockGradState α :=
  let state_size := op.cell_size_ * 7
  { w_grad := (Matrix.allocate (uninit 0) (input_size + op.cell_size_) (op.cell_size_ * 4)).memZero
    b_grad := (Vec.allocate (uninit 1) (op.cell_size_ * 4)).memZero
    x_grad := (List.range op.sequence_len_max_.toNat).map
      (fun _ => (Matrix.allocate (uninit 2) batch_size input_size).memZero)
    xh := Matrix.allocate (uninit 3) batch_size (input_size + op.cell_size_)
    xh_grad := Matrix.allocate (uninit 4) batch_size (input_size + op.cell_size_)
    states_grad := (Matrix.allocate (uninit 5) batch_size state_size).memZero
    states_prev_grad := Matrix.allocate (uninit 6) batch_size state_size
    calls := [] }

/-- Lines 592-601: the arguments of the functor invocation in the backward
loop, given the tensors picked for this `t` and the buffers in `st`.  The
`int64` values `batch_size`, `input_size` and `cell_size_` reach the functor
through parameters of type `const int`. -/
def LSTMBlockGradOp.call {α : Type} (op : LSTMBlockGradOp) (inp : LSTMBlockGradInputs α)
    (batch_size input_size : Int) (st : LSTMBlockGradState α)
    (x_tensor states_prev_tensor states_tensor h_grad_tensor x_grad_tensor : Matrix α) :
    BpropCall α :=
  { batch_size := int_of_int64 batch_size, input_size := int_of_int64 input_size
    cell_size := int_of_int64 op.cell_size_
    x := x_tensor, xh := st.xh, states_prev := states_prev_tensor, w := inp.w, b := inp.b
    states := states_tensor, h_grad := h_grad_tensor, states_grad := st.states_grad
    xh_grad := st.xh_grad, x_grad := x_grad_tensor
    states_prev_grad := st.states_prev_grad
    w_grad := st.w_grad, b_grad := st.b_grad }

/-- Lines 592-606: the buffers after the invocation `call` of loop variable
`t` and the `TensorMemCopy` of `states_prev_grad` into `states_grad` that
follows it. -/
def LSTMBlockGradOp.commit {α : Type} (bprop : LSTMCellBlockBprop α) (st : LSTMBlockGradState α)
    (t : Nat) (call : BpropCall α) : LSTMBlockGradState α :=
  let out := call.run bprop
  let states_prev_grad_tensor := st.states_prev_grad.written out.states_prev_grad
  { x_grad := st.x_grad.set t (call.x_grad.written out.x_grad)
    w_grad := st.w_grad.written out.w_grad
    b_grad := st.b_grad.written out.b_grad
    xh := st.xh.written out.xh
    xh_grad := st.xh_grad.written out.xh_grad
    states_grad :=
      st.states_grad.written (TensorMemCopy states_prev_grad_tensor.flat st.states_grad.flat)
    states_prev_grad := states_prev_grad_tensor
    calls := st.calls ++ [(t, call)] }

/-- Lines 583-606: the body of the backward loop at loop variable `t`: the
tensors of timestep `t` are picked from the lists, the functor is invoked, and
`states_prev_grad` is copied into `states_grad`. -/
def LSTMBlockGradOp.step {α : Type} (op : LSTMBlockGradOp) (bprop : LSTMCellBlockBprop α)
    (inp : LSTMBlockGradInputs α) (batch_size input_size : Int) (t : Nat)
    (st : LSTMBlockGradState α) : Option (LSTMBlockGradState α) :=
  match inp.x[t]?, (if t ≤ 0 then some inp.initial_state else inp.states[t - 1]?),
      inp.states[t]?, inp.h_grad[t]?, st.x_grad[t]? with
  | some x_tensor, some states_prev_tensor, some states_tensor, some h_grad_tensor,
      some x_grad_tensor =>
    some (LSTMBlockGradOp.commit bprop st t
      (LSTMBlockGradOp.call op inp batch_size input_size st x_tensor states_prev_tensor
        states_tensor h_grad_tensor x_grad_tensor))
  | _, _, _, _, _ => none

/-- Line 582: the iterations of `for (int64 t = ...; t >= 0; --t)` from the
value `n - 1` of the loop variable down to `0` (none when `n = 0`, that is
when the loop variable is `-1`).  `Compute` enters it with `n - 1` the initial
value `int64_pred sequence_len_max` of `t`. -/
def LSTMBlockGradOp.loop {α : Type} (op : LSTMBlockGradOp) (bprop : LSTMCellBlockBprop α)
    (inp : LSTMBlockGradInputs α) (batch_size input_size : Int) :
    Nat → LSTMBlockGradState α → Option (LSTMBlockGradState α)
  | 0, st => some st
  | n + 1, st =>
    match LSTMBlockGradOp.step op bprop inp batch_size input_size n st with
    | some st1 => LSTMBlockGradOp.loop op bprop inp batch_size input_size n st1
    | none => none

/-- `LSTMBlockGradOp::Compute`.  The loop of line 582 starts at
`t = int64_pred sequence_len_max`, the `int64` value of
`sequence_len_max - 1`, and runs while `t >= 0`: `t + 1` iterations when that
value is not negative, none otherwise.  For `sequence_len_max = INT64_MIN`
the subtraction overflows, the loop starts at `t = INT64_MAX`, and its first
iteration indexes the tensor lists out of range. -/
def LSTMBlockGradOp.Compute {α : Type} [Zero α] (op : LSTMBlockGradOp)
    (bprop : LSTMCellBlockBprop α) (uninit : Nat → Nat → α) (inp : LSTMBlockGradInputs α) :
    Option (LSTMBlockGradContext α) :=
  match inp.x[0]?, max_element inp.sequence_len with
  | some x0, some sequence_len_max =>
    let batch_size := x0.dim0
    let input_size := x0.dim1
    match LSTMBlockGradOp.validate op inp input_size sequence_len_max with
    | Status.InvalidArgument e => some (LSTMBlockGradContext.failure e)
    | Status.OK =>
      let t := int64_pred sequence_len_max
      match LSTMBlockGradOp.loop op bprop inp batch_size input_size (t + 1).toNat
          (LSTMBlockGradOp.allocate op uninit batch_size input_size) with
      | some st =>
        some { status := Status.OK, x_grad := st.x_grad, w_grad := some st.w_grad
               b_grad := some st.b_grad, calls := st.calls }
      | none => none
  | _, _ => none

/-! ## Loop invariants -/

/-- What the forward scan has done for timestep `t`, read off a loop state
`st`: the `t`-th logged invocation is the one of loop variable `t`; it was
handed `x[t]`, the previous state (`initial_state` for `t = 0`, slot `t - 1` of
`states` otherwise), the op-wide `w`, `b`, `forget_bias`, the sizes, and the
zeroed slots `t` of `h` and `states`; and slots `t` of `h` and `states` hold
what that invocation wrote. -/
def LSTMBlockOp.stepDone {α : Type} [Zero α] (op : LSTMBlockOp α) (fprop : LSTMCellBlockFprop α)
    (uninit : Nat → Nat → α) (inp : LSTMBlockInputs α) (batch_size input_size : Int)
    (h states : List (Matrix α)) (calls : List (Nat × FpropCall α)) (t : Nat) : Prop :=
  ∃ call : FpropCall α,
    calls[t]? = some (t, call) ∧
    inp.x[t]? = some call.x ∧
    (if t ≤ 0 then some inp.initial_state else states[t - 1]?) = some call.states_prev ∧
    call.w = inp.w ∧ call.b = inp.b ∧ call.forget_bias = op.forget_bias_ ∧
    call.batch_size = batch_size ∧ call.input_size = input_size ∧
    call.cell_size = op.cell_size_ ∧
    call.h = (Matrix.allocate (uninit 0) batch_size op.cell_size_).memZero ∧
    call.states = (Matrix.allocate (uninit 1) batch_size (op.cell_size_ * 7)).memZero ∧
    h[t]? = some (call.h.written (call.run fprop).h) ∧
    states[t]? = some (call.states.written (call.run fprop).states)

/-- Invariant of the forward compute loop after `n` iterations. -/
structure LSTMBlockOp.LoopInv {α : Type} [Zero α] (op : LSTMBlockOp α)
    (fprop : LSTMCellBlockFprop α) (uninit : Nat → Nat → α) (inp : LSTMBlockInputs α)
    (batch_size input_size : Int) (n : Nat) (st : LSTMBlockState α) : Prop where
  h_length : st.h.length = op.sequence_len_max_.toNat
  states_length : st.states.length = op.sequence_len_max_.toNat
  calls_length : st.calls.length = n
  untouched : ∀ t, n ≤ t → t < op.sequence_len_max_.toNat →
    st.h[t]? = some (Matrix.allocate (uninit 0) batch_size op.cell_size_).memZero ∧
    st.states[t]? = some (Matrix.allocate (uninit 1) batch_size (op.cell_size_ * 7)).memZero
  done : ∀ t, t < n →
    LSTMBlockOp.stepDone op fprop uninit inp batch_size input_size st.h st.states st.calls t

/-- What the backward scan has done for timestep `t`, read off the output
list `x_grad` and the log `calls` of a loop state, `total` being the number of
iterations of the whole loop: the invocation of loop variable `t` is the
`(total - 1 - t)`-th one; it was handed `x[t]`, the previous state
(`initial_state` for `t = 0`, `states[t - 1]` otherwise), `states[t]`,
`h_grad[t]`, the op-wide `w` and `b`, the sizes as `int` and the zeroed slot
`t` of `x_grad`; slot `t` of `x_grad` holds what it wrote; and its `states_grad` is
the zeroed buffer when `t` is the latest timestep, and otherwise the buffer
holding the `states_prev_grad` written by the invocation of `t + 1`. -/
def LSTMBlockGradOp.stepDone {α : Type} [Zero α] (op : LSTMBlockGradOp)
    (bprop : LSTMCellBlockBprop α) (uninit : Nat → Nat → α) (inp : LSTMBlockGradInputs α)
    (batch_size input_size : Int) (total : Nat)
    (x_grad : List (Matrix α)) (calls : List (Nat × BpropCall α)) (t : Nat) : Prop :=
  ∃ call : BpropCall α,
    calls[total - 1 - t]? = some (t, call) ∧
    inp.x[t]? = some call.x ∧
    (if t ≤ 0 then some inp.initial_state else inp.states[t - 1]?) = some call.states_prev ∧
    inp.states[t]? = some call.states ∧
    inp.h_grad[t]? = some call.h_grad ∧
    call.w = inp.w ∧ call.b = inp.b ∧
    call.batch_size = int_of_int64 batch_size ∧ call.input_size = int_of_int64 input_size ∧
    call.cell_size = int_of_int64 op.cell_size_ ∧
    call.x_grad = (Matrix.allocate (uninit 2) batch_size input_size).memZero ∧
    x_grad[t]? = some (call.x_grad.written (call.run bprop).x_grad) ∧
    (t + 1 = total →
      call.states_grad = (Matrix.allocate (uninit 5) batch_size (op.cell_size_ * 7)).memZero) ∧
    (t + 1 < total → ∃ next : BpropCall α,
      calls[total - 1 - (t + 1)]? = some (t + 1, next) ∧
      call.states_grad =
        (Matrix.allocate (uninit 5) batch_size (op.cell_size_ * 7)).memZero.written
          (next.run bprop).states_prev_grad)

/-- Invariant of the backward loop when `n` of its `total` iterations are
still to run (those of loop variable `n - 1` down to `0`). -/
structure LSTMBlockGradOp.LoopInv {α : Type} [Zero α] (op : LSTMBlockGradOp)
    (bprop : LSTMCellBlockBprop α) (uninit : Nat → Nat → α) (inp : LSTMBlockGradInputs α)
    (batch_size input_size : Int) (total n : Nat) (st : LSTMBlockGradState α) : Prop where
  x_grad_length : st.x_grad.length = op.sequence_len_max_.toNat
  calls_length : st.calls.length + n = total
  untouched : ∀ t, (t < n ∨ total ≤ t) → t < op.sequence_len_max_.toNat →
    st.x_grad[t]? = some (Matrix.allocate (uninit 2) batch_size input_size).memZero
  done : ∀ t, n ≤ t → t < total →
    LSTMBlockGradOp.stepDone op bprop uninit inp batch_size input_size total st.x_grad st.calls t
  running_first : n = total →
    st.states_grad = (Matrix.allocate (uninit 5) batch_size (op.cell_size_ * 7)).memZero
  running_next : n < total → ∃ last : BpropCall α,
    st.calls[total - 1 - n]? = some (n, last) ∧
    st.states_grad =
      (Matrix.allocate (uninit 5) batch_size (op.cell_size_ * 7)).memZero.written
        (last.run bprop).states_prev_grad

/-! ## Accumulation of the weight and bias gradients -/

/-- Two invocations of the backward functor agree on every read-only
argument. -/
def BpropCall.sameInputs {α : Type} (c d : BpropCall α) : Prop :=
  c.batch_size = d.batch_size ∧ c.input_size = d.input_size ∧ c.cell_size = d.cell_size ∧
    c.x = d.x ∧ c.states_prev = d.states_prev ∧ c.w = d.w ∧ c.b = d.b ∧
    c.states = d.states ∧ c.h_grad = d.h_grad ∧ c.states_grad = d.states_grad

/-- Modelled from the spec: the body of `functor::LSTMCellBlockBprop` is in
`lstm_ops.h`, which is absent.  Section 4.3 step 5 of the spec: the bias
gradient and the weight-gradient contribution of a timestep are "added into
the running total, not overwritten".  So the functor leaves in `w_grad` and
`b_grad` what it found there plus, cell by cell, a contribution `dw`, `db` that
is a function of the read-only arguments alone. -/
structure BpropAccumulates {α : Type} [Add α] (bprop : LSTMCellBlockBprop α)
    (dw db : BpropCall α → List α) : Prop where
  dw_inputs : ∀ c d : BpropCall α, c.sameInputs d → dw c = dw d
  db_inputs : ∀ c d : BpropCall α, c.sameInputs d → db c = db d
  w_grad : ∀ c : BpropCall α,
    (c.run bprop).w_grad = List.zipWith (fun a g => a + g) c.w_grad.flat (dw c)
  b_grad : ∀ c : BpropCall α,
    (c.run bprop).b_grad = List.zipWith (fun a g => a + g) c.b_grad.flat (db c)

/-- The inputs with which the single-timestep op `LSTMCellBlockGrad` computes
the same timestep as the invocation `c` of the scan: the `x`, previous state,
`w`, `b`, `states`, `h_grad` and `states_grad` that `c` was handed. -/
def LSTMCellBlockGradInputs.ofCall {α : Type} (c : BpropCall α) : LSTMCellBlockGradInputs α :=
  { x := c.x, states_prev := c.states_prev, w := c.w, b := c.b, states := c.states
    h_grad := c.h_grad, states_grad := c.states_grad }

/-- The contents of the `w_grad` output of the single-timestep op (empty when
the output was not allocated). -/
def LSTMCellBlockGradContext.w_grad_flat {α : Type} (ctx : LSTMCellBlockGradContext α) : List α :=
  match ctx.w_grad with
  | some m => m.flat
  | none => []

/-- The contents of the `b_grad` output of the single-timestep op (empty when
the output was not allocated). -/
def LSTMCellBlockGradContext.b_grad_flat {α : Type} (ctx : LSTMCellBlockGradContext α) : List α :=
  match ctx.b_grad with
  | some v => v.flat
  | none => []

/-- The per-timestep tensors a backward scan over `total` timesteps reads have
the shapes of the data model: every `x[t]` is `Batch x InputSize`,
`initial_state` and every `states[t]` are `Batch x 7*CellSize`, every
`h_grad[t]` is `Batch x CellSize`. -/
def LSTMBlockGradInputs.shapesValid {α : Type} (op : LSTMBlockGradOp)
    (inp : LSTMBlockGradInputs α) (batch_size input_size : Int) (total : Nat) : Prop :=
  (inp.initial_state.dim0 = batch_size ∧ inp.initial_state.dim1 = op.cell_size_ * 7) ∧
  (∀ m ∈ inp.x.take total, m.dim0 = batch_size ∧ m.dim1 = input_size) ∧
  (∀ m ∈ inp.states.take total, m.dim0 = batch_size ∧ m.dim1 = op.cell_size_ * 7) ∧
  (∀ m ∈ inp.h_grad.take total, m.dim0 = batch_size ∧ m.dim1 = op.cell_size_)

/-! ## The forward cell functor, from the spec -/

/-- Entry `(r, k)` of a row-major buffer with `cols` columns (zero when the
buffer is too short). -/
def at2 {α : Type} [Zero α] (flat : List α) (cols r k : Nat) : α :=
  flat.getD (r * cols + k) 0

/-- The row-major buffer with `rows * cols` cells whose entry `(r, k)` is
`e r k`. -/
def tabulate {α : Type} (rows cols : Nat) (e : Nat → Nat → α) : List α :=
  (List.range (rows * cols)).map (fun idx => e (idx / cols) (idx % cols))

/-- The two gate nonlinearities of GateMath (spec section 4.1), as functions on
the scalar type. -/
structure Activations (α : Type) where
  sigmoid : α → α
  tanh : α → α

/-- Modelled from the spec: `functor::LSTMCellBlockFprop` is defined in
`lstm_ops.h`, which is absent.  Spec section 4.2, step 1: entry `(r, k)` of the
ConcatBuffer is the input in the left `InputSize` columns and the previous
hidden output (seventh sub-range of the previous StateVector) in the right
`CellSize` columns. -/
def CellFprop.concat {α : Type} [Zero α] (I C : Nat) (x states_prev : List α) (r k : Nat) : α :=
  if k < I then at2 x I r k else at2 states_prev (7 * C) r (6 * C + (k - I))

/-- Modelled from the spec: section 4.2, step 2 of the absent
`functor::LSTMCellBlockFprop`: entry `(r, c)` of ConcatBuffer x WeightMatrix
plus the bias broadcast over rows. -/
def CellFprop.preact {α : Type} [Zero α] [Add α] [Mul α] (I C : Nat)
    (x states_prev w b : List α) (r c : Nat) : α :=
  (List.range (I + C)).foldl
      (fun acc k => acc + CellFprop.concat I C x states_prev r k * at2 w (4 * C) k c) 0
    + b.getD c 0

/-- Modelled from the spec: section 4.2, steps 3 and 4 of the absent
`functor::LSTMCellBlockFprop`: the input gate is the sigmoid of the first
block of the pre-activation matrix. -/
def CellFprop.inputGate {α : Type} [Zero α] [Add α] [Mul α] (act : Activations α) (I C : Nat)
    (x states_prev w b : List α) (r j : Nat) : α :=
  act.sigmoid (CellFprop.preact I C x states_prev w b r j)

/-- Modelled from the spec: section 4.2, steps 3 and 4 of the absent
`functor::LSTMCellBlockFprop`: the cell gate (candidate) is the tanh of the
second block of the pre-activation matrix. -/
def CellFprop.cellGate {α : Type} [Zero α] [Add α] [Mul α] (act : Activations α) (I C : Nat)
    (x states_prev w b : List α) (r j : Nat) : α :=
  act.tanh (CellFprop.preact I C x states_prev w b r (C + j))

/-- Modelled from the spec: section 4.2, steps 3 and 4 of the absent
`functor::LSTMCellBlockFprop`: the forget gate is the sigmoid of the third
block of the pre-activation matrix after adding ForgetBias to each element. -/
def CellFprop.forgetGate {α : Type} [Zero α] [Add α] [Mul α] (act : Activations α)
    (forget_bias : α) (I C : Nat) (x states_prev w b : List α) (r j : Nat) : α :=
  act.sigmoid (CellFprop.preact I C x states_prev w b r (2 * C + j) + forget_bias)

/-- Modelled from the spec: section 4.2, steps 3 and 4 of the absent
`functor::LSTMCellBlockFprop`: the output gate is the sigmoid of the fourth
block of the pre-activation matrix. -/
def CellFprop.outputGate {α : Type} [Zero α] [Add α] [Mul α] (act : Activations α) (I C : Nat)
    (x states_prev w b : List α) (r j : Nat) : α :=
  act.sigmoid (CellFprop.preact I C x states_prev w b r (3 * C + j))

/-- Modelled from the spec: section 4.2, step 5 of the absent
`functor::LSTMCellBlockFprop`: new cell state = forget-gate * previous cell
state + input-gate * cell-gate, the previous cell state being read from the
sub-range of the previous StateVector in which the new cell state is written
(the sixth). -/
def CellFprop.cellState {α : Type} [Zero α] [Add α] [Mul α] (act : Activations α)
    (forget_bias : α) (I C : Nat) (x states_prev w b : List α) (r j : Nat) : α :=
  CellFprop.forgetGate act forget_bias I C x states_prev w b r j
      * at2 states_prev (7 * C) r (5 * C + j)
    + CellFprop.inputGate act I C x states_prev w b r j
      * CellFprop.cellGate act I C x states_prev w b r j

/-- Modelled from the spec: section 4.2, step 6 of the absent
`functor::LSTMCellBlockFprop`: new hidden output = output-gate * tanh(new
cell state). -/
def CellFprop.hidden {α : Type} [Zero α] [Add α] [Mul α] (act : Activations α)
    (forget_bias : α) (I C : Nat) (x states_prev w b : List α) (r j : Nat) : α :=
  CellFprop.outputGate act I C x states_prev w b r j
    * act.tanh (CellFprop.cellState act forget_bias I C x states_prev w b r j)

/-- Modelled from the spec: section 4.2, step 7 of the absent
`functor::LSTMCellBlockFprop`: entry `(r, k)` of the output StateVector, whose
seven sub-ranges of width `CellSize` hold, in this order, the input gate, the
cell gate, the forget gate, the output gate, the pre-activation cell value
(the cell-gate block of the pre-activation matrix), the new cell state and the
new hidden output. -/
def CellFprop.stateVector {α : Type} [Zero α] [Add α] [Mul α] (act : Activations α)
    (forget_bias : α) (I C : Nat) (x states_prev w b : List α) (r k : Nat) : α :=
  if k < C then CellFprop.inputGate act I C x states_prev w b r k
  else if k < 2 * C then CellFprop.cellGate act I C x states_prev w b r (k - C)
  else if k < 3 * C then CellFprop.forgetGate act forget_bias I C x states_prev w b r (k - 2 * C)
  else if k < 4 * C then CellFprop.outputGate act I C x states_prev w b r (k - 3 * C)
  else if k < 5 * C then CellFprop.preact I C x states_prev w b r (C + (k - 4 * C))
  else if k < 6 * C then CellFprop.cellState act forget_bias I C x states_prev w b r (k - 5 * C)
  else CellFprop.hidden act forget_bias I C x states_prev w b r (k - 6 * C)

/-- Modelled from the spec: `functor::LSTMCellBlockFprop` is defined in
`lstm_ops.h`, which is absent.  CellFprop of spec section 4.2: it fills the
ConcatBuffer `xh` (step 1), the StateVector `states` (steps 2 to 7) and the
hidden-output matrix `h` (step 6), all of them from the read-only arguments
alone. -/
def CellFprop {α : Type} [Zero α] [Add α] [Mul α] (act : Activations α) :
    LSTMCellBlockFprop α :=
  fun batch_size input_size cell_size forget_bias x _ states_prev w b _ _ =>
    let B := batch_size.toNat
    let I := input_size.toNat
    let C := cell_size.toNat
    { xh := tabulate B (I + C) (CellFprop.concat I C x.flat states_prev.flat)
      h := tabulate B C (CellFprop.hidden act forget_bias I C x.flat states_prev.flat w.flat b.flat)
      states := tabulate B (7 * C)
        (CellFprop.stateVector act forget_bias I C x.flat states_prev.flat w.flat b.flat) }

/-- Two invocations of the forward functor agree on every read-only
argument. -/
def FpropCall.sameInputs {α : Type} (c d : FpropCall α) : Prop :=
  c.batch_size = d.batch_size ∧ c.input_size = d.input_size ∧ c.cell_size = d.cell_size ∧
    c.forget_bias = d.forget_bias ∧ c.x = d.x ∧ c.states_prev = d.states_prev ∧
    c.w = d.w ∧ c.b = d.b

/-- Modelled from the spec: the body of `functor::LSTMCellBlockFprop` is in
`lstm_ops.h`, which is absent.  Spec section 4.2: CellFprop writes the whole
ConcatBuffer (step 1, "overwritten every timestep"), the whole StateVector
(step 7) and the whole hidden-output matrix (step 6) ("Output: populated
StateVector and hidden-output matrix for this timestep"), so what it leaves in
its three mutable views is a function of the read-only arguments alone. -/
def FpropOverwrites {α : Type} (fprop : LSTMCellBlockFprop α) : Prop :=
  ∀ c d : FpropCall α, c.sameInputs d → c.run fprop = d.run fprop

/-! ## `CuBlasGemm` -/

/-- The two entries of the local array `trans[]` of `CuBlasGemm`
(`perftools::gputools::blas::Transpose`). -/
inductive Transpose where
  | kNoTranspose
  | kTranspose
deriving DecidableEq

/-- The arguments of one `stream->ThenBlasGemm(...)` launch, in source
order. -/
structure BlasGemmArgs (α P : Type) where
  transa : Transpose
  transb : Transpose
  m : Nat
  n : Nat
  k : Nat
  alpha : α
  a : P
  lda : Int
  b : P
  ldb : Int
  beta : α
  c : P
  ldc : Int
deriving DecidableEq

/-- The two errors that `CuBlasGemm` constructs: `errors::Aborted("CuBlasGemm
failed!")` and `errors::InvalidArgument("CuBlasGemm needs CUDA.")`. -/
inductive GemmError where
  | Aborted_CuBlasGemm_failed
  | InvalidArgument_CuBlasGemm_needs_CUDA
deriving DecidableEq

/-- What a call of `CuBlasGemm` leaves behind: the context, and the launches
it issued on the stream, in order. -/
structure GemmResult (Ctx α P : Type) where
  ctx : Ctx
  launches : List (BlasGemmArgs α P)

/-- `CuBlasGemm` (lines 45-66).  `GOOGLE_CUDA` is the build flag of the `#if`;
`ThenBlasGemm` tells whether the launch with the given arguments reports
`ok()`; `SetStatus ctx e` is the context after the error `e` has been handed to
it, by the failing `OP_REQUIRES` or by `ctx->SetStatus`.  `trans[transa]` picks
`kTranspose` for `true` and `kNoTranspose` for `false`. -/
def CuBlasGemm {Ctx α P : Type} (GOOGLE_CUDA : Bool) (SetStatus : Ctx → GemmError → Ctx)
    (ThenBlasGemm : BlasGemmArgs α P → Bool) (ctx : Ctx) (transa transb : Bool)
    (m n k : Nat) (alpha : α) (a : P) (lda : Int) (b : P) (ldb : Int) (beta : α) (c : P)
    (ldc : Int) : GemmResult Ctx α P :=
  if GOOGLE_CUDA then
    let trans : Bool → Transpose := fun t =>
      if t then Transpose.kTranspose else Transpose.kNoTranspose
    let args : BlasGemmArgs α P :=
      { transa := trans transa, transb := trans transb, m := m, n := n, k := k, alpha := alpha
        a := a, lda := lda, b := b, ldb := ldb, beta := beta, c := c, ldc := ldc }
    let blas_launch_status := ThenBlasGemm args
    if ¬ blas_launch_status then
      { ctx := SetStatus ctx GemmError.Aborted_CuBlasGemm_failed, launches := [args] }
    else
      { ctx := ctx, launches := [args] }
  else
    { ctx := SetStatus ctx GemmError.InvalidArgument_CuBlasGemm_needs_CUDA, launches := [] }

/-! ## A concrete instance

Integer-valued buffers with `Batch = 1`, `InputSize = 1`, `CellSize = 1`,
`MaxLen = 3`, and cell functors that are easy to evaluate by hand. -/

/-- A forward functor on integers: with `s` the sum of the cells of `x`, of
`states_prev` and of `b`, plus `forget_bias`, it writes `s` to `h`, seven
copies of `s` to `states`, and the cells of `x` followed by `s` to `xh`. -/
def demoFprop : LSTMCellBlockFprop Int :=
  fun _ _ _ forget_bias x _ states_prev _ b _ _ =>
    let s := x.flat.sum + states_prev.flat.sum + b.flat.sum + forget_bias
    { xh := x.flat ++ [s], h := [s], states := List.replicate 7 s }

/-- Attributes of the instance: `sequence_len_max = 3`, `cell_size = 1`,
`forget_bias = 1`. -/
def demoOp : LSTMBlockOp Int :=
  { sequence_len_max_ := 3, cell_size_ := 1, forget_bias_ := 1 }

/-- Contents left behind by the allocator in the instance. -/
def demoUninit : Nat → Nat → Int :=
  fun k i => 100 * (k + 1) + i

/-- Inputs of the instance: one example of length 2, three timesteps. -/
def demoInputs : LSTMBlockInputs Int :=
  { sequence_len := [2]
    initial_state := { dim0 := 1, dim1 := 7, flat := [0, 0, 0, 0, 0, 0, 1] }
    x := [{ dim0 := 1, dim1 := 1, flat := [5] }, { dim0 := 1, dim1 := 1, flat := [6] },
          { dim0 := 1, dim1 := 1, flat := [7] }]
    w := { dim0 := 2, dim1 := 4, flat := [1, 2, 3, 4, 5, 6, 7, 8] }
    b := { dim0 := 4, flat := [1, 0, 0, 0] } }

/-- The weight-gradient contribution of the backward functor of the instance:
eight copies of the sum of the cells of `x`, `h_grad` and `states_grad`. -/
def demoDw (c : BpropCall Int) : List Int :=
  List.replicate 8 (c.x.flat.sum + c.h_grad.flat.sum + c.states_grad.flat.sum)

/-- The bias-gradient contribution of the backward functor of the instance:
four copies of the sum of the cells of `h_grad` and `states`. -/
def demoDb (c : BpropCall Int) : List Int :=
  List.replicate 4 (c.h_grad.flat.sum + c.states.flat.sum)

/-- A backward functor on integers which adds `demoDw` and `demoDb` to what it
finds in `w_grad` and `b_grad`. -/
def demoBprop : LSTMCellBlockBprop Int :=
  fun batch_size input_size cell_size x xh states_prev w b states h_grad states_grad xh_grad
      x_grad states_prev_grad w_grad b_grad =>
    let c : BpropCall Int :=
      { batch_size := batch_size, input_size := input_size, cell_size := cell_size, x := x
        xh := xh, states_prev := states_prev, w := w, b := b, states := states
        h_grad := h_grad, states_grad := states_grad, xh_grad := xh_grad, x_grad := x_grad
        states_prev_grad := states_prev_grad, w_grad := w_grad, b_grad := b_grad }
    { xh := x.flat ++ [states_prev.flat.sum]
      xh_grad := [h_grad.flat.sum, states_grad.flat.sum]
      x_grad := [h_grad.flat.sum + states_grad.flat.sum + w.flat.sum]
      states_prev_grad := List.replicate 7 (h_grad.flat.sum + states_grad.flat.sum + 1)
      w_grad := List.zipWith (fun a g => a + g) w_grad.flat (demoDw c)
      b_grad := List.zipWith (fun a g => a + g) b_grad.flat (demoDb c) }

/-- Attributes of the backward instance: `sequence_len_max = 3`,
`cell_size = 1`. -/
def demoGradOp : LSTMBlockGradOp :=
  { sequence_len_max_ := 3, cell_size_ := 1 }

/-- Inputs of the backward instance: those of the forward instance, the
`states` the forward scan returns for them, and a gradient for every `h[t]`. -/
def demoGradInputs : LSTMBlockGradInputs Int :=
  { sequence_len := [2]
    initial_state := demoInputs.initial_state
    x := demoInputs.x
    w := demoInputs.w
    b := demoInputs.b
    states := [{ dim0 := 1, dim1 := 7, flat := [8, 8, 8, 8, 8, 8, 8] },
               { dim0 := 1, dim1 := 7, flat := [64, 64, 64, 64, 64, 64, 64] },
               { dim0 := 1, dim1 := 7, flat := [0, 0, 0, 0, 0, 0, 0] }]
    h_grad := [{ dim0 := 1, dim1 := 1, flat := [1] }, { dim0 := 1, dim1 := 1, flat := [2] },
               { dim0 := 1, dim1 := 1, flat := [3] }] }

/-- Integer stand-ins for the nonlinearities: a gate that is always fully open
(`sigmoid = 1`) and the identity for `tanh`. -/
def demoActivations : Activations Int :=
  { sigmoid := fun _ => 1, tanh := fun z => z }

/-- Attributes of the second instance: `sequence_len_max = 2`, `cell_size = 1`,
`forget_bias = 1`. -/
def demo2Op : LSTMBlockOp Int :=
  { sequence_len_max_ := 2, cell_size_ := 1, forget_bias_ := 1 }

/-- Inputs of the second instance. -/
def demo2Inputs : LSTMBlockInputs Int :=
  { sequence_len := [1, 2]
    initial_state := { dim0 := 2, dim1 := 7, flat := List.replicate 14 0 }
    x := [{ dim0 := 2, dim1 := 1, flat := [3, 4] }, { dim0 := 2, dim1 := 1, flat := [5, 6] }]
    w := { dim0 := 2, dim1 := 4, flat := [1, 1, 1, 1, 1, 1, 1, 1] }
    b := { dim0 := 4, flat := [0, 0, 0, 0] } }


/-- A backward functor on integers that works example by example: entry
`(r, k)` of `x_grad` is `h_grad[r, 0] + states_grad[r, 5]`, entry `(r, k)`
of `states_prev_grad` is `h_grad[r, 0] + states_grad[r, k]`, and the sum of the
cells of `h_grad` is added to every cell of `w_grad` and of `b_grad`. -/
def demoRowBprop : LSTMCellBlockBprop Int :=
  fun batch_size input_size cell_size x _ states_prev _ _ _ h_grad states_grad _ _ _ w_grad
      b_grad =>
    let B := batch_size.toNat
    let I := input_size.toNat
    let C := cell_size.toNat
    { xh := tabulate B (I + C) (CellFprop.concat I C x.flat states_prev.flat)
      xh_grad := tabulate B (I + C) (fun r _ => at2 h_grad.flat C r 0)
      x_grad := tabulate B I
        (fun r _ => at2 h_grad.flat C r 0 + at2 states_grad.flat (7 * C) r 5)
      states_prev_grad := tabulate B (7 * C)
        (fun r k => at2 h_grad.flat C r 0 + at2 states_grad.flat (7 * C) r k)
      w_grad := w_grad.flat.map (fun a => a + h_grad.flat.sum)
      b_grad := b_grad.flat.map (fun a => a + h_grad.flat.sum) }

/-- Attributes of the second backward instance: `sequence_len_max = 2`,
`cell_size = 1`. -/
def demo2GradOp : LSTMBlockGradOp :=
  { sequence_len_max_ := 2, cell_size_ := 1 }

/-- Inputs of the second backward instance: those of the second forward
instance, the `states` the forward scan returns for them with the functor
`CellFprop demoActivations`, and a gradient of one for every cell of `h`. -/
def demo2GradInputs : LSTMBlockGradInputs Int :=
  { sequence_len := demo2Inputs.sequence_len
    initial_state := demo2Inputs.initial_state
    x := demo2Inputs.x
    w := demo2Inputs.w
    b := demo2Inputs.b
    states := [{ dim0 := 2, dim1 := 7, flat := [1, 3, 1, 1, 3, 3, 3, 1, 4, 1, 1, 4, 4, 4] },
               { dim0 := 2, dim1 := 7,
                 flat := [1, 8, 1, 1, 8, 11, 11, 1, 10, 1, 1, 10, 14, 14] }]
    h_grad := [{ dim0 := 2, dim1 := 1, flat := [1, 1] }, { dim0 := 2, dim1 := 1, flat := [1, 1] }] }

/-- An initial state with eight columns where `7 * CellSize = 7` are
expected. -/
def demo2WideState : Matrix Int :=
  { dim0 := 2, dim1 := 8, flat := List.replicate 16 0 }


/-- Attributes of a one-step scan: `sequence_len_max = 1`, `cell_size = 1`,
`forget_bias = 1`. -/
def demo1Op : LSTMBlockOp Int :=
  { sequence_len_max_ := 1, cell_size_ := 1, forget_bias_ := 1 }

/-- Inputs of the one-step scan: timestep 0 of the second instance, both
examples of length 1. -/
def demo1Inputs : LSTMBlockInputs Int :=
  { sequence_len := [1, 1]
    initial_state := demo2Inputs.initial_state
    x := [{ dim0 := 2, dim1 := 1, flat := [3, 4] }]
    w := demo2Inputs.w
    b := demo2Inputs.b }


/-! ## Error precedence of the forward scan, in the words of the claim -/

/-- The backward instance with the sequence length `INT64_MIN`, the least
`int64`, everything else as in `demoGradInputs`. -/
def demoGradInputsMin : LSTMBlockGradInputs Int :=
  { demoGradInputs with sequence_len := [INT64_MIN] }

/-- The second forward instance with both sequence lengths `INT64_MIN`. -/
def demo2InputsMin : LSTMBlockInputs Int :=
  { demo2Inputs with sequence_len := [INT64_MIN, INT64_MIN] }

/-- The second backward instance with both sequence lengths `INT64_MIN`. -/
def demo2GradInputsMin : LSTMBlockGradInputs Int :=
  { demo2GradInputs with sequence_len := [INT64_MIN, INT64_MIN] }

end tensorflow

/-! ## Theorems -/

namespace tensorflow

/-! ### Auxiliary facts -/

theorem getElem?_map_range_const {β : Type} (n t : Nat) (b : β) (ht : t < n) :
    ((List.range n).map (fun _ => b))[t]? = some b := by
  simp [List.getElem?_map, List.getElem?_range ht, List.getElem?_replicate, ht]

theorem foldl_largest_spec (rest : List Int) (a : Int) :
    let m := rest.foldl (fun largest v => if largest < v then v else largest) a
    m ∈ a :: rest ∧ ∀ v ∈ a :: rest, v ≤ m := by
  induction rest generalizing a with
  | nil => simp
  | cons b tl ih =>
    simp only [List.foldl_cons]
    have hpivot : (if a < b then b else a) ∈ [a, b] ∧ a ≤ (if a < b then b else a) ∧
        b ≤ (if a < b then b else a) := by
      split_ifs with hab
      · exact ⟨by simp, by omega, le_refl b⟩
      · exact ⟨by simp, le_refl a, by omega⟩
    generalize (if a < b then b else a) = p at hpivot
    obtain ⟨hp, hap, hbp⟩ := hpivot
    obtain ⟨hmem, hle⟩ := ih p
    have hfirst := hle p (List.mem_cons_self _ _)
    refine ⟨?_, ?_⟩
    · rcases List.mem_cons.mp hmem with h | h
      · rw [h]
        simp only [List.mem_cons, List.mem_singleton, List.not_mem_nil, or_false] at hp
        rcases hp with h1 | h1 <;> simp [h1]
      · exact List.mem_cons_of_mem _ (List.mem_cons_of_mem _ h)
    · intro v hv
      rcases List.mem_cons.mp hv with h | h
      · rw [h]
        exact le_trans hap hfirst
      · rcases List.mem_cons.mp h with h1 | h1
        · rw [h1]
          exact le_trans hbp hfirst
        · exact hle v (List.mem_cons_of_mem _ h1)

theorem max_element_eq_some_iff (l : List Int) (m : Int) :
    max_element l = some m ↔ m ∈ l ∧ ∀ v ∈ l, v ≤ m := by
  cases l with
  | nil => simp [max_element]
  | cons a rest =>
    obtain ⟨hmem, hle⟩ := foldl_largest_spec rest a
    simp only [max_element, Option.some.injEq]
    constructor
    · intro h
      rw [← h]
      exact ⟨hmem, hle⟩
    · rintro ⟨h1, h2⟩
      exact le_antisymm (h2 _ hmem) (hle _ h1)

theorem fwd_allocate_inv {α : Type} [Zero α] (op : LSTMBlockOp α)
    (fprop : LSTMCellBlockFprop α) (uninit : Nat → Nat → α) (inp : LSTMBlockInputs α)
    (batch_size input_size : Int) :
    LSTMBlockOp.LoopInv op fprop uninit inp batch_size input_size 0
      (LSTMBlockOp.allocate op uninit batch_size input_size) where
  h_length := by simp [LSTMBlockOp.allocate]
  states_length := by simp [LSTMBlockOp.allocate]
  calls_length := by simp [LSTMBlockOp.allocate]
  untouched := by
    intro t _ ht
    exact ⟨getElem?_map_range_const _ _ _ ht, getElem?_map_range_const _ _ _ ht⟩
  done := by
    intro t ht
    exact absurd ht (Nat.not_lt_zero t)

theorem fwd_step_inv {α : Type} [Zero α] (op : LSTMBlockOp α)
    (fprop : LSTMCellBlockFprop α) (uninit : Nat → Nat → α) (inp : LSTMBlockInputs α)
    (batch_size input_size : Int) (n : Nat) (st : LSTMBlockState α)
    (hlen : inp.x.length = op.sequence_len_max_.toNat) (hn : n < op.sequence_len_max_.toNat)
    (hinv : LSTMBlockOp.LoopInv op fprop uninit inp batch_size input_size n st) :
    ∃ st1, LSTMBlockOp.step op fprop inp batch_size input_size n st = some st1 ∧
      LSTMBlockOp.LoopInv op fprop uninit inp batch_size input_size (n + 1) st1 := by
  obtain ⟨hh, hs⟩ := hinv.untouched n (Nat.le_refl n) hn
  have hx : inp.x[n]? = some (inp.x[n]) := List.getElem?_eq_getElem (by omega)
  have hprev : ∃ p, (if n ≤ 0 then some inp.initial_state else st.states[n - 1]?) = some p := by
    by_cases h0 : n ≤ 0
    · exact ⟨_, if_pos h0⟩
    · have hlt : n - 1 < st.states.length := by rw [hinv.states_length]; omega
      exact ⟨st.states[n - 1], by rw [if_neg h0]; exact List.getElem?_eq_getElem hlt⟩
  obtain ⟨p, hp⟩ := hprev
  refine ⟨_, by simp only [LSTMBlockOp.step, hx, hp, hs, hh]; rfl, ?_⟩
  refine ⟨by simp [hinv.h_length], by simp [hinv.states_length], by simp [hinv.calls_length],
    ?_, ?_⟩
  · intro t hnt ht
    have hne : n ≠ t := by omega
    obtain ⟨hh1, hs1⟩ := hinv.untouched t (by omega) ht
    exact ⟨by simp only [List.getElem?_set_ne hne, hh1],
      by simp only [List.getElem?_set_ne hne, hs1]⟩
  · intro t ht
    by_cases htn : t = n
    · subst htn
      have hcall : ∀ c : Nat × FpropCall α, (st.calls ++ [c])[t]? = some c := by
        intro c
        have := List.getElem?_concat_length st.calls c
        rwa [hinv.calls_length] at this
      refine ⟨_, hcall _, hx, ?_, rfl, rfl, rfl, rfl, rfl, rfl, rfl, rfl, ?_, ?_⟩
      · by_cases h0 : t ≤ 0
        · rw [if_pos h0] at hp ⊢
          exact hp
        · rw [if_neg h0] at hp ⊢
          rw [List.getElem?_set_ne (by omega)]
          exact hp
      · exact List.getElem?_set_self (by rw [hinv.h_length]; exact hn)
      · exact List.getElem?_set_self (by rw [hinv.states_length]; exact hn)
    · have htlt : t < n := by omega
      obtain ⟨call, hc, hcx, hcp, hw, hb, hf, hB, hI, hC, hch, hcs, hht, hst⟩ := hinv.done t htlt
      refine ⟨call, ?_, hcx, ?_, hw, hb, hf, hB, hI, hC, hch, hcs, ?_, ?_⟩
      · rw [List.getElem?_append_left (by rw [hinv.calls_length]; exact htlt)]
        exact hc
      · by_cases h0 : t ≤ 0
        · rw [if_pos h0] at hcp ⊢
          exact hcp
        · rw [if_neg h0] at hcp ⊢
          rw [List.getElem?_set_ne (by omega)]
          exact hcp
      · rw [List.getElem?_set_ne (by omega)]
        exact hht
      · rw [List.getElem?_set_ne (by omega)]
        exact hst

theorem fwd_loop_inv {α : Type} [Zero α] (op : LSTMBlockOp α)
    (fprop : LSTMCellBlockFprop α) (uninit : Nat → Nat → α) (inp : LSTMBlockInputs α)
    (batch_size input_size : Int) (hlen : inp.x.length = op.sequence_len_max_.toNat) :
    ∀ n, n ≤ op.sequence_len_max_.toNat →
      ∃ st, LSTMBlockOp.loop op fprop inp batch_size input_size n
          (LSTMBlockOp.allocate op uninit batch_size input_size) = some st ∧
        LSTMBlockOp.LoopInv op fprop uninit inp batch_size input_size n st := by
  intro n
  induction n with
  | zero =>
    intro _
    exact ⟨_, rfl, fwd_allocate_inv op fprop uninit inp batch_size input_size⟩
  | succ k ih =>
    intro hk
    obtain ⟨st, hst, hinv⟩ := ih (by omega)
    obtain ⟨st1, hst1, hinv1⟩ :=
      fwd_step_inv op fprop uninit inp batch_size input_size k st hlen (by omega) hinv
    exact ⟨st1, by simp only [LSTMBlockOp.loop, hst, hst1], hinv1⟩

theorem fwd_validate_eq_OK_iff {α : Type} (op : LSTMBlockOp α) (inp : LSTMBlockInputs α)
    (batch_size input_size sequence_len_max : Int) :
    LSTMBlockOp.validate op inp batch_size input_size sequence_len_max = Status.OK ↔
      sequence_len_max ≤ op.sequence_len_max_ ∧
      inp.initial_state.dim0 = batch_size ∧ inp.initial_state.dim1 = op.cell_size_ * 7 ∧
      inp.w.dim0 = input_size + op.cell_size_ ∧ inp.w.dim1 = op.cell_size_ * 4 ∧
      inp.b.dim0 = op.cell_size_ * 4 := by
  simp only [LSTMBlockOp.validate]
  split_ifs <;> simp_all

theorem fwd_Compute_of_valid {α : Type} [Zero α] (op : LSTMBlockOp α)
    (fprop : LSTMCellBlockFprop α) (uninit : Nat → Nat → α) (inp : LSTMBlockInputs α)
    (x0 : Matrix α) (D : Int)
    (hx0 : inp.x[0]? = some x0) (hD : max_element inp.sequence_len = some D)
    (hlen : inp.x.length = op.sequence_len_max_.toNat)
    (hvalid : LSTMBlockOp.validate op inp x0.dim0 x0.dim1 D = Status.OK) :
    ∃ st, LSTMBlockOp.Compute op fprop uninit inp =
        some { status := Status.OK, h := st.h, states := st.states, calls := st.calls } ∧
      LSTMBlockOp.LoopInv op fprop uninit inp x0.dim0 x0.dim1 D.toNat st := by
  have hle : D.toNat ≤ op.sequence_len_max_.toNat :=
    Int.toNat_le_toNat ((fwd_validate_eq_OK_iff op inp _ _ _).mp hvalid).1
  obtain ⟨st, hst, hinv⟩ :=
    fwd_loop_inv op fprop uninit inp x0.dim0 x0.dim1 hlen D.toNat hle
  exact ⟨st, by simp only [LSTMBlockOp.Compute, hx0, hD, hvalid, hst], hinv⟩

theorem fwd_Compute_of_invalid {α : Type} [Zero α] (op : LSTMBlockOp α)
    (fprop : LSTMCellBlockFprop α) (uninit : Nat → Nat → α) (inp : LSTMBlockInputs α)
    (x0 : Matrix α) (D : Int) (e : Error)
    (hx0 : inp.x[0]? = some x0) (hD : max_element inp.sequence_len = some D)
    (hvalid : LSTMBlockOp.validate op inp x0.dim0 x0.dim1 D = Status.InvalidArgument e) :
    LSTMBlockOp.Compute op fprop uninit inp = some (LSTMBlockContext.failure e) := by
  simp only [LSTMBlockOp.Compute, hx0, hD, hvalid]

theorem matrix_memZero_allocate {α : Type} [Zero α] (u : Nat → α) (d0 d1 : Int) :
    (Matrix.allocate u d0 d1).memZero =
      { dim0 := d0, dim1 := d1, flat := List.replicate (d0 * d1).toNat 0 } := by
  simp [Matrix.allocate, Matrix.memZero, TensorMemZero]

theorem vec_memZero_allocate {α : Type} [Zero α] (u : Nat → α) (d0 : Int) :
    (Vec.allocate u d0).memZero = { dim0 := d0, flat := List.replicate d0.toNat 0 } := by
  simp [Vec.allocate, Vec.memZero, TensorMemZero]

theorem fwd_LoopInv_shape {α : Type} [Zero α] {op : LSTMBlockOp α}
    {fprop : LSTMCellBlockFprop α} {uninit : Nat → Nat → α} {inp : LSTMBlockInputs α}
    {batch_size input_size : Int} {n : Nat} {st : LSTMBlockState α}
    (hinv : LSTMBlockOp.LoopInv op fprop uninit inp batch_size input_size n st) (t : Nat)
    (ht : t < op.sequence_len_max_.toNat) :
    ∃ hm sm, st.h[t]? = some hm ∧ st.states[t]? = some sm ∧
      hm.dim0 = batch_size ∧ hm.dim1 = op.cell_size_ ∧
      sm.dim0 = batch_size ∧ sm.dim1 = op.cell_size_ * 7 := by
  by_cases htn : t < n
  · obtain ⟨call, _, _, _, _, _, _, _, _, _, hch, hcs, hht, hst⟩ := hinv.done t htn
    refine ⟨_, _, hht, hst, ?_, ?_, ?_, ?_⟩ <;> simp [Matrix.written, hch, hcs, Matrix.memZero,
      Matrix.allocate]
  · obtain ⟨hh, hs⟩ := hinv.untouched t (by omega) ht
    refine ⟨_, _, hh, hs, ?_, ?_, ?_, ?_⟩ <;> simp [Matrix.memZero, Matrix.allocate]

theorem bwd_allocate_inv {α : Type} [Zero α] (op : LSTMBlockGradOp)
    (bprop : LSTMCellBlockBprop α) (uninit : Nat → Nat → α) (inp : LSTMBlockGradInputs α)
    (batch_size input_size : Int) (total : Nat) :
    LSTMBlockGradOp.LoopInv op bprop uninit inp batch_size input_size total total
      (LSTMBlockGradOp.allocate op uninit batch_size input_size) where
  x_grad_length := by simp [LSTMBlockGradOp.allocate]
  calls_length := by simp [LSTMBlockGradOp.allocate]
  untouched := by
    intro t _ ht
    exact getElem?_map_range_const _ _ _ ht
  done := by
    intro t h1 h2
    omega
  running_first := by
    intro _
    rfl
  running_next := by
    intro h
    omega

theorem bwd_step_inv {α : Type} [Zero α] (op : LSTMBlockGradOp)
    (bprop : LSTMCellBlockBprop α) (uninit : Nat → Nat → α) (inp : LSTMBlockGradInputs α)
    (batch_size input_size : Int) (total n : Nat) (st : LSTMBlockGradState α)
    (hlx : inp.x.length = op.sequence_len_max_.toNat)
    (hls : inp.states.length = op.sequence_len_max_.toNat)
    (hlg : inp.h_grad.length = op.sequence_len_max_.toNat)
    (htot : total ≤ op.sequence_len_max_.toNat) (hn : n + 1 ≤ total)
    (hinv : LSTMBlockGradOp.LoopInv op bprop uninit inp batch_size input_size total (n + 1) st) :
    ∃ st1, LSTMBlockGradOp.step op bprop inp batch_size input_size n st = some st1 ∧
      LSTMBlockGradOp.LoopInv op bprop uninit inp batch_size input_size total n st1 := by
  have hxg := hinv.untouched n (Or.inl (Nat.lt_succ_self n)) (by omega)
  have hx : inp.x[n]? = some (inp.x[n]) := List.getElem?_eq_getElem (by omega)
  have hs : inp.states[n]? = some (inp.states[n]) := List.getElem?_eq_getElem (by omega)
  have hg : inp.h_grad[n]? = some (inp.h_grad[n]) := List.getElem?_eq_getElem (by omega)
  have hprev : ∃ p, (if n ≤ 0 then some inp.initial_state else inp.states[n - 1]?) = some p := by
    by_cases h0 : n ≤ 0
    · exact ⟨_, if_pos h0⟩
    · have hlt : n - 1 < inp.states.length := by omega
      exact ⟨inp.states[n - 1], by rw [if_neg h0]; exact List.getElem?_eq_getElem hlt⟩
  obtain ⟨p, hp⟩ := hprev
  have hcl := hinv.calls_length
  have hidx : total - 1 - n = st.calls.length := by omega
  have hcall : ∀ c : Nat × BpropCall α, (st.calls ++ [c])[total - 1 - n]? = some c := by
    intro c
    rw [hidx]
    exact List.getElem?_concat_length st.calls c
  have hsg : ∀ out : List α,
      st.states_grad.written out =
        (Matrix.allocate (uninit 5) batch_size (op.cell_size_ * 7)).memZero.written out := by
    intro out
    rcases Nat.eq_or_lt_of_le hn with h | h
    · rw [hinv.running_first h]
    · obtain ⟨last, _, hl⟩ := hinv.running_next h
      rw [hl]
      rfl
  refine ⟨_, by simp only [LSTMBlockGradOp.step, hx, hp, hs, hg, hxg]; rfl, ?_⟩
  refine ⟨by simp [LSTMBlockGradOp.commit, hinv.x_grad_length],
    by simp only [LSTMBlockGradOp.commit, List.length_append, List.length_singleton]; omega,
    ?_, ?_, by omega, ?_⟩
  · intro t ht htN
    have hne : n ≠ t := by omega
    simp only [LSTMBlockGradOp.commit, List.getElem?_set_ne hne]
    exact hinv.untouched t (by omega) htN
  · intro t hnt htt
    by_cases htn : t = n
    · subst htn
      refine ⟨_, hcall _, hx, hp, hs, hg, rfl, rfl, rfl, rfl, rfl, rfl, ?_, ?_, ?_⟩
      · simp only [LSTMBlockGradOp.commit, LSTMBlockGradOp.call]
        exact List.getElem?_set_self (by rw [hinv.x_grad_length]; omega)
      · intro h
        exact hinv.running_first h
      · intro h
        obtain ⟨last, hl1, hl2⟩ := hinv.running_next h
        refine ⟨last, ?_, hl2⟩
        simp only [LSTMBlockGradOp.commit]
        rw [List.getElem?_append_left (by omega)]
        exact hl1
    · obtain ⟨call, h1, h2, h3, h4, h5, h6, h7, h8, h9, h10, h11, h12, h13, h14⟩ :=
        hinv.done t (by omega) htt
      refine ⟨call, ?_, h2, h3, h4, h5, h6, h7, h8, h9, h10, h11, ?_, h13, ?_⟩
      · simp only [LSTMBlockGradOp.commit]
        rw [List.getElem?_append_left (by omega)]
        exact h1
      · simp only [LSTMBlockGradOp.commit]
        rw [List.getElem?_set_ne (by omega)]
        exact h12
      · intro h
        obtain ⟨next, hn1, hn2⟩ := h14 h
        refine ⟨next, ?_, hn2⟩
        simp only [LSTMBlockGradOp.commit]
        rw [List.getElem?_append_left (by omega)]
        exact hn1
  · intro _
    refine ⟨_, hcall _, ?_⟩
    simp only [LSTMBlockGradOp.commit, TensorMemCopy]
    exact hsg _

theorem bwd_loop_inv {α : Type} [Zero α] (op : LSTMBlockGradOp)
    (bprop : LSTMCellBlockBprop α) (uninit : Nat → Nat → α) (inp : LSTMBlockGradInputs α)
    (batch_size input_size : Int) (total : Nat)
    (hlx : inp.x.length = op.sequence_len_max_.toNat)
    (hls : inp.states.length = op.sequence_len_max_.toNat)
    (hlg : inp.h_grad.length = op.sequence_len_max_.toNat)
    (htot : total ≤ op.sequence_len_max_.toNat) :
    ∀ n st, n ≤ total →
      LSTMBlockGradOp.LoopInv op bprop uninit inp batch_size input_size total n st →
      ∃ st1, LSTMBlockGradOp.loop op bprop inp batch_size input_size n st = some st1 ∧
        LSTMBlockGradOp.LoopInv op bprop uninit inp batch_size input_size total 0 st1 := by
  intro n
  induction n with
  | zero =>
    intro st _ hinv
    exact ⟨st, rfl, hinv⟩
  | succ k ih =>
    intro st hk hinv
    obtain ⟨st1, hst1, hinv1⟩ :=
      bwd_step_inv op bprop uninit inp batch_size input_size total k st hlx hls hlg htot hk hinv
    obtain ⟨st2, hst2, hinv2⟩ := ih st1 (by omega) hinv1
    exact ⟨st2, by simp only [LSTMBlockGradOp.loop, hst1, hst2], hinv2⟩

theorem bwd_validate_eq_OK_iff {α : Type} (op : LSTMBlockGradOp) (inp : LSTMBlockGradInputs α)
    (input_size sequence_len_max : Int) :
    LSTMBlockGradOp.validate op inp input_size sequence_len_max = Status.OK ↔
      sequence_len_max ≤ op.sequence_len_max_ ∧
      inp.w.dim0 = input_size + op.cell_size_ ∧ inp.w.dim1 = op.cell_size_ * 4 ∧
      inp.b.dim0 = op.cell_size_ * 4 := by
  simp only [LSTMBlockGradOp.validate]
  split_ifs <;> simp_all

theorem int64_pred_of_lt (z : Int) (h : INT64_MIN < z) : int64_pred z = z - 1 := by
  unfold int64_pred
  rw [if_pos (by omega)]

theorem int64_pred_toNat (z : Int) (h : INT64_MIN < z) : (int64_pred z + 1).toNat = z.toNat := by
  rw [int64_pred_of_lt z h, Int.sub_add_cancel]

theorem INT64_MIN_lt_of_pos (z : Int) (h : 1 ≤ z) : INT64_MIN < z := by
  unfold INT64_MIN
  omega

theorem bwd_Compute_of_valid {α : Type} [Zero α] (op : LSTMBlockGradOp)
    (bprop : LSTMCellBlockBprop α) (uninit : Nat → Nat → α) (inp : LSTMBlockGradInputs α)
    (x0 : Matrix α) (D : Int)
    (hx0 : inp.x[0]? = some x0) (hD : max_element inp.sequence_len = some D)
    (hlx : inp.x.length = op.sequence_len_max_.toNat)
    (hls : inp.states.length = op.sequence_len_max_.toNat)
    (hlg : inp.h_grad.length = op.sequence_len_max_.toNat)
    (hvalid : LSTMBlockGradOp.validate op inp x0.dim1 D = Status.OK)
    (hmin : INT64_MIN < D) :
    ∃ st, LSTMBlockGradOp.Compute op bprop uninit inp =
        some { status := Status.OK, x_grad := st.x_grad, w_grad := some st.w_grad
               b_grad := some st.b_grad, calls := st.calls } ∧
      LSTMBlockGradOp.loop op bprop inp x0.dim0 x0.dim1 D.toNat
        (LSTMBlockGradOp.allocate op uninit x0.dim0 x0.dim1) = some st ∧
      LSTMBlockGradOp.LoopInv op bprop uninit inp x0.dim0 x0.dim1 D.toNat 0 st := by
  have hle : D.toNat ≤ op.sequence_len_max_.toNat :=
    Int.toNat_le_toNat ((bwd_validate_eq_OK_iff op inp _ _).mp hvalid).1
  obtain ⟨st, hst, hinv⟩ :=
    bwd_loop_inv op bprop uninit inp x0.dim0 x0.dim1 D.toNat hlx hls hlg hle D.toNat _
      (Nat.le_refl _) (bwd_allocate_inv op bprop uninit inp x0.dim0 x0.dim1 D.toNat)
  exact ⟨st, by simp only [LSTMBlockGradOp.Compute, hx0, hD, hvalid, int64_pred_toNat D hmin, hst],
    hst, hinv⟩

theorem bwd_Compute_of_invalid {α : Type} [Zero α] (op : LSTMBlockGradOp)
    (bprop : LSTMCellBlockBprop α) (uninit : Nat → Nat → α) (inp : LSTMBlockGradInputs α)
    (x0 : Matrix α) (D : Int) (e : Error)
    (hx0 : inp.x[0]? = some x0) (hD : max_element inp.sequence_len = some D)
    (hvalid : LSTMBlockGradOp.validate op inp x0.dim1 D = Status.InvalidArgument e) :
    LSTMBlockGradOp.Compute op bprop uninit inp = some (LSTMBlockGradContext.failure e) := by
  simp only [LSTMBlockGradOp.Compute, hx0, hD, hvalid]

theorem bwd_LoopInv_shape {α : Type} [Zero α] {op : LSTMBlockGradOp}
    {bprop : LSTMCellBlockBprop α} {uninit : Nat → Nat → α} {inp : LSTMBlockGradInputs α}
    {batch_size input_size : Int} {total : Nat} {st : LSTMBlockGradState α}
    (hinv : LSTMBlockGradOp.LoopInv op bprop uninit inp batch_size input_size total 0 st)
    (t : Nat) (ht : t < op.sequence_len_max_.toNat) :
    ∃ m, st.x_grad[t]? = some m ∧ m.dim0 = batch_size ∧ m.dim1 = input_size := by
  by_cases htn : t < total
  · obtain ⟨call, _, _, _, _, _, _, _, _, _, _, hcx, hxg, _, _⟩ := hinv.done t (Nat.zero_le t) htn
    refine ⟨_, hxg, ?_, ?_⟩ <;> simp [Matrix.written, hcx, Matrix.memZero, Matrix.allocate]
  · have hxg := hinv.untouched t (Or.inr (by omega)) ht
    refine ⟨_, hxg, ?_, ?_⟩ <;> simp [Matrix.memZero, Matrix.allocate]

theorem bwd_LoopInv_calls {α : Type} [Zero α] {op : LSTMBlockGradOp}
    {bprop : LSTMCellBlockBprop α} {uninit : Nat → Nat → α} {inp : LSTMBlockGradInputs α}
    {batch_size input_size : Int} {total : Nat} {st : LSTMBlockGradState α}
    (hinv : LSTMBlockGradOp.LoopInv op bprop uninit inp batch_size input_size total 0 st)
    (k : Nat) (p : Nat × BpropCall α) (hp : st.calls[k]? = some p) :
    k < total ∧ p.1 = total - 1 - k := by
  have hk : k < st.calls.length := (List.getElem?_eq_some.mp hp).1
  have hcl := hinv.calls_length
  have hkt : k < total := by omega
  obtain ⟨call, hc, _⟩ := hinv.done (total - 1 - k) (Nat.zero_le _) (by omega)
  have hidx : total - 1 - (total - 1 - k) = k := by omega
  rw [hidx, hp] at hc
  rw [Option.some.inj hc]
  exact ⟨hkt, rfl⟩

theorem bwd_Compute_status {α : Type} [Zero α] (op : LSTMBlockGradOp)
    (bprop : LSTMCellBlockBprop α) (uninit : Nat → Nat → α) (inp : LSTMBlockGradInputs α)
    (x0 : Matrix α) (D : Int) (ctx : LSTMBlockGradContext α)
    (hx0 : inp.x[0]? = some x0) (hD : max_element inp.sequence_len = some D)
    (hc : LSTMBlockGradOp.Compute op bprop uninit inp = some ctx) :
    ctx.status = LSTMBlockGradOp.validate op inp x0.dim1 D := by
  cases hv : LSTMBlockGradOp.validate op inp x0.dim1 D with
  | InvalidArgument e =>
    rw [bwd_Compute_of_invalid op bprop uninit inp x0 D e hx0 hD hv] at hc
    rw [← Option.some.inj hc]
    rfl
  | OK =>
    simp only [LSTMBlockGradOp.Compute, hx0, hD, hv] at hc
    split at hc
    · rw [← Option.some.inj hc]
    · exact absurd hc (by simp)

theorem fwd_Compute_status {α : Type} [Zero α] (op : LSTMBlockOp α)
    (fprop : LSTMCellBlockFprop α) (uninit : Nat → Nat → α) (inp : LSTMBlockInputs α)
    (x0 : Matrix α) (D : Int) (ctx : LSTMBlockContext α)
    (hx0 : inp.x[0]? = some x0) (hD : max_element inp.sequence_len = some D)
    (hc : LSTMBlockOp.Compute op fprop uninit inp = some ctx) :
    ctx.status = LSTMBlockOp.validate op inp x0.dim0 x0.dim1 D := by
  cases hv : LSTMBlockOp.validate op inp x0.dim0 x0.dim1 D with
  | InvalidArgument e =>
    rw [fwd_Compute_of_invalid op fprop uninit inp x0 D e hx0 hD hv] at hc
    rw [← Option.some.inj hc]
    rfl
  | OK =>
    simp only [LSTMBlockOp.Compute, hx0, hD, hv] at hc
    split at hc
    · rw [← Option.some.inj hc]
    · exact absurd hc (by simp)

theorem fwd_validate_eq_overflow_iff {α : Type} (op : LSTMBlockOp α) (inp : LSTMBlockInputs α)
    (batch_size input_size sequence_len_max : Int) :
    LSTMBlockOp.validate op inp batch_size input_size sequence_len_max =
        Status.InvalidArgument Error.minibatch_sequence_len_max ↔
      op.sequence_len_max_ < sequence_len_max := by
  simp only [LSTMBlockOp.validate]
  split_ifs <;> simp_all

theorem bwd_validate_eq_overflow_iff {α : Type} (op : LSTMBlockGradOp)
    (inp : LSTMBlockGradInputs α) (input_size sequence_len_max : Int) :
    LSTMBlockGradOp.validate op inp input_size sequence_len_max =
        Status.InvalidArgument Error.minibatch_sequence_len_max ↔
      op.sequence_len_max_ < sequence_len_max := by
  simp only [LSTMBlockGradOp.validate]
  split_ifs <;> simp_all

theorem getElem?_zero_of_ne_nil {β : Type} {l : List β} (hl : l ≠ []) : ∃ a, l[0]? = some a := by
  cases l with
  | nil => exact absurd rfl hl
  | cons a tl => exact ⟨a, by simp⟩

theorem zipWith_add_zero_pad {α : Type} [AddZeroClass α] :
    ∀ (r d : List α) (n : Nat), r.length ≤ n →
      List.zipWith (fun a g => a + g) r
          (List.zipWith (fun a g => a + g) (List.replicate n 0) d) =
        List.zipWith (fun a g => a + g) r d := by
  intro r
  induction r with
  | nil =>
    intro d n _
    simp
  | cons a tl ih =>
    intro d n hn
    cases n with
    | zero => simp at hn
    | succ k =>
      cases d with
      | nil => simp
      | cons e dl =>
        simp only [List.replicate_succ, List.zipWith_cons_cons, zero_add]
        rw [ih dl k (by simpa using hn)]

theorem foldl_zipWith_pad {α β : Type} [AddZeroClass α] (n : Nat) (dwf G : β → List α)
    (l : List β)
    (hG : ∀ p ∈ l, G p = List.zipWith (fun a g => a + g) (List.replicate n 0) (dwf p)) :
    ∀ acc : List α, acc.length ≤ n →
      l.foldl (fun acc p => List.zipWith (fun a g => a + g) acc (dwf p)) acc =
        l.foldl (fun acc p => List.zipWith (fun a g => a + g) acc (G p)) acc := by
  induction l with
  | nil =>
    intro acc _
    rfl
  | cons p tl ih =>
    intro acc hacc
    simp only [List.foldl_cons]
    rw [hG p (List.mem_cons_self _ _), zipWith_add_zero_pad acc (dwf p) n hacc]
    apply ih (fun q hq => hG q (List.mem_cons_of_mem _ hq))
    rw [List.length_zipWith]
    exact le_trans (min_le_left _ _) hacc

theorem bwd_step_some {α : Type} (op : LSTMBlockGradOp) (bprop : LSTMCellBlockBprop α)
    (inp : LSTMBlockGradInputs α) (batch_size input_size : Int) (t : Nat)
    (st st1 : LSTMBlockGradState α)
    (h : LSTMBlockGradOp.step op bprop inp batch_size input_size t st = some st1) :
    ∃ c : BpropCall α, st1 = LSTMBlockGradOp.commit bprop st t c ∧
      c.w_grad = st.w_grad ∧ c.b_grad = st.b_grad := by
  simp only [LSTMBlockGradOp.step] at h
  split at h
  · exact ⟨_, (Option.some.inj h).symm, rfl, rfl⟩
  · exact absurd h (by simp)

theorem bwd_loop_acc {α : Type} [Add α] (op : LSTMBlockGradOp) (bprop : LSTMCellBlockBprop α)
    (dw db : BpropCall α → List α) (hacc : BpropAccumulates bprop dw db)
    (inp : LSTMBlockGradInputs α) (batch_size input_size : Int) :
    ∀ (n : Nat) (st st1 : LSTMBlockGradState α),
      LSTMBlockGradOp.loop op bprop inp batch_size input_size n st = some st1 →
      ∃ new : List (Nat × BpropCall α), st1.calls = st.calls ++ new ∧
        st1.w_grad.flat =
          new.foldl (fun acc p => List.zipWith (fun a g => a + g) acc (dw p.2)) st.w_grad.flat ∧
        st1.b_grad.flat =
          new.foldl (fun acc p => List.zipWith (fun a g => a + g) acc (db p.2)) st.b_grad.flat := by
  intro n
  induction n with
  | zero =>
    intro st st1 h
    simp only [LSTMBlockGradOp.loop] at h
    rw [← Option.some.inj h]
    exact ⟨[], by simp, rfl, rfl⟩
  | succ k ih =>
    intro st st1 h
    simp only [LSTMBlockGradOp.loop] at h
    split at h
    · rename_i st2 hstep
      obtain ⟨c, hc, hcw, hcb⟩ := bwd_step_some op bprop inp batch_size input_size k st st2 hstep
      obtain ⟨new, hn1, hn2, hn3⟩ := ih st2 st1 h
      refine ⟨(k, c) :: new, ?_, ?_, ?_⟩
      · rw [hn1, hc]
        simp [LSTMBlockGradOp.commit]
      · rw [hn2, hc]
        simp only [LSTMBlockGradOp.commit, Matrix.written, List.foldl_cons, hacc.w_grad c, hcw]
      · rw [hn3, hc]
        simp only [LSTMBlockGradOp.commit, Vec.written, List.foldl_cons, hacc.b_grad c, hcb]
    · exact absurd h (by simp)

theorem cellGrad_of_call {α : Type} [AddZeroClass α] (C : Int) (bprop : LSTMCellBlockBprop α)
    (dw db : BpropCall α → List α) (hacc : BpropAccumulates bprop dw db)
    (cellUninit : Nat → Nat → α) (c : BpropCall α)
    (hv : LSTMCellBlockGradOp.validate { cell_size_ := C } (LSTMCellBlockGradInputs.ofCall c) =
      Status.OK)
    (hB : c.batch_size = int_of_int64 c.x.dim0) (hI : c.input_size = int_of_int64 c.x.dim1)
    (hC : c.cell_size = int_of_int64 C) :
    (LSTMCellBlockGradOp.Compute { cell_size_ := C } bprop cellUninit
        (LSTMCellBlockGradInputs.ofCall c)).status = Status.OK ∧
    (LSTMCellBlockGradOp.Compute { cell_size_ := C } bprop cellUninit
        (LSTMCellBlockGradInputs.ofCall c)).w_grad_flat =
      List.zipWith (fun a g => a + g) (List.replicate ((c.x.dim1 + C) * (C * 4)).toNat 0) (dw c) ∧
    (LSTMCellBlockGradOp.Compute { cell_size_ := C } bprop cellUninit
        (LSTMCellBlockGradInputs.ofCall c)).b_grad_flat =
      List.zipWith (fun a g => a + g) (List.replicate (C * 4).toNat 0) (db c) := by
  simp only [LSTMCellBlockGradOp.Compute, hv, LSTMCellBlockGradContext.w_grad_flat,
    LSTMCellBlockGradContext.b_grad_flat, Matrix.written, Vec.written, hacc.w_grad, hacc.b_grad,
    matrix_memZero_allocate, vec_memZero_allocate]
  refine ⟨trivial, ?_, ?_⟩
  · congr 1
    apply hacc.dw_inputs
    exact ⟨hB.symm, hI.symm, hC.symm, rfl, rfl, rfl, rfl, rfl, rfl, rfl⟩
  · congr 1
    apply hacc.db_inputs
    exact ⟨hB.symm, hI.symm, hC.symm, rfl, rfl, rfl, rfl, rfl, rfl, rfl⟩

theorem mem_take_of_getElem? {β : Type} (l : List β) (n t : Nat) (m : β) (ht : t < n)
    (h : l[t]? = some m) : m ∈ l.take n := by
  rw [List.mem_iff_getElem?]
  exact ⟨t, by rw [List.getElem?_take_of_lt ht]; exact h⟩

theorem bwd_call_valid {α : Type} [Zero α] {op : LSTMBlockGradOp}
    {bprop : LSTMCellBlockBprop α} {uninit : Nat → Nat → α} {inp : LSTMBlockGradInputs α}
    {batch_size input_size : Int} {total : Nat} {st : LSTMBlockGradState α}
    (hinv : LSTMBlockGradOp.LoopInv op bprop uninit inp batch_size input_size total 0 st)
    (hshapes : inp.shapesValid op batch_size input_size total)
    (hw0 : inp.w.dim0 = input_size + op.cell_size_) (hw1 : inp.w.dim1 = op.cell_size_ * 4)
    (hb0 : inp.b.dim0 = op.cell_size_ * 4)
    (p : Nat × BpropCall α) (hp : p ∈ st.calls) :
    LSTMCellBlockGradOp.validate { cell_size_ := op.cell_size_ }
        (LSTMCellBlockGradInputs.ofCall p.2) = Status.OK ∧
      p.2.batch_size = int_of_int64 p.2.x.dim0 ∧ p.2.input_size = int_of_int64 p.2.x.dim1 ∧
      p.2.cell_size = int_of_int64 op.cell_size_ ∧ p.2.x.dim1 = input_size := by
  obtain ⟨k, hk⟩ := List.mem_iff_getElem?.mp hp
  obtain ⟨hkt, _⟩ := bwd_LoopInv_calls hinv k p hk
  obtain ⟨call, h1, h2, h3, h4, h5, h6, h7, h8, h9, h10, _, _, h13, h14⟩ :=
    hinv.done (total - 1 - k) (Nat.zero_le _) (by omega)
  have hidx : total - 1 - (total - 1 - k) = k := by omega
  rw [hidx, hk] at h1
  obtain rfl : p = (total - 1 - k, call) := Option.some.inj h1
  obtain ⟨⟨hi0, hi1⟩, hxs, hss, hgs⟩ := hshapes
  have hlt : total - 1 - k < total := by omega
  obtain ⟨hx0, hx1⟩ := hxs _ (mem_take_of_getElem? _ _ _ _ hlt h2)
  obtain ⟨hs0, hs1⟩ := hss _ (mem_take_of_getElem? _ _ _ _ hlt h4)
  obtain ⟨hg0, hg1⟩ := hgs _ (mem_take_of_getElem? _ _ _ _ hlt h5)
  have hprev : call.states_prev.dim0 = batch_size ∧
      call.states_prev.dim1 = op.cell_size_ * 7 := by
    by_cases h0 : total - 1 - k ≤ 0
    · rw [if_pos h0] at h3
      rw [← Option.some.inj h3]
      exact ⟨hi0, hi1⟩
    · rw [if_neg h0] at h3
      exact hss _ (mem_take_of_getElem? _ _ _ _ (by omega) h3)
  have hsg : call.states_grad.dim0 = batch_size ∧
      call.states_grad.dim1 = op.cell_size_ * 7 := by
    rcases Nat.eq_or_lt_of_le (Nat.succ_le_of_lt hlt) with h | h
    · rw [h13 h]
      exact ⟨rfl, rfl⟩
    · obtain ⟨next, _, hn⟩ := h14 h
      rw [hn]
      exact ⟨rfl, rfl⟩
  refine ⟨?_, by rw [h8, hx0], by rw [h9, hx1], h10, hx1⟩
  simp only [LSTMCellBlockGradOp.validate, LSTMCellBlockGradInputs.ofCall, hprev.1, hprev.2,
    hx0, hx1, h6, h7, hw0, hw1, hb0, hs0, hs1, hg0, hg1, hsg.1, hsg.2, not_true_eq_false,
    if_false]

theorem bwd_calls_order {α : Type} [Zero α] {op : LSTMBlockGradOp}
    {bprop : LSTMCellBlockBprop α} {uninit : Nat → Nat → α} {inp : LSTMBlockGradInputs α}
    {batch_size input_size : Int} {total : Nat} {st : LSTMBlockGradState α}
    (hinv : LSTMBlockGradOp.LoopInv op bprop uninit inp batch_size input_size total 0 st) :
    st.calls.map Prod.fst = (List.range total).reverse := by
  have hcl : st.calls.length = total := by simpa using hinv.calls_length
  apply List.ext_getElem?
  intro k
  by_cases hk : k < total
  · have hk1 : k < st.calls.length := by omega
    have hget : st.calls[k]? = some st.calls[k] := List.getElem?_eq_getElem hk1
    obtain ⟨_, hfst⟩ := bwd_LoopInv_calls hinv k _ hget
    rw [List.getElem?_map, hget, List.getElem?_reverse (by simpa using hk)]
    simp only [Option.map_some', List.length_range]
    rw [List.getElem?_range (by omega), hfst]
  · rw [List.getElem?_eq_none (by simp; omega), List.getElem?_eq_none (by simp; omega)]

/-- The backward functor of the concrete instance accumulates. -/
theorem demoBprop_accumulates : BpropAccumulates demoBprop demoDw demoDb where
  dw_inputs := by
    rintro c d ⟨_, _, _, hx, _, _, _, _, hg, hsg⟩
    simp only [demoDw, hx, hg, hsg]
  db_inputs := by
    rintro c d ⟨_, _, _, _, _, _, _, hs, hg, _⟩
    simp only [demoDb, hs, hg]
  w_grad := by
    intro c
    rfl
  b_grad := by
    intro c
    rfl

/-! ### The forward scan -/

/-- C1. Forward recurrence of `LSTMBlockOp::Compute`.  For an input that passes
validation, with `D = max(sequence_len)`, `Compute` returns with status OK
after exactly `D` functor invocations, and for every `t < D` the invocation of
loop variable `t` was handed `x[t]`, the previous state (`initial_state` when
`t = 0`, the final `states[t - 1]` otherwise) and the op-wide `w`, `b`,
`forget_bias`, and the final `h[t]` and `states[t]` are what it wrote. -/
theorem LSTMBlockOp.forward_recurrence {α : Type} [Zero α] (op : LSTMBlockOp α)
    (fprop : LSTMCellBlockFprop α) (uninit : Nat → Nat → α) (inp : LSTMBlockInputs α)
    (x0 : Matrix α) (D : Int)
    (hx0 : inp.x[0]? = some x0) (hD : max_element inp.sequence_len = some D)
    (hlen : inp.x.length = op.sequence_len_max_.toNat)
    (hvalid : LSTMBlockOp.validate op inp x0.dim0 x0.dim1 D = Status.OK) :
    ∃ ctx, LSTMBlockOp.Compute op fprop uninit inp = some ctx ∧ ctx.status = Status.OK ∧
      ctx.calls.length = D.toNat ∧
      ∀ t : Nat, (t : Int) < D →
        ∃ call : FpropCall α,
          ctx.calls[t]? = some (t, call) ∧
          inp.x[t]? = some call.x ∧
          (if t ≤ 0 then some inp.initial_state else ctx.states[t - 1]?)
            = some call.states_prev ∧
          call.w = inp.w ∧ call.b = inp.b ∧ call.forget_bias = op.forget_bias_ ∧
          ctx.h[t]? = some (call.h.written (call.run fprop).h) ∧
          ctx.states[t]? = some (call.states.written (call.run fprop).states) := by
  obtain ⟨st, hc, hinv⟩ := fwd_Compute_of_valid op fprop uninit inp x0 D hx0 hD hlen hvalid
  refine ⟨_, hc, rfl, hinv.calls_length, ?_⟩
  intro t ht
  obtain ⟨call, h1, h2, h3, h4, h5, h6, _, _, _, _, _, h7, h8⟩ :=
    hinv.done t (Int.lt_toNat.mpr ht)
  exact ⟨call, h1, h2, h3, h4, h5, h6, h7, h8⟩

/-- Witness of C1 on the concrete instance (`D = 2`, `MaxLen = 3`). -/
theorem LSTMBlockOp.forward_recurrence_witness :
    (demoInputs.x[0]? = some { dim0 := 1, dim1 := 1, flat := [5] } ∧
      max_element demoInputs.sequence_len = some 2 ∧
      demoInputs.x.length = demoOp.sequence_len_max_.toNat ∧
      LSTMBlockOp.validate demoOp demoInputs 1 1 2 = Status.OK) ∧
    ∃ ctx, LSTMBlockOp.Compute demoOp demoFprop demoUninit demoInputs = some ctx ∧
      ctx.status = Status.OK ∧ ctx.calls.length = (2 : Int).toNat ∧
      ∀ t : Nat, (t : Int) < 2 →
        ∃ call : FpropCall Int,
          ctx.calls[t]? = some (t, call) ∧
          demoInputs.x[t]? = some call.x ∧
          (if t ≤ 0 then some demoInputs.initial_state else ctx.states[t - 1]?)
            = some call.states_prev ∧
          call.w = demoInputs.w ∧ call.b = demoInputs.b ∧
          call.forget_bias = demoOp.forget_bias_ ∧
          ctx.h[t]? = some (call.h.written (call.run demoFprop).h) ∧
          ctx.states[t]? = some (call.states.written (call.run demoFprop).states) :=
  ⟨⟨by decide, by decide, by decide, by decide⟩,
    LSTMBlockOp.forward_recurrence demoOp demoFprop demoUninit demoInputs
      { dim0 := 1, dim1 := 1, flat := [5] } 2 (by decide) (by decide) (by decide) (by decide)⟩

/-- C2. Zero fill of the forward scan.  For an input that passes validation,
`Compute` returns exactly `MaxLen` buffers `h`, each of shape
`Batch x CellSize`, and exactly `MaxLen` buffers `states`, each of shape
`Batch x 7*CellSize`; and for every `t` with `max(sequence_len) ≤ t < MaxLen`
the buffers `h[t]` and `states[t]` consist of zeros only (as many as their
shape has cells). -/
theorem LSTMBlockOp.forward_zero_fill {α : Type} [Zero α] (op : LSTMBlockOp α)
    (fprop : LSTMCellBlockFprop α) (uninit : Nat → Nat → α) (inp : LSTMBlockInputs α)
    (x0 : Matrix α) (D : Int)
    (hx0 : inp.x[0]? = some x0) (hD : max_element inp.sequence_len = some D)
    (hlen : inp.x.length = op.sequence_len_max_.toNat)
    (hvalid : LSTMBlockOp.validate op inp x0.dim0 x0.dim1 D = Status.OK) :
    ∃ ctx, LSTMBlockOp.Compute op fprop uninit inp = some ctx ∧
      ctx.h.length = op.sequence_len_max_.toNat ∧
      ctx.states.length = op.sequence_len_max_.toNat ∧
      (∀ m ∈ ctx.h, m.dim0 = x0.dim0 ∧ m.dim1 = op.cell_size_) ∧
      (∀ m ∈ ctx.states, m.dim0 = x0.dim0 ∧ m.dim1 = 7 * op.cell_size_) ∧
      ∀ t : Nat, D ≤ (t : Int) → (t : Int) < op.sequence_len_max_ →
        ∃ hm sm, ctx.h[t]? = some hm ∧ ctx.states[t]? = some sm ∧
          hm.flat = List.replicate (x0.dim0 * op.cell_size_).toNat 0 ∧
          sm.flat = List.replicate (x0.dim0 * (7 * op.cell_size_)).toNat 0 ∧
          hm.allZero ∧ sm.allZero := by
  obtain ⟨st, hc, hinv⟩ := fwd_Compute_of_valid op fprop uninit inp x0 D hx0 hD hlen hvalid
  refine ⟨_, hc, hinv.h_length, hinv.states_length, ?_, ?_, ?_⟩
  · intro m hm
    obtain ⟨t, ht⟩ := List.mem_iff_getElem?.mp hm
    have htlt : t < op.sequence_len_max_.toNat := by
      rw [← hinv.h_length]
      exact (List.getElem?_eq_some.mp ht).1
    obtain ⟨hm1, _, h1, _, h3, h4, _, _⟩ := fwd_LoopInv_shape hinv t htlt
    have : m = hm1 := Option.some.inj (ht.symm.trans h1)
    subst this
    exact ⟨h3, h4⟩
  · intro m hm
    obtain ⟨t, ht⟩ := List.mem_iff_getElem?.mp hm
    have htlt : t < op.sequence_len_max_.toNat := by
      rw [← hinv.states_length]
      exact (List.getElem?_eq_some.mp ht).1
    obtain ⟨_, sm1, _, h2, _, _, h5, h6⟩ := fwd_LoopInv_shape hinv t htlt
    have : m = sm1 := Option.some.inj (ht.symm.trans h2)
    subst this
    exact ⟨h5, by rw [h6, mul_comm]⟩
  · intro t hDt htM
    obtain ⟨hh, hs⟩ := hinv.untouched t (Int.toNat_le.mpr hDt) (Int.lt_toNat.mpr htM)
    rw [matrix_memZero_allocate] at hh hs
    refine ⟨_, _, hh, hs, rfl, by simp only [mul_comm], ?_, ?_⟩
    · intro e he
      exact List.eq_of_mem_replicate he
    · intro e he
      exact List.eq_of_mem_replicate he

/-- Witness of C2 on the concrete instance (`D = 2`, `MaxLen = 3`). -/
theorem LSTMBlockOp.forward_zero_fill_witness :
    (demoInputs.x[0]? = some { dim0 := 1, dim1 := 1, flat := [5] } ∧
      max_element demoInputs.sequence_len = some 2 ∧
      demoInputs.x.length = demoOp.sequence_len_max_.toNat ∧
      LSTMBlockOp.validate demoOp demoInputs 1 1 2 = Status.OK) ∧
    ∃ ctx, LSTMBlockOp.Compute demoOp demoFprop demoUninit demoInputs = some ctx ∧
      ctx.h.length = demoOp.sequence_len_max_.toNat ∧
      ctx.states.length = demoOp.sequence_len_max_.toNat ∧
      (∀ m ∈ ctx.h, m.dim0 = 1 ∧ m.dim1 = demoOp.cell_size_) ∧
      (∀ m ∈ ctx.states, m.dim0 = 1 ∧ m.dim1 = 7 * demoOp.cell_size_) ∧
      ∀ t : Nat, (2 : Int) ≤ (t : Int) → (t : Int) < demoOp.sequence_len_max_ →
        ∃ hm sm, ctx.h[t]? = some hm ∧ ctx.states[t]? = some sm ∧
          hm.flat = List.replicate ((1 : Int) * demoOp.cell_size_).toNat 0 ∧
          sm.flat = List.replicate ((1 : Int) * (7 * demoOp.cell_size_)).toNat 0 ∧
          hm.allZero ∧ sm.allZero :=
  ⟨⟨by decide, by decide, by decide, by decide⟩,
    LSTMBlockOp.forward_zero_fill demoOp demoFprop demoUninit demoInputs
      { dim0 := 1, dim1 := 1, flat := [5] } 2 (by decide) (by decide) (by decide) (by decide)⟩

/-- C3. Sequence-length overflow in the forward scan.  When the maximum `D` of
`sequence_len` exceeds the attribute `sequence_len_max`, `Compute` ends with the
sequence-length `InvalidArgument`, no slot of `h` or `states` has been
allocated, and the forward functor has not been invoked. -/
theorem LSTMBlockOp.sequence_len_overflow {α : Type} [Zero α] (op : LSTMBlockOp α)
    (fprop : LSTMCellBlockFprop α) (uninit : Nat → Nat → α) (inp : LSTMBlockInputs α)
    (D : Int) (hx : inp.x ≠ [])
    (hmem : D ∈ inp.sequence_len) (hmax : ∀ v ∈ inp.sequence_len, v ≤ D)
    (hover : op.sequence_len_max_ < D) :
    ∃ ctx, LSTMBlockOp.Compute op fprop uninit inp = some ctx ∧
      ctx.status = Status.InvalidArgument Error.minibatch_sequence_len_max ∧
      ctx.h = [] ∧ ctx.states = [] ∧ ctx.calls = [] := by
  have hD : max_element inp.sequence_len = some D :=
    (max_element_eq_some_iff _ _).mpr ⟨hmem, hmax⟩
  obtain ⟨x0, hx0⟩ : ∃ x0, inp.x[0]? = some x0 := by
    cases hxs : inp.x with
    | nil => exact absurd hxs hx
    | cons a tl => exact ⟨a, by simp⟩
  have hvalid : LSTMBlockOp.validate op inp x0.dim0 x0.dim1 D =
      Status.InvalidArgument Error.minibatch_sequence_len_max := by
    simp only [LSTMBlockOp.validate]
    rw [if_pos (not_le.mpr hover)]
  exact ⟨_, fwd_Compute_of_invalid op fprop uninit inp x0 D _ hx0 hD hvalid, rfl, rfl, rfl, rfl⟩

/-- Witness of C3: the concrete instance with `sequence_len = [4]` against
`MaxLen = 3`. -/
theorem LSTMBlockOp.sequence_len_overflow_witness :
    ({ demoInputs with sequence_len := [4] } : LSTMBlockInputs Int).x ≠ [] ∧
    (4 : Int) ∈ ({ demoInputs with sequence_len := [4] } : LSTMBlockInputs Int).sequence_len ∧
    (∀ v ∈ ({ demoInputs with sequence_len := [4] } : LSTMBlockInputs Int).sequence_len,
      v ≤ 4) ∧
    demoOp.sequence_len_max_ < 4 ∧
    ∃ ctx, LSTMBlockOp.Compute demoOp demoFprop demoUninit
        { demoInputs with sequence_len := [4] } = some ctx ∧
      ctx.status = Status.InvalidArgument Error.minibatch_sequence_len_max ∧
      ctx.h = [] ∧ ctx.states = [] ∧ ctx.calls = [] :=
  ⟨by decide, by decide, by decide, by decide,
    LSTMBlockOp.sequence_len_overflow demoOp demoFprop demoUninit
      { demoInputs with sequence_len := [4] } 4 (by decide) (by decide) (by decide)
      (by decide)⟩

/-! ### The backward scan -/

/-- C4. Reverse recurrence of the state gradient in `LSTMBlockGradOp::Compute`.
For a valid input with `D = max(sequence_len) ≥ 1`, `Compute` returns with
status OK after exactly `D` functor invocations; the first of them is the one of
the latest timestep `D - 1` and the `states_grad` it was handed consists of
zeros only; and for every `t` with `t + 1 < D` the `states_grad` handed to the
invocation of `t` holds exactly the `states_prev_grad` written by the
invocation of `t + 1`, which ran just before it. -/
theorem LSTMBlockGradOp.state_gradient_recurrence {α : Type} [Zero α] (op : LSTMBlockGradOp)
    (bprop : LSTMCellBlockBprop α) (uninit : Nat → Nat → α) (inp : LSTMBlockGradInputs α)
    (x0 : Matrix α) (D : Int)
    (hx0 : inp.x[0]? = some x0) (hD : max_element inp.sequence_len = some D)
    (hlx : inp.x.length = op.sequence_len_max_.toNat)
    (hls : inp.states.length = op.sequence_len_max_.toNat)
    (hlg : inp.h_grad.length = op.sequence_len_max_.toNat)
    (hvalid : LSTMBlockGradOp.validate op inp x0.dim1 D = Status.OK)
    (hD1 : 1 ≤ D) :
    ∃ ctx, LSTMBlockGradOp.Compute op bprop uninit inp = some ctx ∧ ctx.status = Status.OK ∧
      ctx.calls.length = D.toNat ∧
      (∃ call : BpropCall α, ctx.calls[0]? = some (D.toNat - 1, call) ∧
        call.states_grad.flat = List.replicate (x0.dim0 * (7 * op.cell_size_)).toNat 0 ∧
        call.states_grad.allZero) ∧
      ∀ t : Nat, (t : Int) + 1 < D →
        ∃ call next : BpropCall α,
          ctx.calls[D.toNat - 1 - t]? = some (t, call) ∧
          ctx.calls[D.toNat - 1 - t - 1]? = some (t + 1, next) ∧
          call.states_grad.flat = (next.run bprop).states_prev_grad := by
  obtain ⟨st, hc, _, hinv⟩ :=
    bwd_Compute_of_valid op bprop uninit inp x0 D hx0 hD hlx hls hlg hvalid
      (INT64_MIN_lt_of_pos D hD1)
  have hpos : 0 < D.toNat := Int.lt_toNat.mpr (by omega)
  refine ⟨_, hc, rfl, ?_, ?_, ?_⟩
  · have := hinv.calls_length
    simpa using this
  · obtain ⟨call, h1, _, _, _, _, _, _, _, _, _, _, _, h13, _⟩ :=
      hinv.done (D.toNat - 1) (Nat.zero_le _) (by omega)
    have hidx : D.toNat - 1 - (D.toNat - 1) = 0 := by omega
    rw [hidx] at h1
    have hz := h13 (by omega)
    rw [matrix_memZero_allocate] at hz
    refine ⟨call, h1, ?_, ?_⟩
    · rw [hz]
      simp only [mul_comm]
    · intro e he
      rw [hz] at he
      exact List.eq_of_mem_replicate he
  · intro t ht
    have htD : t + 1 < D.toNat := by omega
    obtain ⟨call, h1, _, _, _, _, _, _, _, _, _, _, _, _, h14⟩ :=
      hinv.done t (Nat.zero_le _) (by omega)
    obtain ⟨next, hn1, hn2⟩ := h14 htD
    have hidx : D.toNat - 1 - (t + 1) = D.toNat - 1 - t - 1 := by omega
    rw [hidx] at hn1
    exact ⟨call, next, h1, hn1, by rw [hn2]; rfl⟩

/-- Witness of C4 on the concrete backward instance (`D = 2`, `MaxLen = 3`). -/
theorem LSTMBlockGradOp.state_gradient_recurrence_witness :
    (demoGradInputs.x[0]? = some { dim0 := 1, dim1 := 1, flat := [5] } ∧
      max_element demoGradInputs.sequence_len = some 2 ∧
      demoGradInputs.x.length = demoGradOp.sequence_len_max_.toNat ∧
      demoGradInputs.states.length = demoGradOp.sequence_len_max_.toNat ∧
      demoGradInputs.h_grad.length = demoGradOp.sequence_len_max_.toNat ∧
      LSTMBlockGradOp.validate demoGradOp demoGradInputs 1 2 = Status.OK ∧
      (1 : Int) ≤ 2) ∧
    ∃ ctx, LSTMBlockGradOp.Compute demoGradOp demoBprop demoUninit demoGradInputs = some ctx ∧
      ctx.status = Status.OK ∧ ctx.calls.length = (2 : Int).toNat ∧
      (∃ call : BpropCall Int, ctx.calls[0]? = some ((2 : Int).toNat - 1, call) ∧
        call.states_grad.flat = List.replicate ((1 : Int) * (7 * demoGradOp.cell_size_)).toNat 0 ∧
        call.states_grad.allZero) ∧
      ∀ t : Nat, (t : Int) + 1 < 2 →
        ∃ call next : BpropCall Int,
          ctx.calls[(2 : Int).toNat - 1 - t]? = some (t, call) ∧
          ctx.calls[(2 : Int).toNat - 1 - t - 1]? = some (t + 1, next) ∧
          call.states_grad.flat = (next.run demoBprop).states_prev_grad :=
  ⟨⟨by decide, by decide, by decide, by decide, by decide, by decide, by decide⟩,
    LSTMBlockGradOp.state_gradient_recurrence demoGradOp demoBprop demoUninit demoGradInputs
      { dim0 := 1, dim1 := 1, flat := [5] } 2 (by decide) (by decide) (by decide) (by decide)
      (by decide) (by decide) (by decide)⟩

/-- Accumulation of the weight and bias gradients in
`LSTMBlockGradOp::Compute`, for every maximum `D` of `sequence_len` at which
`D - 1` does not overflow (`INT64_MIN < D`).  Take such a valid input (the
scan's own checks pass and the per-timestep tensors have the shapes of the data
model) and a backward functor that adds its contribution into `w_grad` and
`b_grad`.  Then `Compute`
returns `w_grad` and `b_grad`, its invocations are those of `t = D - 1` down to
`0` in this order, each handed the tensors of its timestep; the single-timestep
op `LSTMCellBlockGrad` accepts the arguments of every one of them; and `w_grad`
(`b_grad`) is the cell-by-cell sum, accumulated from the all-zero buffer in
invocation order, of the `w_grad` (`b_grad`) that `LSTMCellBlockGrad` returns
for those arguments. -/
theorem LSTMBlockGradOp.weight_bias_accumulation {α : Type} [AddZeroClass α]
    (op : LSTMBlockGradOp) (bprop : LSTMCellBlockBprop α) (dw db : BpropCall α → List α)
    (uninit cellUninit : Nat → Nat → α) (inp : LSTMBlockGradInputs α)
    (x0 : Matrix α) (D : Int)
    (hx0 : inp.x[0]? = some x0) (hD : max_element inp.sequence_len = some D)
    (hlx : inp.x.length = op.sequence_len_max_.toNat)
    (hls : inp.states.length = op.sequence_len_max_.toNat)
    (hlg : inp.h_grad.length = op.sequence_len_max_.toNat)
    (hvalid : LSTMBlockGradOp.validate op inp x0.dim1 D = Status.OK)
    (hmin : INT64_MIN < D)
    (hshapes : inp.shapesValid op x0.dim0 x0.dim1 D.toNat)
    (hacc : BpropAccumulates bprop dw db) :
    ∃ ctx wg bg, LSTMBlockGradOp.Compute op bprop uninit inp = some ctx ∧
      ctx.w_grad = some wg ∧ ctx.b_grad = some bg ∧
      ctx.calls.map Prod.fst = (List.range D.toNat).reverse ∧
      (∀ t, t < D.toNat →
        LSTMBlockGradOp.stepDone op bprop uninit inp x0.dim0 x0.dim1 D.toNat ctx.x_grad
          ctx.calls t) ∧
      (∀ p ∈ ctx.calls,
        (LSTMCellBlockGradOp.Compute { cell_size_ := op.cell_size_ } bprop cellUninit
          (LSTMCellBlockGradInputs.ofCall p.2)).status = Status.OK) ∧
      wg.flat =
        ctx.calls.foldl
          (fun acc p => List.zipWith (fun a g => a + g) acc
            (LSTMCellBlockGradOp.Compute { cell_size_ := op.cell_size_ } bprop cellUninit
              (LSTMCellBlockGradInputs.ofCall p.2)).w_grad_flat)
          (List.replicate ((x0.dim1 + op.cell_size_) * (4 * op.cell_size_)).toNat 0) ∧
      bg.flat =
        ctx.calls.foldl
          (fun acc p => List.zipWith (fun a g => a + g) acc
            (LSTMCellBlockGradOp.Compute { cell_size_ := op.cell_size_ } bprop cellUninit
              (LSTMCellBlockGradInputs.ofCall p.2)).b_grad_flat)
          (List.replicate (4 * op.cell_size_).toNat 0) := by
  obtain ⟨st, hc, hloop, hinv⟩ :=
    bwd_Compute_of_valid op bprop uninit inp x0 D hx0 hD hlx hls hlg hvalid hmin
  obtain ⟨_, hw0, hw1, hb0⟩ := (bwd_validate_eq_OK_iff op inp _ _).mp hvalid
  obtain ⟨new, hn1, hn2, hn3⟩ :=
    bwd_loop_acc op bprop dw db hacc inp x0.dim0 x0.dim1 D.toNat _ st hloop
  have hnew : new = st.calls := by
    rw [hn1]
    simp [LSTMBlockGradOp.allocate]
  rw [hnew] at hn2 hn3
  have hsingle : ∀ p ∈ st.calls,
      (LSTMCellBlockGradOp.Compute { cell_size_ := op.cell_size_ } bprop cellUninit
          (LSTMCellBlockGradInputs.ofCall p.2)).status = Status.OK ∧
      (LSTMCellBlockGradOp.Compute { cell_size_ := op.cell_size_ } bprop cellUninit
          (LSTMCellBlockGradInputs.ofCall p.2)).w_grad_flat =
        List.zipWith (fun a g => a + g)
          (List.replicate ((x0.dim1 + op.cell_size_) * (4 * op.cell_size_)).toNat 0) (dw p.2) ∧
      (LSTMCellBlockGradOp.Compute { cell_size_ := op.cell_size_ } bprop cellUninit
          (LSTMCellBlockGradInputs.ofCall p.2)).b_grad_flat =
        List.zipWith (fun a g => a + g) (List.replicate (4 * op.cell_size_).toNat 0)
          (db p.2) := by
    intro p hp
    obtain ⟨hv, hB, hI, hC, hx1⟩ := bwd_call_valid hinv hshapes hw0 hw1 hb0 p hp
    have := cellGrad_of_call op.cell_size_ bprop dw db hacc cellUninit p.2 hv hB hI hC
    rw [hx1, mul_comm op.cell_size_ 4] at this
    exact this
  refine ⟨_, st.w_grad, st.b_grad, hc, rfl, rfl, bwd_calls_order hinv, ?_, ?_, ?_, ?_⟩
  · intro t ht
    exact hinv.done t (Nat.zero_le t) ht
  · intro p hp
    exact (hsingle p hp).1
  · rw [hn2]
    simp only [LSTMBlockGradOp.allocate, matrix_memZero_allocate, mul_comm op.cell_size_ 4]
    exact foldl_zipWith_pad _ (fun p : Nat × BpropCall α => dw p.2) _ st.calls
      (fun p hp => (hsingle p hp).2.1) _ (by simp)
  · rw [hn3]
    simp only [LSTMBlockGradOp.allocate, vec_memZero_allocate, mul_comm op.cell_size_ 4]
    exact foldl_zipWith_pad _ (fun p : Nat × BpropCall α => db p.2) _ st.calls
      (fun p hp => (hsingle p hp).2.2) _ (by simp)

/-- The accumulation on the concrete backward instance (`D = 2`,
`MaxLen = 3`). -/
theorem LSTMBlockGradOp.weight_bias_accumulation_witness :
    (demoGradInputs.x[0]? = some { dim0 := 1, dim1 := 1, flat := [5] } ∧
      max_element demoGradInputs.sequence_len = some 2 ∧
      LSTMBlockGradOp.validate demoGradOp demoGradInputs 1 2 = Status.OK ∧
      INT64_MIN < 2 ∧
      demoGradInputs.shapesValid demoGradOp 1 1 (2 : Int).toNat ∧
      BpropAccumulates demoBprop demoDw demoDb) ∧
    ∃ ctx wg bg, LSTMBlockGradOp.Compute demoGradOp demoBprop demoUninit demoGradInputs =
        some ctx ∧
      ctx.w_grad = some wg ∧ ctx.b_grad = some bg ∧
      ctx.calls.map Prod.fst = (List.range (2 : Int).toNat).reverse ∧
      (∀ t, t < (2 : Int).toNat →
        LSTMBlockGradOp.stepDone demoGradOp demoBprop demoUninit demoGradInputs 1 1
          (2 : Int).toNat ctx.x_grad ctx.calls t) ∧
      (∀ p ∈ ctx.calls,
        (LSTMCellBlockGradOp.Compute { cell_size_ := demoGradOp.cell_size_ } demoBprop demoUninit
          (LSTMCellBlockGradInputs.ofCall p.2)).status = Status.OK) ∧
      wg.flat =
        ctx.calls.foldl
          (fun acc p => List.zipWith (fun a g => a + g) acc
            (LSTMCellBlockGradOp.Compute { cell_size_ := demoGradOp.cell_size_ } demoBprop
              demoUninit (LSTMCellBlockGradInputs.ofCall p.2)).w_grad_flat)
          (List.replicate (((1 : Int) + demoGradOp.cell_size_) *
            (4 * demoGradOp.cell_size_)).toNat 0) ∧
      bg.flat =
        ctx.calls.foldl
          (fun acc p => List.zipWith (fun a g => a + g) acc
            (LSTMCellBlockGradOp.Compute { cell_size_ := demoGradOp.cell_size_ } demoBprop
              demoUninit (LSTMCellBlockGradInputs.ofCall p.2)).b_grad_flat)
          (List.replicate (4 * demoGradOp.cell_size_).toNat 0) :=
  ⟨⟨by decide, by decide, by decide, by decide,
      by unfold LSTMBlockGradInputs.shapesValid; decide, demoBprop_accumulates⟩,
    LSTMBlockGradOp.weight_bias_accumulation demoGradOp demoBprop demoDw demoDb demoUninit
      demoUninit demoGradInputs { dim0 := 1, dim1 := 1, flat := [5] } 2 (by decide) (by decide)
      (by decide) (by decide) (by decide) (by decide) (by decide)
      (by unfold LSTMBlockGradInputs.shapesValid; decide) demoBprop_accumulates⟩

/-- C6. The backward scan paired with the forward scan.  Let the forward scan
accept an input with `max(sequence_len) ≥ 1` (there is a timestep to pair) and
return `fctx`, and let the backward scan be given the same
`sequence_len`, `initial_state`, `x`, `w`, `b`, the list `states` that the
forward scan returned, and any list `h_grad` of `MaxLen` gradients.  Then the
backward scan returns with status OK, and for every `t < max(sequence_len)` the
backward invocation of `t` was handed exactly the previous state that the
forward invocation of `t` was handed (`initial_state` for `t = 0`, the forward
`states[t - 1]` otherwise), the state that the forward invocation of `t` wrote
(the forward `states[t]`), the same `x[t]`, and `h_grad[t]`. -/
theorem LSTMBlockGradOp.paired_with_forward {α : Type} [Zero α]
    (fop : LSTMBlockOp α) (fprop : LSTMCellBlockFprop α) (finp : LSTMBlockInputs α)
    (bop : LSTMBlockGradOp) (bprop : LSTMCellBlockBprop α) (binp : LSTMBlockGradInputs α)
    (funinit buninit : Nat → Nat → α) (x0 : Matrix α) (D : Int) (fctx : LSTMBlockContext α)
    (hx0 : finp.x[0]? = some x0) (hD : max_element finp.sequence_len = some D)
    (hlen : finp.x.length = fop.sequence_len_max_.toNat)
    (hvalid : LSTMBlockOp.validate fop finp x0.dim0 x0.dim1 D = Status.OK)
    (hf : LSTMBlockOp.Compute fop fprop funinit finp = some fctx)
    (hM : bop.sequence_len_max_ = fop.sequence_len_max_)
    (hC : bop.cell_size_ = fop.cell_size_)
    (hseq : binp.sequence_len = finp.sequence_len)
    (hinit : binp.initial_state = finp.initial_state)
    (hx : binp.x = finp.x) (hw : binp.w = finp.w) (hb : binp.b = finp.b)
    (hstates : binp.states = fctx.states)
    (hlg : binp.h_grad.length = fop.sequence_len_max_.toNat)
    (hD1 : 1 ≤ D) :
    ∃ bctx, LSTMBlockGradOp.Compute bop bprop buninit binp = some bctx ∧
      bctx.status = Status.OK ∧
      ∀ t : Nat, (t : Int) < D →
        ∃ (fcall : FpropCall α) (bcall : BpropCall α),
          fctx.calls[t]? = some (t, fcall) ∧
          bctx.calls[D.toNat - 1 - t]? = some (t, bcall) ∧
          bcall.states_prev = fcall.states_prev ∧
          bcall.states = fcall.states.written (fcall.run fprop).states ∧
          (if t ≤ 0 then some finp.initial_state else fctx.states[t - 1]?)
            = some bcall.states_prev ∧
          fctx.states[t]? = some bcall.states ∧
          bcall.x = fcall.x ∧ finp.x[t]? = some bcall.x ∧
          binp.h_grad[t]? = some bcall.h_grad := by
  obtain ⟨fst, hfc, hfinv⟩ :=
    fwd_Compute_of_valid fop fprop funinit finp x0 D hx0 hD hlen hvalid
  rw [hf] at hfc
  have hfctx := Option.some.inj hfc
  have hfs : fctx.states = fst.states := by rw [hfctx]
  have hfcalls : fctx.calls = fst.calls := by rw [hfctx]
  obtain ⟨h1, _, _, h4, h5, h6⟩ := (fwd_validate_eq_OK_iff fop finp _ _ _).mp hvalid
  have hbvalid : LSTMBlockGradOp.validate bop binp x0.dim1 D = Status.OK := by
    rw [bwd_validate_eq_OK_iff, hM, hC, hw, hb]
    exact ⟨h1, h4, h5, h6⟩
  obtain ⟨bst, hbc, _, hbinv⟩ :=
    bwd_Compute_of_valid bop bprop buninit binp x0 D (by rw [hx]; exact hx0)
      (by rw [hseq]; exact hD) (by rw [hx, hM]; exact hlen)
      (by rw [hstates, hfs, hM]; exact hfinv.states_length) (by rw [hM]; exact hlg) hbvalid
      (INT64_MIN_lt_of_pos D hD1)
  refine ⟨_, hbc, rfl, ?_⟩
  intro t ht
  have htD : t < D.toNat := Int.lt_toNat.mpr ht
  obtain ⟨fcall, f1, f2, f3, _, _, _, _, _, _, _, _, _, f13⟩ := hfinv.done t htD
  obtain ⟨bcall, b1, b2, b3, b4, b5, _⟩ := hbinv.done t (Nat.zero_le t) htD
  rw [hx] at b2
  rw [hinit, hstates, hfs] at b3
  rw [hstates, hfs] at b4
  have e1 : bcall.x = fcall.x := Option.some.inj (b2.symm.trans f2)
  have e2 : bcall.states_prev = fcall.states_prev := Option.some.inj (b3.symm.trans f3)
  have e3 : bcall.states = fcall.states.written (fcall.run fprop).states :=
    Option.some.inj (b4.symm.trans f13)
  refine ⟨fcall, bcall, by rw [hfcalls]; exact f1, b1, e2, e3, by rw [hfs]; exact b3,
    by rw [hfs]; exact b4, e1, b2, b5⟩

/-- Witness of C6: the concrete backward instance carries the `states` that the
forward scan returns on the concrete forward instance. -/
theorem LSTMBlockGradOp.paired_with_forward_witness :
    ∃ fctx, LSTMBlockOp.Compute demoOp demoFprop demoUninit demoInputs = some fctx ∧
      demoGradInputs.states = fctx.states ∧
      ∃ bctx, LSTMBlockGradOp.Compute demoGradOp demoBprop demoUninit demoGradInputs =
          some bctx ∧
        bctx.status = Status.OK ∧
        ∀ t : Nat, (t : Int) < 2 →
          ∃ (fcall : FpropCall Int) (bcall : BpropCall Int),
            fctx.calls[t]? = some (t, fcall) ∧
            bctx.calls[(2 : Int).toNat - 1 - t]? = some (t, bcall) ∧
            bcall.states_prev = fcall.states_prev ∧
            bcall.states = fcall.states.written (fcall.run demoFprop).states ∧
            (if t ≤ 0 then some demoInputs.initial_state else fctx.states[t - 1]?)
              = some bcall.states_prev ∧
            fctx.states[t]? = some bcall.states ∧
            bcall.x = fcall.x ∧ demoInputs.x[t]? = some bcall.x ∧
            demoGradInputs.h_grad[t]? = some bcall.h_grad :=
  ⟨_, rfl, by decide,
    LSTMBlockGradOp.paired_with_forward demoOp demoFprop demoInputs demoGradOp demoBprop
      demoGradInputs demoUninit demoUninit { dim0 := 1, dim1 := 1, flat := [5] } 2 _
      (by decide) (by decide) (by decide) (by decide) rfl (by decide) (by decide) (by decide)
      (by decide) (by decide) (by decide) (by decide) (by decide) (by decide) (by decide)⟩

/-- Zero fill of the backward scan, for every maximum `D` of `sequence_len` at
which `D - 1` does not overflow (`INT64_MIN < D`).  For such a valid input,
`Compute` returns exactly `MaxLen` buffers `x_grad`, each of shape
`Batch x InputSize`; and for
every `t` with `max(sequence_len) ≤ t < MaxLen` the buffer `x_grad[t]` consists
of zeros only (as many as its shape has cells) and no functor invocation was
made for loop variable `t`. -/
theorem LSTMBlockGradOp.backward_zero_fill {α : Type} [Zero α] (op : LSTMBlockGradOp)
    (bprop : LSTMCellBlockBprop α) (uninit : Nat → Nat → α) (inp : LSTMBlockGradInputs α)
    (x0 : Matrix α) (D : Int)
    (hx0 : inp.x[0]? = some x0) (hD : max_element inp.sequence_len = some D)
    (hlx : inp.x.length = op.sequence_len_max_.toNat)
    (hls : inp.states.length = op.sequence_len_max_.toNat)
    (hlg : inp.h_grad.length = op.sequence_len_max_.toNat)
    (hvalid : LSTMBlockGradOp.validate op inp x0.dim1 D = Status.OK)
    (hmin : INT64_MIN < D) :
    ∃ ctx, LSTMBlockGradOp.Compute op bprop uninit inp = some ctx ∧
      ctx.x_grad.length = op.sequence_len_max_.toNat ∧
      (∀ m ∈ ctx.x_grad, m.dim0 = x0.dim0 ∧ m.dim1 = x0.dim1) ∧
      ∀ t : Nat, D ≤ (t : Int) → (t : Int) < op.sequence_len_max_ →
        (∃ m, ctx.x_grad[t]? = some m ∧
          m.flat = List.replicate (x0.dim0 * x0.dim1).toNat 0 ∧ m.allZero) ∧
        ∀ p ∈ ctx.calls, p.1 ≠ t := by
  obtain ⟨st, hc, _, hinv⟩ :=
    bwd_Compute_of_valid op bprop uninit inp x0 D hx0 hD hlx hls hlg hvalid hmin
  refine ⟨_, hc, hinv.x_grad_length, ?_, ?_⟩
  · intro m hm
    obtain ⟨t, ht⟩ := List.mem_iff_getElem?.mp hm
    have htlt : t < op.sequence_len_max_.toNat := by
      rw [← hinv.x_grad_length]
      exact (List.getElem?_eq_some.mp ht).1
    obtain ⟨m1, h1, h2, h3⟩ := bwd_LoopInv_shape hinv t htlt
    have : m = m1 := Option.some.inj (ht.symm.trans h1)
    subst this
    exact ⟨h2, h3⟩
  · intro t hDt htM
    have htD : D.toNat ≤ t := Int.toNat_le.mpr hDt
    refine ⟨?_, ?_⟩
    · have hxg := hinv.untouched t (Or.inr htD) (Int.lt_toNat.mpr htM)
      rw [matrix_memZero_allocate] at hxg
      refine ⟨_, hxg, rfl, ?_⟩
      intro e he
      exact List.eq_of_mem_replicate he
    · intro p hp
      obtain ⟨k, hk⟩ := List.mem_iff_getElem?.mp hp
      obtain ⟨hlt, hp1⟩ := bwd_LoopInv_calls hinv k p hk
      omega

/-- The zero fill on the concrete backward instance (`D = 2`, `MaxLen = 3`). -/
theorem LSTMBlockGradOp.backward_zero_fill_witness :
    (demoGradInputs.x[0]? = some { dim0 := 1, dim1 := 1, flat := [5] } ∧
      max_element demoGradInputs.sequence_len = some 2 ∧
      demoGradInputs.x.length = demoGradOp.sequence_len_max_.toNat ∧
      demoGradInputs.states.length = demoGradOp.sequence_len_max_.toNat ∧
      demoGradInputs.h_grad.length = demoGradOp.sequence_len_max_.toNat ∧
      LSTMBlockGradOp.validate demoGradOp demoGradInputs 1 2 = Status.OK ∧
      INT64_MIN < 2) ∧
    ∃ ctx, LSTMBlockGradOp.Compute demoGradOp demoBprop demoUninit demoGradInputs = some ctx ∧
      ctx.x_grad.length = demoGradOp.sequence_len_max_.toNat ∧
      (∀ m ∈ ctx.x_grad, m.dim0 = 1 ∧ m.dim1 = 1) ∧
      ∀ t : Nat, (2 : Int) ≤ (t : Int) → (t : Int) < demoGradOp.sequence_len_max_ →
        (∃ m, ctx.x_grad[t]? = some m ∧
          m.flat = List.replicate ((1 : Int) * 1).toNat 0 ∧ m.allZero) ∧
        ∀ p ∈ ctx.calls, p.1 ≠ t :=
  ⟨⟨by decide, by decide, by decide, by decide, by decide, by decide, by decide⟩,
    LSTMBlockGradOp.backward_zero_fill demoGradOp demoBprop demoUninit demoGradInputs
      { dim0 := 1, dim1 := 1, flat := [5] } 2 (by decide) (by decide) (by decide) (by decide)
      (by decide) (by decide) (by decide)⟩

/-- C8. The two scans abort on the sequence length under the same condition.
For a `sequence_len` vector with maximum `D` and an attribute `MaxLen` shared by
the two ops, the backward scan ends with the sequence-length `InvalidArgument`
if and only if `MaxLen < D`, the forward scan ends with it if and only if
`MaxLen < D`, and in that case the backward scan has allocated no `x_grad`
slot, no `w_grad`, no `b_grad`, and has not invoked the backward functor. -/
theorem LSTMBlockGradOp.sequence_len_abort_iff {α : Type} [Zero α]
    (fop : LSTMBlockOp α) (fprop : LSTMCellBlockFprop α) (finp : LSTMBlockInputs α)
    (bop : LSTMBlockGradOp) (bprop : LSTMCellBlockBprop α) (binp : LSTMBlockGradInputs α)
    (uninit : Nat → Nat → α) (D : Int)
    (hfx : finp.x ≠ []) (hbx : binp.x ≠ [])
    (hseq : binp.sequence_len = finp.sequence_len)
    (hM : bop.sequence_len_max_ = fop.sequence_len_max_)
    (hmem : D ∈ finp.sequence_len) (hmax : ∀ v ∈ finp.sequence_len, v ≤ D) :
    ((∃ ctx, LSTMBlockGradOp.Compute bop bprop uninit binp = some ctx ∧
        ctx.status = Status.InvalidArgument Error.minibatch_sequence_len_max) ↔
      fop.sequence_len_max_ < D) ∧
    ((∃ ctx, LSTMBlockOp.Compute fop fprop uninit finp = some ctx ∧
        ctx.status = Status.InvalidArgument Error.minibatch_sequence_len_max) ↔
      fop.sequence_len_max_ < D) ∧
    (fop.sequence_len_max_ < D →
      ∃ ctx, LSTMBlockGradOp.Compute bop bprop uninit binp = some ctx ∧
        ctx.status = Status.InvalidArgument Error.minibatch_sequence_len_max ∧
        ctx.x_grad = [] ∧ ctx.w_grad = none ∧ ctx.b_grad = none ∧ ctx.calls = []) := by
  have hfD : max_element finp.sequence_len = some D :=
    (max_element_eq_some_iff _ _).mpr ⟨hmem, hmax⟩
  have hbD : max_element binp.sequence_len = some D := by rw [hseq]; exact hfD
  obtain ⟨fx0, hfx0⟩ := getElem?_zero_of_ne_nil hfx
  obtain ⟨bx0, hbx0⟩ := getElem?_zero_of_ne_nil hbx
  have hb := bwd_validate_eq_overflow_iff bop binp bx0.dim1 D
  rw [hM] at hb
  have hf := fwd_validate_eq_overflow_iff fop finp fx0.dim0 fx0.dim1 D
  have hfail : fop.sequence_len_max_ < D →
      LSTMBlockGradOp.Compute bop bprop uninit binp =
        some (LSTMBlockGradContext.failure Error.minibatch_sequence_len_max) := by
    intro h
    exact bwd_Compute_of_invalid bop bprop uninit binp bx0 D _ hbx0 hbD (hb.mpr h)
  refine ⟨⟨?_, ?_⟩, ⟨?_, ?_⟩, ?_⟩
  · rintro ⟨ctx, hc, hs⟩
    rw [bwd_Compute_status bop bprop uninit binp bx0 D ctx hbx0 hbD hc] at hs
    exact hb.mp hs
  · intro h
    exact ⟨_, hfail h, rfl⟩
  · rintro ⟨ctx, hc, hs⟩
    rw [fwd_Compute_status fop fprop uninit finp fx0 D ctx hfx0 hfD hc] at hs
    exact hf.mp hs
  · intro h
    exact ⟨_, fwd_Compute_of_invalid fop fprop uninit finp fx0 D _ hfx0 hfD (hf.mpr h), rfl⟩
  · intro h
    exact ⟨_, hfail h, rfl, rfl, rfl, rfl, rfl⟩

/-- Witness of C8: the concrete instances with `sequence_len = [2]`. -/
theorem LSTMBlockGradOp.sequence_len_abort_iff_witness :
    (demoInputs.x ≠ [] ∧ demoGradInputs.x ≠ [] ∧
      demoGradInputs.sequence_len = demoInputs.sequence_len ∧
      demoGradOp.sequence_len_max_ = demoOp.sequence_len_max_ ∧
      (2 : Int) ∈ demoInputs.sequence_len ∧ ∀ v ∈ demoInputs.sequence_len, v ≤ 2) ∧
    ((∃ ctx, LSTMBlockGradOp.Compute demoGradOp demoBprop demoUninit demoGradInputs = some ctx ∧
        ctx.status = Status.InvalidArgument Error.minibatch_sequence_len_max) ↔
      demoOp.sequence_len_max_ < 2) ∧
    ((∃ ctx, LSTMBlockOp.Compute demoOp demoFprop demoUninit demoInputs = some ctx ∧
        ctx.status = Status.InvalidArgument Error.minibatch_sequence_len_max) ↔
      demoOp.sequence_len_max_ < 2) ∧
    (demoOp.sequence_len_max_ < 2 →
      ∃ ctx, LSTMBlockGradOp.Compute demoGradOp demoBprop demoUninit demoGradInputs = some ctx ∧
        ctx.status = Status.InvalidArgument Error.minibatch_sequence_len_max ∧
        ctx.x_grad = [] ∧ ctx.w_grad = none ∧ ctx.b_grad = none ∧ ctx.calls = []) :=
  ⟨⟨by decide, by decide, by decide, by decide, by decide, by decide⟩,
    LSTMBlockGradOp.sequence_len_abort_iff demoOp demoFprop demoInputs demoGradOp demoBprop
      demoGradInputs demoUninit 2 (by decide) (by decide) (by decide) (by decide) (by decide)
      (by decide)⟩

/-! ### The single-timestep ops -/

theorem fwd_step_congr {α : Type} (op : LSTMBlockOp α) (fprop : LSTMCellBlockFprop α)
    (inp1 inp2 : LSTMBlockInputs α) (batch_size input_size : Int) (t : Nat)
    (st : LSTMBlockState α)
    (hi : inp1.initial_state = inp2.initial_state) (hw : inp1.w = inp2.w)
    (hb : inp1.b = inp2.b) (hx : inp1.x[t]? = inp2.x[t]?) :
    LSTMBlockOp.step op fprop inp1 batch_size input_size t st =
      LSTMBlockOp.step op fprop inp2 batch_size input_size t st := by
  simp only [LSTMBlockOp.step, hi, hw, hb, hx]

theorem fwd_loop_congr {α : Type} (op : LSTMBlockOp α) (fprop : LSTMCellBlockFprop α)
    (inp1 inp2 : LSTMBlockInputs α) (batch_size input_size : Int)
    (hi : inp1.initial_state = inp2.initial_state) (hw : inp1.w = inp2.w)
    (hb : inp1.b = inp2.b) (st : LSTMBlockState α) :
    ∀ n : Nat, (∀ k, k < n → inp1.x[k]? = inp2.x[k]?) →
      LSTMBlockOp.loop op fprop inp1 batch_size input_size n st =
        LSTMBlockOp.loop op fprop inp2 batch_size input_size n st := by
  intro n
  induction n with
  | zero =>
    intro _
    rfl
  | succ k ih =>
    intro hx
    simp only [LSTMBlockOp.loop]
    rw [ih (fun j hj => hx j (by omega))]
    cases LSTMBlockOp.loop op fprop inp2 batch_size input_size k st with
    | none => rfl
    | some st1 =>
      exact fwd_step_congr op fprop inp1 inp2 batch_size input_size k st1 hi hw hb
        (hx k (Nat.lt_succ_self k))

theorem fwd_Compute_congr {α : Type} [Zero α] (op : LSTMBlockOp α)
    (fprop : LSTMCellBlockFprop α) (uninit : Nat → Nat → α) (inp1 inp2 : LSTMBlockInputs α)
    (a b : Matrix α) (D : Int)
    (ha : inp1.x[0]? = some a) (hb0 : inp2.x[0]? = some b)
    (hd0 : a.dim0 = b.dim0) (hd1 : a.dim1 = b.dim1)
    (hD1 : max_element inp1.sequence_len = some D)
    (hD2 : max_element inp2.sequence_len = some D)
    (hi : inp1.initial_state = inp2.initial_state) (hw : inp1.w = inp2.w)
    (hb : inp1.b = inp2.b)
    (hx : ∀ k, k < D.toNat → inp1.x[k]? = inp2.x[k]?) :
    LSTMBlockOp.Compute op fprop uninit inp1 = LSTMBlockOp.Compute op fprop uninit inp2 := by
  have hv : LSTMBlockOp.validate op inp1 a.dim0 a.dim1 D =
      LSTMBlockOp.validate op inp2 b.dim0 b.dim1 D := by
    simp only [LSTMBlockOp.validate, hi, hw, hb, hd0, hd1]
  simp only [LSTMBlockOp.Compute, ha, hb0, hD1, hD2, hv, ← hd0, ← hd1]
  rw [fwd_loop_congr op fprop inp1 inp2 a.dim0 a.dim1 hi hw hb _ D.toNat hx]

theorem fwd_Compute_total {α : Type} [Zero α] (op : LSTMBlockOp α)
    (fprop : LSTMCellBlockFprop α) (uninit : Nat → Nat → α) (inp : LSTMBlockInputs α)
    (x0 : Matrix α) (D : Int)
    (hx0 : inp.x[0]? = some x0) (hD : max_element inp.sequence_len = some D)
    (hlen : inp.x.length = op.sequence_len_max_.toNat) :
    ∃ ctx, LSTMBlockOp.Compute op fprop uninit inp = some ctx := by
  cases hv : LSTMBlockOp.validate op inp x0.dim0 x0.dim1 D with
  | OK =>
    obtain ⟨st, hc, _⟩ := fwd_Compute_of_valid op fprop uninit inp x0 D hx0 hD hlen hv
    exact ⟨_, hc⟩
  | InvalidArgument e =>
    exact ⟨_, fwd_Compute_of_invalid op fprop uninit inp x0 D e hx0 hD hv⟩

theorem bwd_step_congr {α : Type} (op : LSTMBlockGradOp) (bprop : LSTMCellBlockBprop α)
    (inp1 inp2 : LSTMBlockGradInputs α) (batch_size input_size : Int) (t : Nat)
    (st : LSTMBlockGradState α)
    (hi : inp1.initial_state = inp2.initial_state) (hw : inp1.w = inp2.w)
    (hb : inp1.b = inp2.b) (hx : inp1.x[t]? = inp2.x[t]?)
    (hs : inp1.states[t]? = inp2.states[t]?) (hp : inp1.states[t - 1]? = inp2.states[t - 1]?)
    (hg : inp1.h_grad[t]? = inp2.h_grad[t]?) :
    LSTMBlockGradOp.step op bprop inp1 batch_size input_size t st =
      LSTMBlockGradOp.step op bprop inp2 batch_size input_size t st := by
  simp only [LSTMBlockGradOp.step, LSTMBlockGradOp.call, hi, hw, hb, hx, hs, hp, hg]

theorem bwd_loop_congr {α : Type} (op : LSTMBlockGradOp) (bprop : LSTMCellBlockBprop α)
    (inp1 inp2 : LSTMBlockGradInputs α) (batch_size input_size : Int)
    (hi : inp1.initial_state = inp2.initial_state) (hw : inp1.w = inp2.w)
    (hb : inp1.b = inp2.b) :
    ∀ (n : Nat) (st : LSTMBlockGradState α),
      (∀ k, k < n → inp1.x[k]? = inp2.x[k]? ∧ inp1.states[k]? = inp2.states[k]? ∧
        inp1.h_grad[k]? = inp2.h_grad[k]?) →
      LSTMBlockGradOp.loop op bprop inp1 batch_size input_size n st =
        LSTMBlockGradOp.loop op bprop inp2 batch_size input_size n st := by
  intro n
  induction n with
  | zero =>
    intro st _
    rfl
  | succ k ih =>
    intro st hx
    have hk := hx k (Nat.lt_succ_self k)
    have hp : inp1.states[k - 1]? = inp2.states[k - 1]? := (hx (k - 1) (by omega)).2.1
    simp only [LSTMBlockGradOp.loop]
    rw [bwd_step_congr op bprop inp1 inp2 batch_size input_size k st hi hw hb hk.1 hk.2.1 hp
      hk.2.2]
    cases LSTMBlockGradOp.step op bprop inp2 batch_size input_size k st with
    | none => rfl
    | some st1 => exact ih st1 (fun j hj => hx j (by omega))

theorem bwd_Compute_congr {α : Type} [Zero α] (op : LSTMBlockGradOp)
    (bprop : LSTMCellBlockBprop α) (uninit : Nat → Nat → α) (inp1 inp2 : LSTMBlockGradInputs α)
    (a b : Matrix α) (D : Int)
    (ha : inp1.x[0]? = some a) (hb0 : inp2.x[0]? = some b)
    (hd0 : a.dim0 = b.dim0) (hd1 : a.dim1 = b.dim1)
    (hD1 : max_element inp1.sequence_len = some D)
    (hD2 : max_element inp2.sequence_len = some D)
    (hi : inp1.initial_state = inp2.initial_state) (hw : inp1.w = inp2.w)
    (hb : inp1.b = inp2.b)
    (hx : ∀ k, k < (int64_pred D + 1).toNat →
      inp1.x[k]? = inp2.x[k]? ∧ inp1.states[k]? = inp2.states[k]? ∧
      inp1.h_grad[k]? = inp2.h_grad[k]?) :
    LSTMBlockGradOp.Compute op bprop uninit inp1 =
      LSTMBlockGradOp.Compute op bprop uninit inp2 := by
  have hv : LSTMBlockGradOp.validate op inp1 a.dim1 D =
      LSTMBlockGradOp.validate op inp2 b.dim1 D := by
    simp only [LSTMBlockGradOp.validate, hw, hb, hd1]
  simp only [LSTMBlockGradOp.Compute, ha, hb0, hD1, hD2, hv, ← hd0, ← hd1]
  rw [bwd_loop_congr op bprop inp1 inp2 a.dim0 a.dim1 hi hw hb (int64_pred D + 1).toNat _ hx]

theorem bwd_Compute_total {α : Type} [Zero α] (op : LSTMBlockGradOp)
    (bprop : LSTMCellBlockBprop α) (uninit : Nat → Nat → α) (inp : LSTMBlockGradInputs α)
    (x0 : Matrix α) (D : Int)
    (hx0 : inp.x[0]? = some x0) (hD : max_element inp.sequence_len = some D)
    (hlx : inp.x.length = op.sequence_len_max_.toNat)
    (hls : inp.states.length = op.sequence_len_max_.toNat)
    (hlg : inp.h_grad.length = op.sequence_len_max_.toNat)
    (hmin : INT64_MIN < D) :
    ∃ ctx, LSTMBlockGradOp.Compute op bprop uninit inp = some ctx := by
  cases hv : LSTMBlockGradOp.validate op inp x0.dim1 D with
  | OK =>
    obtain ⟨st, hc, _⟩ :=
      bwd_Compute_of_valid op bprop uninit inp x0 D hx0 hD hlx hls hlg hv hmin
    exact ⟨_, hc⟩
  | InvalidArgument e =>
    exact ⟨_, bwd_Compute_of_invalid op bprop uninit inp x0 D e hx0 hD hv⟩

/-! ### The forward cell functor of the spec -/

/-- The scans depend on `sequence_len` only through its maximum, for every
maximum `D` at which `D - 1` does not overflow (`INT64_MIN < D`).  If two
non-empty vectors have the same such maximum `D`, then replacing one by the
other, all other inputs unchanged, leaves the whole result of the forward scan (status,
every `h[t]` and `states[t]`, the invocations made) and the whole result of the
backward scan (status, every `x_grad[t]`, `w_grad`, `b_grad`, the invocations
made) unchanged; and both scans do return a result. -/
theorem LSTMBlockOp.sequence_len_only_through_max {α : Type} [Zero α]
    (fop : LSTMBlockOp α) (fprop : LSTMCellBlockFprop α) (finp : LSTMBlockInputs α)
    (bop : LSTMBlockGradOp) (bprop : LSTMCellBlockBprop α) (binp : LSTMBlockGradInputs α)
    (uninit : Nat → Nat → α) (s1 s2 : List Int) (D : Int)
    (hfx : finp.x ≠ []) (hbx : binp.x ≠ [])
    (hflen : finp.x.length = fop.sequence_len_max_.toNat)
    (hblx : binp.x.length = bop.sequence_len_max_.toNat)
    (hbls : binp.states.length = bop.sequence_len_max_.toNat)
    (hblg : binp.h_grad.length = bop.sequence_len_max_.toNat)
    (hD1 : max_element s1 = some D) (hD2 : max_element s2 = some D)
    (hmin : INT64_MIN < D) :
    ∃ fctx bctx,
      LSTMBlockOp.Compute fop fprop uninit { finp with sequence_len := s1 } = some fctx ∧
      LSTMBlockOp.Compute fop fprop uninit { finp with sequence_len := s2 } = some fctx ∧
      LSTMBlockGradOp.Compute bop bprop uninit { binp with sequence_len := s1 } = some bctx ∧
      LSTMBlockGradOp.Compute bop bprop uninit { binp with sequence_len := s2 } = some bctx := by
  obtain ⟨fx0, hfx0⟩ := getElem?_zero_of_ne_nil hfx
  obtain ⟨bx0, hbx0⟩ := getElem?_zero_of_ne_nil hbx
  obtain ⟨fctx, hf⟩ :=
    fwd_Compute_total fop fprop uninit { finp with sequence_len := s1 } fx0 D hfx0 hD1 hflen
  obtain ⟨bctx, hb⟩ :=
    bwd_Compute_total bop bprop uninit { binp with sequence_len := s1 } bx0 D hbx0 hD1 hblx hbls
      hblg hmin
  refine ⟨fctx, bctx, hf, ?_, hb, ?_⟩
  · rw [← hf]
    exact (fwd_Compute_congr fop fprop uninit { finp with sequence_len := s1 }
      { finp with sequence_len := s2 } fx0 fx0 D hfx0 hfx0 rfl rfl hD1 hD2 rfl rfl rfl
      (fun _ _ => rfl)).symm
  · rw [← hb]
    exact (bwd_Compute_congr bop bprop uninit { binp with sequence_len := s1 }
      { binp with sequence_len := s2 } bx0 bx0 D hbx0 hbx0 rfl rfl hD1 hD2 rfl rfl rfl
      (fun _ _ => ⟨rfl, rfl, rfl⟩)).symm

/-- The vectors `sequence_len = [1, 2]` and `[2, 2]` on the second instance. -/
theorem LSTMBlockOp.sequence_len_only_through_max_witness :
    (demo2Inputs.x ≠ [] ∧ demo2GradInputs.x ≠ [] ∧
      demo2Inputs.x.length = demo2Op.sequence_len_max_.toNat ∧
      demo2GradInputs.x.length = demo2GradOp.sequence_len_max_.toNat ∧
      demo2GradInputs.states.length = demo2GradOp.sequence_len_max_.toNat ∧
      demo2GradInputs.h_grad.length = demo2GradOp.sequence_len_max_.toNat ∧
      max_element [1, 2] = some 2 ∧ max_element [2, 2] = some 2 ∧ INT64_MIN < 2) ∧
    ∃ fctx bctx,
      LSTMBlockOp.Compute demo2Op (CellFprop demoActivations) demoUninit
        { demo2Inputs with sequence_len := [1, 2] } = some fctx ∧
      LSTMBlockOp.Compute demo2Op (CellFprop demoActivations) demoUninit
        { demo2Inputs with sequence_len := [2, 2] } = some fctx ∧
      LSTMBlockGradOp.Compute demo2GradOp demoRowBprop demoUninit
        { demo2GradInputs with sequence_len := [1, 2] } = some bctx ∧
      LSTMBlockGradOp.Compute demo2GradOp demoRowBprop demoUninit
        { demo2GradInputs with sequence_len := [2, 2] } = some bctx :=
  ⟨⟨by decide, by decide, by decide, by decide, by decide, by decide, by decide, by decide,
      by decide⟩,
    LSTMBlockOp.sequence_len_only_through_max demo2Op (CellFprop demoActivations) demo2Inputs
      demo2GradOp demoRowBprop demo2GradInputs demoUninit [1, 2] [2, 2] 2 (by decide) (by decide)
      (by decide) (by decide) (by decide) (by decide) (by decide) (by decide) (by decide)⟩

/-! ### Edge cases of the scans -/

/-- Sequences that are all empty.  When every entry of a non-empty
`sequence_len` is `≤ 0`, one entry of the backward scan's is greater than
`INT64_MIN`, and the shapes pass the checks, the forward scan returns
with status OK without any functor invocation, with `MaxLen` buffers `h` and
`MaxLen` buffers `states` that consist of zeros only; and the backward scan
returns with status OK without any functor invocation, with `MaxLen` buffers
`x_grad` that consist of zeros only and with all-zero `w_grad` and `b_grad`. -/
theorem LSTMBlockOp.empty_sequences {α : Type} [Zero α]
    (fop : LSTMBlockOp α) (fprop : LSTMCellBlockFprop α) (finp : LSTMBlockInputs α)
    (bop : LSTMBlockGradOp) (bprop : LSTMCellBlockBprop α) (binp : LSTMBlockGradInputs α)
    (uninit : Nat → Nat → α) (fx0 bx0 : Matrix α)
    (hfx0 : finp.x[0]? = some fx0) (hbx0 : binp.x[0]? = some bx0)
    (hflen : finp.x.length = fop.sequence_len_max_.toNat)
    (hblx : binp.x.length = bop.sequence_len_max_.toNat)
    (hbls : binp.states.length = bop.sequence_len_max_.toNat)
    (hblg : binp.h_grad.length = bop.sequence_len_max_.toNat)
    (hfne : finp.sequence_len ≠ []) (hfall : ∀ v ∈ finp.sequence_len, v ≤ 0)
    (hbne : binp.sequence_len ≠ []) (hball : ∀ v ∈ binp.sequence_len, v ≤ 0)
    (hbmin : ∃ v ∈ binp.sequence_len, INT64_MIN < v)
    (hfi0 : finp.initial_state.dim0 = fx0.dim0)
    (hfi1 : finp.initial_state.dim1 = 7 * fop.cell_size_)
    (hfw0 : finp.w.dim0 = fx0.dim1 + fop.cell_size_) (hfw1 : finp.w.dim1 = 4 * fop.cell_size_)
    (hfb : finp.b.dim0 = 4 * fop.cell_size_)
    (hbw0 : binp.w.dim0 = bx0.dim1 + bop.cell_size_) (hbw1 : binp.w.dim1 = 4 * bop.cell_size_)
    (hbb : binp.b.dim0 = 4 * bop.cell_size_) :
    (∃ fctx, LSTMBlockOp.Compute fop fprop uninit finp = some fctx ∧
      fctx.status = Status.OK ∧ fctx.calls = [] ∧
      fctx.h.length = fop.sequence_len_max_.toNat ∧
      fctx.states.length = fop.sequence_len_max_.toNat ∧
      (∀ m ∈ fctx.h, m.flat = List.replicate (fx0.dim0 * fop.cell_size_).toNat 0) ∧
      (∀ m ∈ fctx.states, m.flat = List.replicate (fx0.dim0 * (7 * fop.cell_size_)).toNat 0)) ∧
    (∃ bctx wg bg, LSTMBlockGradOp.Compute bop bprop uninit binp = some bctx ∧
      bctx.status = Status.OK ∧ bctx.calls = [] ∧
      bctx.x_grad.length = bop.sequence_len_max_.toNat ∧
      (∀ m ∈ bctx.x_grad, m.flat = List.replicate (bx0.dim0 * bx0.dim1).toNat 0) ∧
      bctx.w_grad = some wg ∧
      wg.flat = List.replicate ((bx0.dim1 + bop.cell_size_) * (4 * bop.cell_size_)).toNat 0 ∧
      bctx.b_grad = some bg ∧
      bg.flat = List.replicate (4 * bop.cell_size_).toNat 0) := by
  have hmax : ∀ s : List Int, s ≠ [] → (∀ v ∈ s, v ≤ 0) →
      ∃ D, max_element s = some D ∧ D.toNat = 0 := by
    intro s hne hall
    cases s with
    | nil => exact absurd rfl hne
    | cons a rest =>
      refine ⟨_, rfl, ?_⟩
      have hm := ((max_element_eq_some_iff (a :: rest) _).mp rfl).1
      have := hall _ hm
      omega
  obtain ⟨fD, hfD, hfD0⟩ := hmax _ hfne hfall
  obtain ⟨bD, hbD, hbD0⟩ := hmax _ hbne hball
  have hbDmin : INT64_MIN < bD := by
    obtain ⟨v, hv, hvmin⟩ := hbmin
    have := ((max_element_eq_some_iff _ _).mp hbD).2 v hv
    omega
  have hfpos : 0 < fop.sequence_len_max_.toNat := by
    rw [← hflen]
    exact (List.getElem?_eq_some.mp hfx0).1
  have hbpos : 0 < bop.sequence_len_max_.toNat := by
    rw [← hblx]
    exact (List.getElem?_eq_some.mp hbx0).1
  have hfv : LSTMBlockOp.validate fop finp fx0.dim0 fx0.dim1 fD = Status.OK := by
    rw [fwd_validate_eq_OK_iff]
    refine ⟨by omega, hfi0, by rw [hfi1, mul_comm], hfw0, by rw [hfw1, mul_comm],
      by rw [hfb, mul_comm]⟩
  have hbv : LSTMBlockGradOp.validate bop binp bx0.dim1 bD = Status.OK := by
    rw [bwd_validate_eq_OK_iff]
    refine ⟨by omega, hbw0, by rw [hbw1, mul_comm], by rw [hbb, mul_comm]⟩
  obtain ⟨fst, hfc, hfinv⟩ := fwd_Compute_of_valid fop fprop uninit finp fx0 fD hfx0 hfD hflen hfv
  obtain ⟨bst, hbc, hbloop, hbinv⟩ :=
    bwd_Compute_of_valid bop bprop uninit binp bx0 bD hbx0 hbD hblx hbls hblg hbv hbDmin
  rw [hfD0] at hfinv
  rw [hbD0] at hbinv hbloop
  refine ⟨⟨_, hfc, rfl, List.eq_nil_of_length_eq_zero hfinv.calls_length, hfinv.h_length,
    hfinv.states_length, ?_, ?_⟩, ⟨_, bst.w_grad, bst.b_grad, hbc, rfl, ?_, hbinv.x_grad_length,
    ?_, rfl, ?_, rfl, ?_⟩⟩
  · intro m hm
    obtain ⟨t, ht⟩ := List.mem_iff_getElem?.mp hm
    have htlt : t < fop.sequence_len_max_.toNat := by
      rw [← hfinv.h_length]
      exact (List.getElem?_eq_some.mp ht).1
    obtain ⟨hh, _⟩ := hfinv.untouched t (Nat.zero_le t) htlt
    rw [matrix_memZero_allocate] at hh
    rw [Option.some.inj (ht.symm.trans hh)]
  · intro m hm
    obtain ⟨t, ht⟩ := List.mem_iff_getElem?.mp hm
    have htlt : t < fop.sequence_len_max_.toNat := by
      rw [← hfinv.states_length]
      exact (List.getElem?_eq_some.mp ht).1
    obtain ⟨_, hs⟩ := hfinv.untouched t (Nat.zero_le t) htlt
    rw [matrix_memZero_allocate] at hs
    rw [Option.some.inj (ht.symm.trans hs)]
    simp only [mul_comm]
  · have hcl : bst.calls.length = 0 := by
      have := hbinv.calls_length
      omega
    exact List.eq_nil_of_length_eq_zero hcl
  · intro m hm
    obtain ⟨t, ht⟩ := List.mem_iff_getElem?.mp hm
    have htlt : t < bop.sequence_len_max_.toNat := by
      rw [← hbinv.x_grad_length]
      exact (List.getElem?_eq_some.mp ht).1
    have hxg := hbinv.untouched t (Or.inr (Nat.zero_le t)) htlt
    rw [matrix_memZero_allocate] at hxg
    rw [Option.some.inj (ht.symm.trans hxg)]
  · simp only [LSTMBlockGradOp.loop] at hbloop
    rw [← Option.some.inj hbloop]
    simp only [LSTMBlockGradOp.allocate, matrix_memZero_allocate, mul_comm]
  · simp only [LSTMBlockGradOp.loop] at hbloop
    rw [← Option.some.inj hbloop]
    simp only [LSTMBlockGradOp.allocate, vec_memZero_allocate, mul_comm]

/-- The second instance with `sequence_len = [0, -1]`. -/
theorem LSTMBlockOp.empty_sequences_witness :
    ((∀ v ∈ ({ demo2Inputs with sequence_len := [0, -1] } : LSTMBlockInputs Int).sequence_len,
        v ≤ 0) ∧
      ({ demo2Inputs with sequence_len := [0, -1] } : LSTMBlockInputs Int).sequence_len ≠ [] ∧
      INT64_MIN < 0) ∧
    (∃ fctx, LSTMBlockOp.Compute demo2Op (CellFprop demoActivations) demoUninit
        { demo2Inputs with sequence_len := [0, -1] } = some fctx ∧
      fctx.status = Status.OK ∧ fctx.calls = [] ∧
      fctx.h.length = demo2Op.sequence_len_max_.toNat ∧
      fctx.states.length = demo2Op.sequence_len_max_.toNat ∧
      (∀ m ∈ fctx.h, m.flat = List.replicate ((2 : Int) * demo2Op.cell_size_).toNat 0) ∧
      (∀ m ∈ fctx.states,
        m.flat = List.replicate ((2 : Int) * (7 * demo2Op.cell_size_)).toNat 0)) ∧
    (∃ bctx wg bg, LSTMBlockGradOp.Compute demo2GradOp demoRowBprop demoUninit
        { demo2GradInputs with sequence_len := [0, -1] } = some bctx ∧
      bctx.status = Status.OK ∧ bctx.calls = [] ∧
      bctx.x_grad.length = demo2GradOp.sequence_len_max_.toNat ∧
      (∀ m ∈ bctx.x_grad, m.flat = List.replicate ((2 : Int) * 1).toNat 0) ∧
      bctx.w_grad = some wg ∧
      wg.flat = List.replicate (((1 : Int) + demo2GradOp.cell_size_) *
        (4 * demo2GradOp.cell_size_)).toNat 0 ∧
      bctx.b_grad = some bg ∧
      bg.flat = List.replicate (4 * demo2GradOp.cell_size_).toNat 0) :=
  ⟨⟨by decide, by decide, by decide⟩,
    LSTMBlockOp.empty_sequences demo2Op (CellFprop demoActivations)
      { demo2Inputs with sequence_len := [0, -1] } demo2GradOp demoRowBprop
      { demo2GradInputs with sequence_len := [0, -1] } demoUninit
      { dim0 := 2, dim1 := 1, flat := [3, 4] } { dim0 := 2, dim1 := 1, flat := [3, 4] }
      (by decide) (by decide) (by decide) (by decide) (by decide) (by decide) (by decide)
      (by decide) (by decide) (by decide) ⟨0, by decide, by decide⟩ (by decide) (by decide)
      (by decide) (by decide) (by decide) (by decide) (by decide) (by decide)⟩

/-- C20. The backward scan validates less than the forward scan.  The outcome
of the checks of `LSTMBlockGradOp::Compute` is the same whatever
`initial_state`, `states` and `h_grad` are; and on the second instance with an
`initial_state` of eight columns instead of `7 * CellSize = 7`, everything else
being valid, the forward scan ends with the `InvalidArgument` of the
`initial_state` column check and no invocation, while the backward scan ends
with status OK after its two functor invocations. -/
theorem LSTMBlockGradOp.validates_less_than_forward :
    (∀ (α : Type) (op : LSTMBlockGradOp) (inp : LSTMBlockGradInputs α)
        (input_size sequence_len_max : Int) (m : Matrix α) (s g : List (Matrix α)),
      LSTMBlockGradOp.validate op { inp with initial_state := m, states := s, h_grad := g }
          input_size sequence_len_max =
        LSTMBlockGradOp.validate op inp input_size sequence_len_max) ∧
    demo2WideState.dim1 ≠ 7 * demo2Op.cell_size_ ∧
    demo2GradOp.cell_size_ = demo2Op.cell_size_ ∧
    demo2GradOp.sequence_len_max_ = demo2Op.sequence_len_max_ ∧
    LSTMBlockOp.validate demo2Op demo2Inputs 2 1 2 = Status.OK ∧
    (∃ fctx, LSTMBlockOp.Compute demo2Op (CellFprop demoActivations) demoUninit
        { demo2Inputs with initial_state := demo2WideState } = some fctx ∧
      fctx.status = Status.InvalidArgument Error.initial_state_dim1 ∧
      Error.initial_state_dim1.isShape = true ∧ fctx.calls = []) ∧
    (∃ bctx, LSTMBlockGradOp.Compute demo2GradOp demoRowBprop demoUninit
        { demo2GradInputs with initial_state := demo2WideState } = some bctx ∧
      bctx.status = Status.OK ∧ bctx.calls.length = 2) := by
  refine ⟨?_, by decide, by decide, by decide, by decide, ⟨_, rfl, by decide, by decide,
    by decide⟩, ⟨_, rfl, by decide, by decide⟩⟩
  intro α op inp input_size sequence_len_max m s g
  rfl

/-! ### Causality and non-influence -/

theorem fwd_step_other_slots {α : Type} (op : LSTMBlockOp α) (fprop : LSTMCellBlockFprop α)
    (inp : LSTMBlockInputs α) (batch_size input_size : Int) (k : Nat)
    (st st1 : LSTMBlockState α)
    (h : LSTMBlockOp.step op fprop inp batch_size input_size k st = some st1)
    (t : Nat) (ht : t ≠ k) :
    st1.h[t]? = st.h[t]? ∧ st1.states[t]? = st.states[t]? := by
  simp only [LSTMBlockOp.step] at h
  split at h
  · rw [← Option.some.inj h]
    exact ⟨List.getElem?_set_ne (Ne.symm ht), List.getElem?_set_ne (Ne.symm ht)⟩
  · exact absurd h (by simp)

theorem fwd_loop_stable {α : Type} (op : LSTMBlockOp α) (fprop : LSTMCellBlockFprop α)
    (inp : LSTMBlockInputs α) (batch_size input_size : Int) (m : Nat)
    (st0 sm : LSTMBlockState α)
    (hm : LSTMBlockOp.loop op fprop inp batch_size input_size m st0 = some sm) :
    ∀ (d : Nat) (sn : LSTMBlockState α),
      LSTMBlockOp.loop op fprop inp batch_size input_size (m + d) st0 = some sn →
      ∀ t, t < m → sn.h[t]? = sm.h[t]? ∧ sn.states[t]? = sm.states[t]? := by
  intro d
  induction d with
  | zero =>
    intro sn hn t _
    rw [Nat.add_zero, hm] at hn
    rw [Option.some.inj hn]
    exact ⟨rfl, rfl⟩
  | succ e ih =>
    intro sn hn t ht
    rw [← Nat.add_assoc] at hn
    simp only [LSTMBlockOp.loop] at hn
    split at hn
    · rename_i s1 hs1
      obtain ⟨h1, h2⟩ := ih s1 hs1 t ht
      obtain ⟨h3, h4⟩ :=
        fwd_step_other_slots op fprop inp batch_size input_size (m + e) s1 sn hn t (by omega)
      exact ⟨h3.trans h1, h4.trans h2⟩
    · exact absurd hn (by simp)

theorem fwd_Compute_of_valid_loop {α : Type} [Zero α] (op : LSTMBlockOp α)
    (fprop : LSTMCellBlockFprop α) (uninit : Nat → Nat → α) (inp : LSTMBlockInputs α)
    (x0 : Matrix α) (D : Int)
    (hx0 : inp.x[0]? = some x0) (hD : max_element inp.sequence_len = some D)
    (hlen : inp.x.length = op.sequence_len_max_.toNat)
    (hvalid : LSTMBlockOp.validate op inp x0.dim0 x0.dim1 D = Status.OK) :
    ∃ st, LSTMBlockOp.loop op fprop inp x0.dim0 x0.dim1 D.toNat
          (LSTMBlockOp.allocate op uninit x0.dim0 x0.dim1) = some st ∧
      LSTMBlockOp.Compute op fprop uninit inp =
        some { status := Status.OK, h := st.h, states := st.states, calls := st.calls } ∧
      LSTMBlockOp.LoopInv op fprop uninit inp x0.dim0 x0.dim1 D.toNat st := by
  have hle : D.toNat ≤ op.sequence_len_max_.toNat :=
    Int.toNat_le_toNat ((fwd_validate_eq_OK_iff op inp _ _ _).mp hvalid).1
  obtain ⟨st, hst, hinv⟩ :=
    fwd_loop_inv op fprop uninit inp x0.dim0 x0.dim1 hlen D.toNat hle
  exact ⟨st, hst, by simp only [LSTMBlockOp.Compute, hx0, hD, hvalid, hst], hinv⟩

/-- C17. Causality of the forward scan.  Take two inputs with the same
`sequence_len`, `initial_state`, `w`, `b` (and the same attributes) whose lists
`x` agree on the timesteps `0..t`, the first of them passing validation, and
let `t < max(sequence_len)`.  Then both scans return, and they return the same
`h[t]` and the same `states[t]`. -/
theorem LSTMBlockOp.causality {α : Type} [Zero α] (op : LSTMBlockOp α)
    (fprop : LSTMCellBlockFprop α) (uninit : Nat → Nat → α) (inp1 inp2 : LSTMBlockInputs α)
    (x0 : Matrix α) (D : Int) (t : Nat)
    (hx0 : inp1.x[0]? = some x0) (hD : max_element inp1.sequence_len = some D)
    (hl1 : inp1.x.length = op.sequence_len_max_.toNat)
    (hl2 : inp2.x.length = op.sequence_len_max_.toNat)
    (hvalid : LSTMBlockOp.validate op inp1 x0.dim0 x0.dim1 D = Status.OK)
    (hseq : inp2.sequence_len = inp1.sequence_len)
    (hi : inp2.initial_state = inp1.initial_state) (hw : inp2.w = inp1.w)
    (hb : inp2.b = inp1.b)
    (ht : (t : Int) < D)
    (hx : ∀ k, k ≤ t → inp2.x[k]? = inp1.x[k]?) :
    ∃ ctx1 ctx2 hm sm,
      LSTMBlockOp.Compute op fprop uninit inp1 = some ctx1 ∧
      LSTMBlockOp.Compute op fprop uninit inp2 = some ctx2 ∧
      ctx1.h[t]? = some hm ∧ ctx2.h[t]? = some hm ∧
      ctx1.states[t]? = some sm ∧ ctx2.states[t]? = some sm := by
  have htD : t < D.toNat := Int.lt_toNat.mpr ht
  have hx02 : inp2.x[0]? = some x0 := by rw [hx 0 (Nat.zero_le t)]; exact hx0
  have hD2 : max_element inp2.sequence_len = some D := by rw [hseq]; exact hD
  have hvalid2 : LSTMBlockOp.validate op inp2 x0.dim0 x0.dim1 D = Status.OK := by
    simp only [LSTMBlockOp.validate, hi, hw, hb] at hvalid ⊢
    exact hvalid
  obtain ⟨st1, hloop1, hc1, hinv1⟩ :=
    fwd_Compute_of_valid_loop op fprop uninit inp1 x0 D hx0 hD hl1 hvalid
  obtain ⟨st2, hloop2, hc2, _⟩ :=
    fwd_Compute_of_valid_loop op fprop uninit inp2 x0 D hx02 hD2 hl2 hvalid2
  have hle : D.toNat ≤ op.sequence_len_max_.toNat :=
    Int.toNat_le_toNat ((fwd_validate_eq_OK_iff op inp1 _ _ _).mp hvalid).1
  obtain ⟨sm, hsm, _⟩ :=
    fwd_loop_inv op fprop uninit inp1 x0.dim0 x0.dim1 hl1 (t + 1) (by omega)
  have hsm2 : LSTMBlockOp.loop op fprop inp2 x0.dim0 x0.dim1 (t + 1)
      (LSTMBlockOp.allocate op uninit x0.dim0 x0.dim1) = some sm := by
    rw [fwd_loop_congr op fprop inp2 inp1 x0.dim0 x0.dim1 hi hw hb _ (t + 1)
      (fun k hk => hx k (by omega))]
    exact hsm
  have hsplit : D.toNat = (t + 1) + (D.toNat - (t + 1)) := by omega
  rw [hsplit] at hloop1 hloop2
  obtain ⟨a1, a2⟩ := fwd_loop_stable op fprop inp1 x0.dim0 x0.dim1 (t + 1) _ sm hsm _ st1 hloop1 t
    (Nat.lt_succ_self t)
  obtain ⟨b1, b2⟩ := fwd_loop_stable op fprop inp2 x0.dim0 x0.dim1 (t + 1) _ sm hsm2 _ st2 hloop2 t
    (Nat.lt_succ_self t)
  obtain ⟨call, _, _, _, _, _, _, _, _, _, _, _, hh, hs⟩ := hinv1.done t htD
  exact ⟨_, _, _, _, hc1, hc2, hh, by rw [b1, ← a1]; exact hh, hs, by rw [b2, ← a2]; exact hs⟩

/-- Witness of C17: on the second instance, changing `x[1]` does not change
`h[0]` and `states[0]`. -/
theorem LSTMBlockOp.causality_witness :
    (∀ k, k ≤ 0 →
      ({ demo2Inputs with
          x := demo2Inputs.x.set 1 { dim0 := 2, dim1 := 1, flat := [9, 6] } } :
        LSTMBlockInputs Int).x[k]? = demo2Inputs.x[k]?) ∧
    ∃ ctx1 ctx2 hm sm,
      LSTMBlockOp.Compute demo2Op (CellFprop demoActivations) demoUninit demo2Inputs =
        some ctx1 ∧
      LSTMBlockOp.Compute demo2Op (CellFprop demoActivations) demoUninit
        { demo2Inputs with
          x := demo2Inputs.x.set 1 { dim0 := 2, dim1 := 1, flat := [9, 6] } } = some ctx2 ∧
      ctx1.h[0]? = some hm ∧ ctx2.h[0]? = some hm ∧
      ctx1.states[0]? = some sm ∧ ctx2.states[0]? = some sm :=
  ⟨fun k hk => by
      have h0 : k = 0 := Nat.le_zero.mp hk
      subst h0
      rfl,
    LSTMBlockOp.causality demo2Op (CellFprop demoActivations) demoUninit demo2Inputs
      { demo2Inputs with x := demo2Inputs.x.set 1 { dim0 := 2, dim1 := 1, flat := [9, 6] } }
      { dim0 := 2, dim1 := 1, flat := [3, 4] } 2 0 (by decide) (by decide) (by decide)
      (by decide) (by decide) rfl rfl rfl rfl (by decide)
      (fun k hk => by
        have h0 : k = 0 := Nat.le_zero.mp hk
        subst h0
        rfl)⟩

theorem getElem?_set_of_ne {β : Type} (l : List β) (t k : Nat) (m : β) (h : k ≠ t) :
    (l.set t m)[k]? = l[k]? :=
  List.getElem?_set_ne (Ne.symm h)

theorem getElem?_zero_set_dims {α : Type} (l : List (Matrix α)) (t : Nat) (m mt x0 : Matrix α)
    (hx0 : l[0]? = some x0) (ht : l[t]? = some mt)
    (hd0 : m.dim0 = mt.dim0) (hd1 : m.dim1 = mt.dim1) :
    ∃ y0, (l.set t m)[0]? = some y0 ∧ x0.dim0 = y0.dim0 ∧ x0.dim1 = y0.dim1 := by
  by_cases h0 : t = 0
  · subst h0
    have hlt : 0 < l.length := (List.getElem?_eq_some.mp hx0).1
    have hmt : mt = x0 := Option.some.inj (ht.symm.trans hx0)
    exact ⟨m, List.getElem?_set_self hlt, by rw [hd0, hmt], by rw [hd1, hmt]⟩
  · exact ⟨x0, by rw [List.getElem?_set_ne h0]; exact hx0, rfl, rfl⟩

/-- C13 (as stated) fails.  On the second instance example `0` has length
`1`, so timestep `1` lies past its end; yet replacing row `0` of `x[1]`
(`5` by `9`, row `1` untouched) changes `h[1]` returned by the forward scan. -/
theorem LSTMBlockOp.influence_past_own_length :
    demo2Inputs.sequence_len[0]? = some 1 ∧ (1 : Int) ≤ 1 ∧
    demo2Inputs.x[1]? = some { dim0 := 2, dim1 := 1, flat := [5, 6] } ∧
    (({ dim0 := 2, dim1 := 1, flat := [5, 6] } : Matrix Int).row 1 =
      ({ dim0 := 2, dim1 := 1, flat := [9, 6] } : Matrix Int).row 1) ∧
    ∃ ctx1 ctx2 h1 h2,
      LSTMBlockOp.Compute demo2Op (CellFprop demoActivations) demoUninit demo2Inputs =
        some ctx1 ∧
      LSTMBlockOp.Compute demo2Op (CellFprop demoActivations) demoUninit
        { demo2Inputs with
          x := demo2Inputs.x.set 1 { dim0 := 2, dim1 := 1, flat := [9, 6] } } = some ctx2 ∧
      ctx1.h[1]? = some h1 ∧ ctx2.h[1]? = some h2 ∧ h1.row 0 = [11] ∧ h2.row 0 = [15] ∧
      ctx1.h ≠ ctx2.h := by
  refine ⟨by decide, by decide, by decide, by decide, _, _, _, _, rfl, rfl, rfl, rfl, by decide,
    by decide, by decide⟩

/-- C13 (amended). No timestep at or past the maximum of `sequence_len`
influences the scans.  If `t ≥ max(sequence_len)`, then replacing `x[t]` by
any tensor of the same shape (in particular one that differs from it in a
single row), all other inputs unchanged, leaves the whole result of the
forward scan (status, every `h` and `states`) unchanged, and the forward scan
does return a result; and when `max(sequence_len)` is greater than `INT64_MIN`
the same holds of the backward scan (status, every `x_grad`, `w_grad`,
`b_grad`). -/
theorem LSTMBlockOp.no_influence_past_max {α : Type} [Zero α]
    (fop : LSTMBlockOp α) (fprop : LSTMCellBlockFprop α) (finp : LSTMBlockInputs α)
    (bop : LSTMBlockGradOp) (bprop : LSTMCellBlockBprop α) (binp : LSTMBlockGradInputs α)
    (uninit : Nat → Nat → α) (D : Int) (t : Nat) (m mt : Matrix α)
    (hfx : finp.x ≠ []) (hbxx : binp.x = finp.x)
    (hflen : finp.x.length = fop.sequence_len_max_.toNat)
    (hblx : binp.x.length = bop.sequence_len_max_.toNat)
    (hbls : binp.states.length = bop.sequence_len_max_.toNat)
    (hblg : binp.h_grad.length = bop.sequence_len_max_.toNat)
    (hfD : max_element finp.sequence_len = some D)
    (hbD : max_element binp.sequence_len = some D)
    (hDt : D ≤ (t : Int))
    (hmt : finp.x[t]? = some mt) (hd0 : m.dim0 = mt.dim0) (hd1 : m.dim1 = mt.dim1) :
    ∃ fctx,
      LSTMBlockOp.Compute fop fprop uninit finp = some fctx ∧
      LSTMBlockOp.Compute fop fprop uninit { finp with x := finp.x.set t m } = some fctx ∧
      (INT64_MIN < D → ∃ bctx,
        LSTMBlockGradOp.Compute bop bprop uninit binp = some bctx ∧
        LSTMBlockGradOp.Compute bop bprop uninit { binp with x := binp.x.set t m } =
          some bctx) := by
  obtain ⟨x0, hx0⟩ := getElem?_zero_of_ne_nil hfx
  have hbx0 : binp.x[0]? = some x0 := by rw [hbxx]; exact hx0
  obtain ⟨y0, hy0, e0, e1⟩ := getElem?_zero_set_dims finp.x t m mt x0 hx0 hmt hd0 hd1
  have htD : D.toNat ≤ t := Int.toNat_le.mpr hDt
  obtain ⟨fctx, hf⟩ := fwd_Compute_total fop fprop uninit finp x0 D hx0 hfD hflen
  refine ⟨fctx, hf, ?_, ?_⟩
  · rw [← hf]
    exact (fwd_Compute_congr fop fprop uninit finp { finp with x := finp.x.set t m } x0 y0 D
      hx0 hy0 e0 e1 hfD hfD rfl rfl rfl
      (fun k hk => (getElem?_set_of_ne finp.x t k m (by omega)).symm)).symm
  · intro hmin
    obtain ⟨bctx, hb⟩ :=
      bwd_Compute_total bop bprop uninit binp x0 D hbx0 hbD hblx hbls hblg hmin
    refine ⟨bctx, hb, ?_⟩
    rw [← hb]
    have hcount := int64_pred_toNat D hmin
    exact (bwd_Compute_congr bop bprop uninit binp { binp with x := binp.x.set t m } x0 y0 D
      hbx0 (by rw [hbxx]; exact hy0) e0 e1 hbD hbD rfl rfl rfl
      (fun k hk => ⟨(getElem?_set_of_ne binp.x t k m (by omega)).symm, rfl, rfl⟩)).symm

/-- Witness of C13 (amended): the second instance with `sequence_len = [1, 1]`,
where timestep `1` lies past the maximum. -/
theorem LSTMBlockOp.no_influence_past_max_witness :
    (max_element [1, 1] = some 1 ∧ (1 : Int) ≤ ((1 : Nat) : Int) ∧
      demo2Inputs.x[1]? = some { dim0 := 2, dim1 := 1, flat := [5, 6] } ∧
      INT64_MIN < 1) ∧
    ∃ fctx bctx,
      LSTMBlockOp.Compute demo2Op (CellFprop demoActivations) demoUninit
        { demo2Inputs with sequence_len := [1, 1] } = some fctx ∧
      LSTMBlockOp.Compute demo2Op (CellFprop demoActivations) demoUninit
        { ({ demo2Inputs with sequence_len := [1, 1] } : LSTMBlockInputs Int) with
          x := ({ demo2Inputs with sequence_len := [1, 1] } : LSTMBlockInputs Int).x.set 1
            { dim0 := 2, dim1 := 1, flat := [9, 6] } } = some fctx ∧
      LSTMBlockGradOp.Compute demo2GradOp demoRowBprop demoUninit
        { demo2GradInputs with sequence_len := [1, 1] } = some bctx ∧
      LSTMBlockGradOp.Compute demo2GradOp demoRowBprop demoUninit
        { ({ demo2GradInputs with sequence_len := [1, 1] } : LSTMBlockGradInputs Int) with
          x := ({ demo2GradInputs with sequence_len := [1, 1] } : LSTMBlockGradInputs Int).x.set 1
            { dim0 := 2, dim1 := 1, flat := [9, 6] } } = some bctx :=
  ⟨⟨by decide, by decide, by decide, by decide⟩,
    (LSTMBlockOp.no_influence_past_max demo2Op (CellFprop demoActivations)
      { demo2Inputs with sequence_len := [1, 1] } demo2GradOp demoRowBprop
      { demo2GradInputs with sequence_len := [1, 1] } demoUninit 1 1
      { dim0 := 2, dim1 := 1, flat := [9, 6] } { dim0 := 2, dim1 := 1, flat := [5, 6] }
      (by decide) rfl (by decide) (by decide) (by decide) (by decide) (by decide) (by decide)
      (by decide) (by decide) rfl rfl).elim
      (fun fctx hf => (hf.2.2 (by decide)).elim
        (fun bctx hb => ⟨fctx, bctx, hf.1, hf.2.1, hb.1, hb.2⟩))⟩

/-! ### Masking -/

theorem row_of_zeros {α : Type} [Zero α] (B C : Int) (i : Nat) (hi : (i : Int) < B) :
    ({ dim0 := B, dim1 := C, flat := List.replicate (B * C).toNat 0 } : Matrix α).row i =
      List.replicate C.toNat 0 := by
  simp only [Matrix.row, List.drop_replicate, List.take_replicate]
  congr 1
  by_cases hC : C ≤ 0
  · have : C.toNat = 0 := Int.toNat_eq_zero.mpr hC
    rw [this]
    simp
  · obtain ⟨b, rfl⟩ := Int.eq_ofNat_of_zero_le (show 0 ≤ B by omega)
    obtain ⟨c, rfl⟩ := Int.eq_ofNat_of_zero_le (show 0 ≤ C by omega)
    have hib : i < b := by exact_mod_cast hi
    have hn : ((b : Int) * (c : Int)).toNat = b * c := by
      rw [← Int.natCast_mul, Int.toNat_natCast]
    have hle : (i + 1) * c ≤ b * c := Nat.mul_le_mul_right c hib
    have hexp : (i + 1) * c = i * c + c := by ring
    simp only [hn, Int.toNat_natCast]
    omega

/-- C11 (as stated) fails.  On the second instance example `0` has length `1`
and `MaxLen = 2`, so timestep `1` lies past its end; the input passes
validation, yet row `0` of `h[1]` is `[11]` and row `0` of `states[1]` is
`[1, 8, 1, 1, 8, 11, 11]`: the scan hands the whole batch to the functor for
every `t < max(sequence_len) = 2`. -/
theorem LSTMBlockOp.no_per_example_masking :
    demo2Inputs.sequence_len[0]? = some 1 ∧ (1 : Int) ≤ ((1 : Nat) : Int) ∧
    ((1 : Nat) : Int) < demo2Op.sequence_len_max_ ∧
    LSTMBlockOp.validate demo2Op demo2Inputs 2 1 2 = Status.OK ∧
    ∃ ctx hm sm,
      LSTMBlockOp.Compute demo2Op (CellFprop demoActivations) demoUninit demo2Inputs =
        some ctx ∧
      ctx.h[1]? = some hm ∧ ctx.states[1]? = some sm ∧
      hm.row 0 = [11] ∧ sm.row 0 = [1, 8, 1, 1, 8, 11, 11] ∧
      hm.row 0 ≠ List.replicate 1 0 ∧ sm.row 0 ≠ List.replicate 7 0 := by
  refine ⟨by decide, by decide, by decide, by decide, _, _, _, rfl, rfl, rfl, by decide,
    by decide, by decide, by decide⟩

/-- C11 (amended). Masking of the forward scan past the maximum length.  For an
input that passes validation, every example `i` of the batch and every
timestep `t` with `max(sequence_len) ≤ t < MaxLen`, row `i` of `h[t]` and
row `i` of `states[t]` consist of zeros only (`CellSize` and `7 * CellSize` of
them). -/
theorem LSTMBlockOp.rows_zero_past_max {α : Type} [Zero α] (op : LSTMBlockOp α)
    (fprop : LSTMCellBlockFprop α) (uninit : Nat → Nat → α) (inp : LSTMBlockInputs α)
    (x0 : Matrix α) (D : Int)
    (hx0 : inp.x[0]? = some x0) (hD : max_element inp.sequence_len = some D)
    (hlen : inp.x.length = op.sequence_len_max_.toNat)
    (hvalid : LSTMBlockOp.validate op inp x0.dim0 x0.dim1 D = Status.OK) :
    ∃ ctx, LSTMBlockOp.Compute op fprop uninit inp = some ctx ∧
      ∀ i t : Nat, (i : Int) < x0.dim0 → D ≤ (t : Int) → (t : Int) < op.sequence_len_max_ →
        ∃ hm sm, ctx.h[t]? = some hm ∧ ctx.states[t]? = some sm ∧
          hm.row i = List.replicate op.cell_size_.toNat 0 ∧
          sm.row i = List.replicate (7 * op.cell_size_).toNat 0 := by
  obtain ⟨st, hc, hinv⟩ := fwd_Compute_of_valid op fprop uninit inp x0 D hx0 hD hlen hvalid
  refine ⟨_, hc, ?_⟩
  intro i t hi hDt htM
  obtain ⟨hh, hs⟩ := hinv.untouched t (Int.toNat_le.mpr hDt) (Int.lt_toNat.mpr htM)
  rw [matrix_memZero_allocate] at hh hs
  refine ⟨_, _, hh, hs, row_of_zeros _ _ i hi, ?_⟩
  rw [row_of_zeros _ _ i hi, mul_comm]

/-- Witness of C11 (amended): the second instance with `sequence_len = [1, 1]`,
where timestep `1` lies past the maximum. -/
theorem LSTMBlockOp.rows_zero_past_max_witness :
    (({ demo2Inputs with sequence_len := [1, 1] } : LSTMBlockInputs Int).x[0]? =
        some { dim0 := 2, dim1 := 1, flat := [3, 4] } ∧
      max_element [1, 1] = some 1 ∧
      LSTMBlockOp.validate demo2Op { demo2Inputs with sequence_len := [1, 1] } 2 1 1 =
        Status.OK) ∧
    ∃ ctx, LSTMBlockOp.Compute demo2Op (CellFprop demoActivations) demoUninit
        { demo2Inputs with sequence_len := [1, 1] } = some ctx ∧
      ∀ i t : Nat, (i : Int) < 2 → (1 : Int) ≤ (t : Int) →
        (t : Int) < demo2Op.sequence_len_max_ →
        ∃ hm sm, ctx.h[t]? = some hm ∧ ctx.states[t]? = some sm ∧
          hm.row i = List.replicate demo2Op.cell_size_.toNat 0 ∧
          sm.row i = List.replicate (7 * demo2Op.cell_size_).toNat 0 :=
  ⟨⟨by decide, by decide, by decide⟩,
    LSTMBlockOp.rows_zero_past_max demo2Op (CellFprop demoActivations) demoUninit
      { demo2Inputs with sequence_len := [1, 1] } { dim0 := 2, dim1 := 1, flat := [3, 4] } 1
      (by decide) (by decide) (by decide) (by decide)⟩

/-- C12 (as stated) fails.  On the second backward instance example `0` has
length `1` and `MaxLen = 2`, so timestep `1` lies past its end, and the input
passes the checks.  Whatever the backward functor is, the scan invokes it for
`t = 1` first, on the whole batch (both rows of `x[1]` and of `h_grad[1]`), and
`x_grad[1]` is, row `0` included, what that invocation wrote.  With a functor
that hands the gradient of each example through (`x_grad[r] = h_grad[r] +
states_grad[r, 5]`), row `0` of `x_grad[1]` is `[1]`, the upstream gradient of
example `0` at timestep `1`, not zero. -/
theorem LSTMBlockGradOp.no_per_example_masking_of_x_grad :
    demo2GradInputs.sequence_len[0]? = some 1 ∧ (1 : Int) ≤ ((1 : Nat) : Int) ∧
    ((1 : Nat) : Int) < demo2GradOp.sequence_len_max_ ∧
    LSTMBlockGradOp.validate demo2GradOp demo2GradInputs 1 2 = Status.OK ∧
    demo2GradInputs.shapesValid demo2GradOp 2 1 2 ∧
    (∀ bprop : LSTMCellBlockBprop Int, ∃ ctx call,
      LSTMBlockGradOp.Compute demo2GradOp bprop demoUninit demo2GradInputs = some ctx ∧
      ctx.calls[0]? = some (1, call) ∧
      call.x = { dim0 := 2, dim1 := 1, flat := [5, 6] } ∧
      call.h_grad = { dim0 := 2, dim1 := 1, flat := [1, 1] } ∧
      call.batch_size = 2 ∧
      ctx.x_grad[1]? = some (call.x_grad.written (call.run bprop).x_grad)) ∧
    ∃ ctx m,
      LSTMBlockGradOp.Compute demo2GradOp demoRowBprop demoUninit demo2GradInputs = some ctx ∧
      ctx.x_grad[1]? = some m ∧ m.row 0 = [1] ∧ m.row 0 ≠ List.replicate 1 0 := by
  refine ⟨by decide, by decide, by decide, by decide,
    by unfold LSTMBlockGradInputs.shapesValid; decide, ?_, _, _, rfl, rfl, by decide, by decide⟩
  intro bprop
  exact ⟨_, _, rfl, rfl, rfl, rfl, rfl, rfl⟩

/-- C12 (amended). Masking of the backward scan past the maximum length.  For a
valid input whose `max(sequence_len)` is greater than `INT64_MIN`, every
example `i` of the batch and every timestep `t` with
`max(sequence_len) ≤ t < MaxLen`, row `i` of `x_grad[t]` consists of zeros only
(`InputSize` of them). -/
theorem LSTMBlockGradOp.x_grad_rows_zero_past_max {α : Type} [Zero α] (op : LSTMBlockGradOp)
    (bprop : LSTMCellBlockBprop α) (uninit : Nat → Nat → α) (inp : LSTMBlockGradInputs α)
    (x0 : Matrix α) (D : Int)
    (hx0 : inp.x[0]? = some x0) (hD : max_element inp.sequence_len = some D)
    (hlx : inp.x.length = op.sequence_len_max_.toNat)
    (hls : inp.states.length = op.sequence_len_max_.toNat)
    (hlg : inp.h_grad.length = op.sequence_len_max_.toNat)
    (hvalid : LSTMBlockGradOp.validate op inp x0.dim1 D = Status.OK)
    (hmin : INT64_MIN < D) :
    ∃ ctx, LSTMBlockGradOp.Compute op bprop uninit inp = some ctx ∧
      ∀ i t : Nat, (i : Int) < x0.dim0 → D ≤ (t : Int) → (t : Int) < op.sequence_len_max_ →
        ∃ m, ctx.x_grad[t]? = some m ∧ m.row i = List.replicate x0.dim1.toNat 0 := by
  obtain ⟨st, hc, _, hinv⟩ :=
    bwd_Compute_of_valid op bprop uninit inp x0 D hx0 hD hlx hls hlg hvalid hmin
  refine ⟨_, hc, ?_⟩
  intro i t hi hDt htM
  have hxg := hinv.untouched t (Or.inr (Int.toNat_le.mpr hDt)) (Int.lt_toNat.mpr htM)
  rw [matrix_memZero_allocate] at hxg
  exact ⟨_, hxg, row_of_zeros _ _ i hi⟩

/-- Witness of C12 (amended): the second backward instance with
`sequence_len = [1, 1]`, where timestep `1` lies past the maximum. -/
theorem LSTMBlockGradOp.x_grad_rows_zero_past_max_witness :
    (({ demo2GradInputs with sequence_len := [1, 1] } : LSTMBlockGradInputs Int).x[0]? =
        some { dim0 := 2, dim1 := 1, flat := [3, 4] } ∧
      max_element [1, 1] = some 1 ∧
      LSTMBlockGradOp.validate demo2GradOp { demo2GradInputs with sequence_len := [1, 1] } 1 1 =
        Status.OK ∧
      INT64_MIN < 1) ∧
    ∃ ctx, LSTMBlockGradOp.Compute demo2GradOp demoRowBprop demoUninit
        { demo2GradInputs with sequence_len := [1, 1] } = some ctx ∧
      ∀ i t : Nat, (i : Int) < 2 → (1 : Int) ≤ (t : Int) →
        (t : Int) < demo2GradOp.sequence_len_max_ →
        ∃ m, ctx.x_grad[t]? = some m ∧ m.row i = List.replicate (1 : Int).toNat 0 :=
  ⟨⟨by decide, by decide, by decide, by decide⟩,
    LSTMBlockGradOp.x_grad_rows_zero_past_max demo2GradOp demoRowBprop demoUninit
      { demo2GradInputs with sequence_len := [1, 1] } { dim0 := 2, dim1 := 1, flat := [3, 4] } 1
      (by decide) (by decide) (by decide) (by decide) (by decide) (by decide) (by decide)⟩

/-! ### The one-step scan and the single-timestep op -/

theorem CellFprop_overwrites {α : Type} [Zero α] [Add α] [Mul α] (act : Activations α) :
    FpropOverwrites (CellFprop act) := by
  rintro c d ⟨h1, h2, h3, h4, h5, h6, h7, h8⟩
  simp only [FpropCall.run, CellFprop, h1, h2, h3, h4, h5, h6, h7, h8]

theorem eq_singleton_of_getElem? {β : Type} (l : List β) (a : β) (hl : l.length = 1)
    (h : l[0]? = some a) : l = [a] := by
  cases l with
  | nil => simp at hl
  | cons b tl =>
    cases tl with
    | nil =>
      simp only [List.getElem?_cons_zero, Option.some.injEq] at h
      rw [h]
    | cons c tl2 => simp at hl

/-- C18. A one-step forward scan equals the single-timestep forward op.  Let
`MaxLen = 1`, let `x` hold the single tensor `x0`, let `max(sequence_len) = 1`,
and let the forward functor fill its outputs from its read-only arguments.
Then the scan and `LSTMCellBlockOp` (with `x = x0`,
`states_prev = initial_state`, the same `w`, `b`, `cell_size`, `forget_bias`)
accept exactly the same inputs, and when they do, the scan returns with status
OK exactly one `h` and one `states`, equal to the `h` and `states` that
`LSTMCellBlockOp` returns. -/
theorem LSTMBlockOp.one_step_scan_eq_cell {α : Type} [Zero α] (op : LSTMBlockOp α)
    (fprop : LSTMCellBlockFprop α) (uninit cellUninit : Nat → Nat → α)
    (inp : LSTMBlockInputs α) (x0 : Matrix α)
    (hM : op.sequence_len_max_ = 1) (hx : inp.x = [x0])
    (hD : max_element inp.sequence_len = some 1)
    (hover : FpropOverwrites fprop) :
    (LSTMBlockOp.validate op inp x0.dim0 x0.dim1 1 = Status.OK ↔
      LSTMCellBlockOp.validate { cell_size_ := op.cell_size_, forget_bias_ := op.forget_bias_ }
        { x := x0, states_prev := inp.initial_state, w := inp.w, b := inp.b } = Status.OK) ∧
    (LSTMCellBlockOp.validate { cell_size_ := op.cell_size_, forget_bias_ := op.forget_bias_ }
        { x := x0, states_prev := inp.initial_state, w := inp.w, b := inp.b } = Status.OK →
      ∃ ctx hm sm, LSTMBlockOp.Compute op fprop uninit inp = some ctx ∧
        ctx.status = Status.OK ∧ ctx.h = [hm] ∧ ctx.states = [sm] ∧
        (LSTMCellBlockOp.Compute
          { cell_size_ := op.cell_size_, forget_bias_ := op.forget_bias_ } fprop cellUninit
          { x := x0, states_prev := inp.initial_state, w := inp.w, b := inp.b }).status =
            Status.OK ∧
        (LSTMCellBlockOp.Compute
          { cell_size_ := op.cell_size_, forget_bias_ := op.forget_bias_ } fprop cellUninit
          { x := x0, states_prev := inp.initial_state, w := inp.w, b := inp.b }).h = some hm ∧
        (LSTMCellBlockOp.Compute
          { cell_size_ := op.cell_size_, forget_bias_ := op.forget_bias_ } fprop cellUninit
          { x := x0, states_prev := inp.initial_state, w := inp.w, b := inp.b }).states =
            some sm) := by
  have hiff : LSTMBlockOp.validate op inp x0.dim0 x0.dim1 1 = Status.OK ↔
      LSTMCellBlockOp.validate { cell_size_ := op.cell_size_, forget_bias_ := op.forget_bias_ }
        { x := x0, states_prev := inp.initial_state, w := inp.w, b := inp.b } = Status.OK := by
    simp only [LSTMBlockOp.validate, LSTMCellBlockOp.validate, hM]
    split_ifs <;> simp_all
  refine ⟨hiff, ?_⟩
  intro hcv
  have hvalid := hiff.mpr hcv
  have hx0 : inp.x[0]? = some x0 := by rw [hx]; rfl
  have hlen : inp.x.length = op.sequence_len_max_.toNat := by rw [hx, hM]; rfl
  obtain ⟨st, hc, hinv⟩ := fwd_Compute_of_valid op fprop uninit inp x0 1 hx0 hD hlen hvalid
  obtain ⟨call, _, c2, c3, c4, c5, c6, c7, c8, c9, c10, c11, c12, c13⟩ :=
    hinv.done 0 (by decide)
  have hcx : call.x = x0 := (Option.some.inj (hx0.symm.trans c2)).symm
  have hcp : call.states_prev = inp.initial_state := by
    rw [if_pos (Nat.le_refl 0)] at c3
    exact (Option.some.inj c3).symm
  have hT : op.sequence_len_max_.toNat = 1 := by rw [hM]; rfl
  have hrun : ∀ d : FpropCall α, d.batch_size = x0.dim0 → d.input_size = x0.dim1 →
      d.cell_size = op.cell_size_ → d.forget_bias = op.forget_bias_ → d.x = x0 →
      d.states_prev = inp.initial_state → d.w = inp.w → d.b = inp.b →
      d.run fprop = call.run fprop := by
    intro d d1 d2 d3 d4 d5 d6 d7 d8
    apply hover
    exact ⟨by rw [d1, c7], by rw [d2, c8], by rw [d3, c9], by rw [d4, c6], by rw [d5, hcx],
      by rw [d6, hcp], by rw [d7, c4], by rw [d8, c5]⟩
  refine ⟨_, _, _, hc, rfl,
    eq_singleton_of_getElem? _ _ (by rw [hinv.h_length, hT]) c12,
    eq_singleton_of_getElem? _ _ (by rw [hinv.states_length, hT]) c13, ?_, ?_, ?_⟩
  · simp only [LSTMCellBlockOp.Compute, hcv]
  · simp only [LSTMCellBlockOp.Compute, hcv]
    rw [hrun _ rfl rfl rfl rfl rfl rfl rfl rfl, c10]
    rfl
  · simp only [LSTMCellBlockOp.Compute, hcv]
    rw [hrun _ rfl rfl rfl rfl rfl rfl rfl rfl, c11]
    rfl

/-- Witness of C18: the one-step scan on timestep 0 of the second instance. -/
theorem LSTMBlockOp.one_step_scan_eq_cell_witness :
    (demo1Op.sequence_len_max_ = 1 ∧
      demo1Inputs.x = [{ dim0 := 2, dim1 := 1, flat := [3, 4] }] ∧
      max_element demo1Inputs.sequence_len = some 1 ∧
      FpropOverwrites (CellFprop demoActivations)) ∧
    (LSTMBlockOp.validate demo1Op demo1Inputs 2 1 1 = Status.OK ↔
      LSTMCellBlockOp.validate
        { cell_size_ := demo1Op.cell_size_, forget_bias_ := demo1Op.forget_bias_ }
        { x := { dim0 := 2, dim1 := 1, flat := [3, 4] }
          states_prev := demo1Inputs.initial_state, w := demo1Inputs.w, b := demo1Inputs.b } =
        Status.OK) ∧
    (LSTMCellBlockOp.validate
        { cell_size_ := demo1Op.cell_size_, forget_bias_ := demo1Op.forget_bias_ }
        { x := { dim0 := 2, dim1 := 1, flat := [3, 4] }
          states_prev := demo1Inputs.initial_state, w := demo1Inputs.w, b := demo1Inputs.b } =
        Status.OK →
      ∃ ctx hm sm,
        LSTMBlockOp.Compute demo1Op (CellFprop demoActivations) demoUninit demo1Inputs =
          some ctx ∧
        ctx.status = Status.OK ∧ ctx.h = [hm] ∧ ctx.states = [sm] ∧
        (LSTMCellBlockOp.Compute
          { cell_size_ := demo1Op.cell_size_, forget_bias_ := demo1Op.forget_bias_ }
          (CellFprop demoActivations) demoUninit
          { x := { dim0 := 2, dim1 := 1, flat := [3, 4] }
            states_prev := demo1Inputs.initial_state, w := demo1Inputs.w
            b := demo1Inputs.b }).status = Status.OK ∧
        (LSTMCellBlockOp.Compute
          { cell_size_ := demo1Op.cell_size_, forget_bias_ := demo1Op.forget_bias_ }
          (CellFprop demoActivations) demoUninit
          { x := { dim0 := 2, dim1 := 1, flat := [3, 4] }
            states_prev := demo1Inputs.initial_state, w := demo1Inputs.w
            b := demo1Inputs.b }).h = some hm ∧
        (LSTMCellBlockOp.Compute
          { cell_size_ := demo1Op.cell_size_, forget_bias_ := demo1Op.forget_bias_ }
          (CellFprop demoActivations) demoUninit
          { x := { dim0 := 2, dim1 := 1, flat := [3, 4] }
            states_prev := demo1Inputs.initial_state, w := demo1Inputs.w
            b := demo1Inputs.b }).states = some sm) :=
  ⟨⟨by decide, by decide, by decide, CellFprop_overwrites demoActivations⟩,
    LSTMBlockOp.one_step_scan_eq_cell demo1Op (CellFprop demoActivations) demoUninit demoUninit
      demo1Inputs { dim0 := 2, dim1 := 1, flat := [3, 4] } (by decide) (by decide) (by decide)
      (CellFprop_overwrites demoActivations)⟩

/-! ### `CuBlasGemm` -/

/-- C15. `CuBlasGemm`.  In a CUDA build the call issues exactly one
`ThenBlasGemm` launch, with the given arguments; when that launch reports
failure the context is handed the `Aborted` error, and when it reports success
the context is left as it was.  In a build without CUDA the call issues no
launch and hands the context the `InvalidArgument` error. -/
theorem CuBlasGemm_launch_and_status {Ctx α P : Type} (SetStatus : Ctx → GemmError → Ctx)
    (ThenBlasGemm : BlasGemmArgs α P → Bool) (ctx : Ctx) (transa transb : Bool)
    (m n k : Nat) (alpha : α) (a : P) (lda : Int) (b : P) (ldb : Int) (beta : α) (c : P)
    (ldc : Int) :
    (∃ args : BlasGemmArgs α P,
      args.m = m ∧ args.n = n ∧ args.k = k ∧ args.alpha = alpha ∧ args.a = a ∧
      args.lda = lda ∧ args.b = b ∧ args.ldb = ldb ∧ args.beta = beta ∧ args.c = c ∧
      args.ldc = ldc ∧
      args.transa = (if transa then Transpose.kTranspose else Transpose.kNoTranspose) ∧
      args.transb = (if transb then Transpose.kTranspose else Transpose.kNoTranspose) ∧
      (CuBlasGemm true SetStatus ThenBlasGemm ctx transa transb m n k alpha a lda b ldb beta c
        ldc).launches = [args] ∧
      (CuBlasGemm true SetStatus ThenBlasGemm ctx transa transb m n k alpha a lda b ldb beta c
        ldc).ctx =
          (if ThenBlasGemm args then ctx
            else SetStatus ctx GemmError.Aborted_CuBlasGemm_failed)) ∧
    (CuBlasGemm false SetStatus ThenBlasGemm ctx transa transb m n k alpha a lda b ldb beta c
      ldc).launches = [] ∧
    (CuBlasGemm false SetStatus ThenBlasGemm ctx transa transb m n k alpha a lda b ldb beta c
      ldc).ctx = SetStatus ctx GemmError.InvalidArgument_CuBlasGemm_needs_CUDA := by
  refine ⟨⟨{ transa := if transa then Transpose.kTranspose else Transpose.kNoTranspose
             transb := if transb then Transpose.kTranspose else Transpose.kNoTranspose
             m := m, n := n, k := k, alpha := alpha, a := a, lda := lda, b := b, ldb := ldb
             beta := beta, c := c, ldc := ldc },
    rfl, rfl, rfl, rfl, rfl, rfl, rfl, rfl, rfl, rfl, rfl, rfl, rfl, ?_, ?_⟩, rfl, rfl⟩
  · simp only [CuBlasGemm, if_true]
    split_ifs <;> rfl
  · simp only [CuBlasGemm, if_true]
    split_ifs <;> simp_all

/-! ### Error precedence of the forward scan -/

/-- C5 at `sequence_len = [INT64_MIN]`.  The backward instance with this
sequence length is a valid input of the accumulation: the four checks pass, the
lists have `MaxLen = 3` entries and the tensors have the shapes of the data
model.  The sum over `t = D - 1` down to `0` is empty, so `w_grad` and `b_grad`
would be the zeroed buffers.  But `D - 1` overflows: the loop variable of line
582 starts at `INT64_MAX`, the first iteration reads `x_tensors[INT64_MAX]`,
and `Compute` returns no `w_grad` and no `b_grad`, whatever the backward
functor is.  For every other maximum the accumulation holds
(`weight_bias_accumulation`). -/
theorem LSTMBlockGradOp.no_w_grad_at_INT64_MIN :
    demoGradInputsMin.x[0]? = some { dim0 := 1, dim1 := 1, flat := [5] } ∧
    max_element demoGradInputsMin.sequence_len = some INT64_MIN ∧
    demoGradInputsMin.x.length = demoGradOp.sequence_len_max_.toNat ∧
    demoGradInputsMin.states.length = demoGradOp.sequence_len_max_.toNat ∧
    demoGradInputsMin.h_grad.length = demoGradOp.sequence_len_max_.toNat ∧
    LSTMBlockGradOp.validate demoGradOp demoGradInputsMin 1 INT64_MIN = Status.OK ∧
    demoGradInputsMin.shapesValid demoGradOp 1 1 INT64_MIN.toNat ∧
    (List.range INT64_MIN.toNat).reverse = [] ∧
    int64_pred INT64_MIN = INT64_MAX ∧
    LSTMBlockGradOp.Compute demoGradOp demoBprop demoUninit demoGradInputsMin = none ∧
    ∀ bprop : LSTMCellBlockBprop Int, ¬ ∃ ctx wg bg,
      LSTMBlockGradOp.Compute demoGradOp bprop demoUninit demoGradInputsMin = some ctx ∧
      ctx.w_grad = some wg ∧ ctx.b_grad = some bg := by
  refine ⟨by decide, by decide, by decide, by decide, by decide, by decide,
    by unfold LSTMBlockGradInputs.shapesValid; decide, by decide, by decide, rfl, ?_⟩
  rintro bprop ⟨ctx, _, _, hc, _⟩
  exact Option.noConfusion hc

/-- C7 at `sequence_len = [INT64_MIN]`.  The backward instance with this
sequence length passes the four checks and its lists have `MaxLen = 3` entries,
so exactly three zeroed buffers `x_grad` are due.  But `sequence_len_max - 1`
overflows: the loop variable of line 582 starts at `INT64_MAX`, which is
`≥ 0`, so the loop body runs; it indexes the tensor lists at `INT64_MAX`, out
of range, whatever the functor and the state of the buffers are; and `Compute`
returns no result, whatever the functor and the allocator are.  For every
other maximum the zero fill holds (`backward_zero_fill`). -/
theorem LSTMBlockGradOp.no_x_grad_at_INT64_MIN :
    demoGradInputsMin.x[0]? = some { dim0 := 1, dim1 := 1, flat := [5] } ∧
    max_element demoGradInputsMin.sequence_len = some INT64_MIN ∧
    demoGradInputsMin.x.length = demoGradOp.sequence_len_max_.toNat ∧
    demoGradInputsMin.states.length = demoGradOp.sequence_len_max_.toNat ∧
    demoGradInputsMin.h_grad.length = demoGradOp.sequence_len_max_.toNat ∧
    LSTMBlockGradOp.validate demoGradOp demoGradInputsMin 1 INT64_MIN = Status.OK ∧
    int64_pred INT64_MIN = INT64_MAX ∧ 0 ≤ INT64_MAX ∧
    demoGradInputsMin.x[INT64_MAX.toNat]? = none ∧
    (∀ (bprop : LSTMCellBlockBprop Int) (st : LSTMBlockGradState Int),
      LSTMBlockGradOp.step demoGradOp bprop demoGradInputsMin 1 1 INT64_MAX.toNat st = none) ∧
    ∀ (bprop : LSTMCellBlockBprop Int) (uninit : Nat → Nat → Int),
      LSTMBlockGradOp.Compute demoGradOp bprop uninit demoGradInputsMin = none :=
  ⟨by decide, by decide, by decide, by decide, by decide, by decide, by decide, by decide,
    by decide, fun _ _ => rfl, fun _ _ => rfl⟩

/-- C19 at `sequence_len = [INT64_MIN, INT64_MIN]`.  On the second instance
every entry of this vector is `≤ 0` and the shapes pass the checks of both
scans.  The forward scan returns with status OK, no functor invocation, and
`MaxLen = 2` buffers `h` and `states` of zeros.  The backward scan returns no
result: the initial value `sequence_len_max - 1` of the loop variable of line
582 overflows to `INT64_MAX`, so the loop body runs and indexes the tensor
lists out of range.  For sequences that are all `≤ 0` with an entry above
`INT64_MIN` both scans return zeros (`empty_sequences`). -/
theorem LSTMBlockGradOp.no_result_for_all_negative_lengths :
    (∀ v ∈ demo2InputsMin.sequence_len, v ≤ 0) ∧ demo2InputsMin.sequence_len ≠ [] ∧
    (∀ v ∈ demo2GradInputsMin.sequence_len, v ≤ 0) ∧ demo2GradInputsMin.sequence_len ≠ [] ∧
    LSTMBlockOp.validate demo2Op demo2InputsMin 2 1 INT64_MIN = Status.OK ∧
    LSTMBlockGradOp.validate demo2GradOp demo2GradInputsMin 1 INT64_MIN = Status.OK ∧
    (∃ fctx,
      LSTMBlockOp.Compute demo2Op (CellFprop demoActivations) demoUninit demo2InputsMin =
        some fctx ∧
      fctx.status = Status.OK ∧ fctx.calls = [] ∧
      fctx.h = List.replicate 2 { dim0 := 2, dim1 := 1, flat := [0, 0] } ∧
      fctx.states = List.replicate 2 { dim0 := 2, dim1 := 7, flat := List.replicate 14 0 }) ∧
    int64_pred INT64_MIN = INT64_MAX ∧
    LSTMBlockGradOp.Compute demo2GradOp demoRowBprop demoUninit demo2GradInputsMin = none :=
  ⟨by decide, by decide, by decide, by decide, by decide, by decide,
    ⟨_, rfl, by decide, by decide, by decide, by decide⟩, by decide, rfl⟩

end tensorflow
